import Mathlib

/-! # Exam integrity monitor of `online_exam_proctor`

A shallow embedding of the fullscreen / tab-switch / clipboard monitoring code of

* `frontend/src/pages/Test.jsx` (namespace `Proctor.Test`),
* `frontend/src/pages/CodeEditor.jsx` (namespace `Proctor.CodeEditor`),
* `frontend/src/components/CodeEditorSkeleton.jsx` (namespace `Proctor.CodeEditorSkeleton`).

Each React component is a state record; every callback of the source (event handler, timer
callback, effect body, effect cleanup) is a function on that record which also returns the
trace of observable effects it performs (alerts, `preventDefault`, fullscreen requests, state
writes).  The browser is the environment: each input carries the document state the callback
reads and the behaviour of the root element's request methods.
-/

namespace Proctor

/-! ## Browser environment -/

/-- Values of `document.visibilityState`. -/
inductive Visibility
  | visible
  | hidden
  | prerender
  deriving DecidableEq, Repr

/-- The parts of `document` the monitor reads; an indicator is `true` when the corresponding
element property is non-null. -/
structure Document where
  fullscreenElement : Bool
  webkitFullscreenElement : Bool
  mozFullScreenElement : Bool
  msFullscreenElement : Bool
  visibilityState : Visibility
  deriving DecidableEq, Repr

/-- What a call of a fullscreen request method does. -/
inductive CallOutcome
  | granted
  | rejected
  | throws
  deriving DecidableEq, Repr

/-- The request methods of `document.documentElement`; `none` when the method does not exist,
otherwise what calling it does. -/
structure RootElement where
  requestFullscreen : Option CallOutcome
  mozRequestFullScreen : Option CallOutcome
  webkitRequestFullscreen : Option CallOutcome
  msRequestFullscreen : Option CallOutcome
  deriving DecidableEq, Repr

/-- The environment a callback runs in. -/
structure Env where
  doc : Document
  root : RootElement
  deriving DecidableEq, Repr

/-- Names of the four request methods. -/
inductive RequestMethod
  | requestFullscreen
  | mozRequestFullScreen
  | webkitRequestFullscreen
  | msRequestFullscreen
  deriving DecidableEq, Repr

/-- The document event types the three components listen to. -/
inductive EventType
  | fullscreenchange
  | webkitfullscreenchange
  | mozfullscreenchange
  | MSFullscreenChange
  | visibilitychange
  | copy
  | paste
  | cut
  | contextmenu
  | keydown
  deriving DecidableEq, Repr

/-- An event object as the handlers see it (`key`, `ctrlKey`, `metaKey` matter for keydown). -/
structure Event where
  type : EventType
  key : String
  ctrlKey : Bool
  metaKey : Bool
  deriving DecidableEq, Repr

/-- The texts passed to `alert`, with the interpolated numbers as fields. -/
inductive Alert
  /-- Test.jsx 68: "You have exceeded the fullscreen exit limit. You are blocked from the test." -/
  | exceededLimit
  /-- Test.jsx 72: "Warning: Please stay in fullscreen mode during the test. Attempts: n/3" -/
  | stayInFullscreen (newAttempts : Nat)
  /-- Test.jsx 87, 106: "Copy and paste actions are not allowed during this test." -/
  | copyPasteNotAllowed
  /-- CodeEditor.jsx 60: "Warning: You have switched tabs n time(s). After m violations ..." -/
  | switchedTabs (newCount maxExits : Nat)
  /-- CodeEditor.jsx 78: "Warning: You have exited fullscreen n time(s). After m violations ..." -/
  | exitedFullscreen (newCount maxExits : Nat)
  /-- CodeEditor.jsx 65, 82: "You have been blocked from the exam due to multiple violations." -/
  | blockedFromExam
  deriving DecidableEq, Repr

/-- Callbacks handed to `setTimeout` by the handlers of CodeEditor and CodeEditorSkeleton. -/
inductive TimeoutCallback
  /-- CodeEditor.jsx 59-61: alert the tab-switch warning. -/
  | warnSwitchedTabs (newCount maxExits : Nat)
  /-- CodeEditorSkeleton.jsx 60-63: alert the tab-switch warning, then `setupFullscreenMonitoring()`. -/
  | warnSwitchedTabsAndMonitor (newCount maxExits : Nat)
  /-- The function `enterFullscreen` itself. -/
  | enterFullscreen
  deriving DecidableEq, Repr

/-- Observable effects of a callback, in program order. -/
inductive Effect
  | alert (a : Alert)
  | preventDefault
  | request (m : RequestMethod)
  | consoleError
  | setIsBlocked (v : Bool)
  | setCount (v : Nat)
  | setTimeout (cb : TimeoutCallback) (delay : Nat)
  | setInterval (id : Nat) (delay : Nat)
  | clearInterval (id : Nat)
  | setLocation (href : String)
  deriving DecidableEq, Repr

/-- Numbers carried by the warnings a trace raises: a warning alert shown at once, or a warning
alert handed to `setTimeout`. -/
def warningCounts : List Effect → List Nat
  | [] => []
  | Effect.alert (Alert.stayInFullscreen n) :: t => n :: warningCounts t
  | Effect.alert (Alert.switchedTabs n _) :: t => n :: warningCounts t
  | Effect.alert (Alert.exitedFullscreen n _) :: t => n :: warningCounts t
  | Effect.setTimeout (TimeoutCallback.warnSwitchedTabs n _) _ :: t => n :: warningCounts t
  | Effect.setTimeout (TimeoutCallback.warnSwitchedTabsAndMonitor n _) _ :: t =>
      n :: warningCounts t
  | _ :: t => warningCounts t

/-- Number of block notices (the two "blocked" alert texts) in a trace. -/
def blockNotices : List Effect → Nat
  | [] => 0
  | Effect.alert Alert.exceededLimit :: t => blockNotices t + 1
  | Effect.alert Alert.blockedFromExam :: t => blockNotices t + 1
  | _ :: t => blockNotices t

/-- All alerts of a trace, in order. -/
def alerts : List Effect → List Alert
  | [] => []
  | Effect.alert a :: t => a :: alerts t
  | _ :: t => alerts t

/-- `addEventListener` on a registry of (type, listener) pairs: a pair already present is not
added again. -/
def addEventListener {H : Type} [DecidableEq H] (reg : List (EventType × H)) (t : EventType)
    (h : H) : List (EventType × H) :=
  if (t, h) ∈ reg then reg else reg ++ [(t, h)]

/-- `removeEventListener`: removes the pair when present. -/
def removeEventListener {H : Type} [DecidableEq H] (reg : List (EventType × H)) (t : EventType)
    (h : H) : List (EventType × H) :=
  reg.erase (t, h)

/-- Run the given listeners in registration order on an event, threading the component state;
`runH` runs one listener. -/
def runListeners {H S : Type} (runH : H → Event → Env → S → S × List Effect)
    (ls : List (EventType × H)) (ev : Event) (e : Env) (s : S) : S × List Effect :=
  match ls with
  | [] => (s, [])
  | (t, h) :: rest =>
    if t = ev.type then
      let r := runH h ev e s
      let r2 := runListeners runH rest ev e r.1
      (r2.1, r.2 ++ r2.2)
    else
      runListeners runH rest ev e s

/-- The two kinds of violation event of CodeEditor and CodeEditorSkeleton. -/
inductive Violation
  | tabHidden
  | fullscreenExit
  deriving DecidableEq, Repr

/-- The event a violation is delivered as. -/
def Violation.event : Violation → Event
  | Violation.tabHidden =>
    { type := EventType.visibilitychange, key := "", ctrlKey := false, metaKey := false }
  | Violation.fullscreenExit =>
    { type := EventType.fullscreenchange, key := "", ctrlKey := false, metaKey := false }

/-- The document a handler sees when the violation is delivered: for a tab switch the page is
hidden, for a fullscreen exit there is no fullscreen element; everything else as in `e`. -/
def Violation.env (v : Violation) (e : Env) : Env :=
  match v with
  | Violation.tabHidden => { e with doc := { e.doc with visibilityState := Visibility.hidden } }
  | Violation.fullscreenExit => { e with doc := { e.doc with fullscreenElement := false } }

/-! ## `Test.jsx` -/

namespace Test

/-- The four listener functions created by the mount effect (Test.jsx 61, 85, 95, 102). -/
inductive Handler
  | handleFullscreenExit
  | preventCopyPaste
  | preventContextMenu
  | preventKeyboardShortcuts
  deriving DecidableEq, Repr

/-- Component state of `Test`: the two `useState` cells, the listeners it has on `document`,
the live intervals it created, and the bookkeeping React keeps for the `[isBlocked]` effect. -/
structure State where
  exitAttempts : Nat
  isBlocked : Bool
  listeners : List (EventType × Handler)
  intervals : List Nat
  /-- Interval id captured by the pending cleanup of the `[isBlocked]` effect, if any. -/
  reentryCleanup : Option Nat
  /-- Value of `isBlocked` the `[isBlocked]` effect last ran with. -/
  depIsBlocked : Bool
  nextTimerId : Nat
  mounted : Bool
  deriving DecidableEq, Repr

/-- A request method called inside the `try` block of Test.jsx 31-43: an exception is caught
and logged with `console.error`. -/
def callInTry (m : RequestMethod) (o : CallOutcome) : List Effect :=
  match o with
  | CallOutcome.throws => [Effect.request m, Effect.consoleError]
  | _ => [Effect.request m]

/-- Test.jsx 29-44: `enterFullscreen`. -/
def enterFullscreen (e : Env) : List Effect :=
  match e.root.requestFullscreen with
  | some o => callInTry RequestMethod.requestFullscreen o
  | none =>
    match e.root.mozRequestFullScreen with
    | some o => callInTry RequestMethod.mozRequestFullScreen o
    | none =>
      match e.root.webkitRequestFullscreen with
      | some o => callInTry RequestMethod.webkitRequestFullscreen o
      | none =>
        match e.root.msRequestFullscreen with
        | some o => callInTry RequestMethod.msRequestFullscreen o
        | none => []

/-- Test.jsx 47-54: `checkFullscreen`. -/
def checkFullscreen (d : Document) : Bool :=
  d.fullscreenElement || d.webkitFullscreenElement || d.mozFullScreenElement ||
    d.msFullscreenElement

/-- Test.jsx 63-74: the updater passed to `setExitAttempts`; it returns the new value and
performs `setIsBlocked(true)` / `alert` on the way.  The second component is what one call of
the updater does.  React may call an updater more than once for the same update (when the
update is queued and again when a render processes the queue); every call returns the same
value from the same `prev`, but each call shows its alert again. -/
def exitAttemptsUpdater (prev : Nat) : Nat × List Effect :=
  let newAttempts := prev + 1
  if newAttempts ≥ 3 then
    (newAttempts, [Effect.setIsBlocked true, Effect.alert Alert.exceededLimit])
  else
    (newAttempts, [Effect.alert (Alert.stayInFullscreen newAttempts)])

/-- Apply the state writes of a trace to the `isBlocked` cell. -/
def applyIsBlocked (b : Bool) : List Effect → Bool
  | [] => b
  | Effect.setIsBlocked v :: t => applyIsBlocked v t
  | _ :: t => applyIsBlocked b t

/-- Test.jsx 61-76: `handleFullscreenExit`.  The state is the one after React has processed
the update; the trace holds the effects of one call of the updater, so it is a lower bound
on the alerts shown: a repeated call repeats the alert and the write `setIsBlocked(true)` and
changes neither `exitAttempts` nor `isBlocked`. -/
def handleFullscreenExit (e : Env) (s : State) : State × List Effect :=
  if !checkFullscreen e.doc then
    let r := exitAttemptsUpdater s.exitAttempts
    ({ s with exitAttempts := r.1, isBlocked := applyIsBlocked s.isBlocked r.2 }, r.2)
  else
    (s, [])

/-- Test.jsx 85-88: `preventCopyPaste`. -/
def preventCopyPaste (s : State) : State × List Effect :=
  (s, [Effect.preventDefault, Effect.alert Alert.copyPasteNotAllowed])

/-- Test.jsx 95-97: `preventContextMenu`. -/
def preventContextMenu (s : State) : State × List Effect :=
  (s, [Effect.preventDefault])

/-- Test.jsx 102-108: `preventKeyboardShortcuts`. -/
def preventKeyboardShortcuts (ev : Event) (s : State) : State × List Effect :=
  if ev.ctrlKey && (ev.key == "c" || ev.key == "v" || ev.key == "x") then
    (s, [Effect.preventDefault, Effect.alert Alert.copyPasteNotAllowed])
  else
    (s, [])

/-- Run one registered listener on an event. -/
def runHandler (h : Handler) (ev : Event) (e : Env) (s : State) : State × List Effect :=
  match h with
  | Handler.handleFullscreenExit => handleFullscreenExit e s
  | Handler.preventCopyPaste => preventCopyPaste s
  | Handler.preventContextMenu => preventContextMenu s
  | Handler.preventKeyboardShortcuts => preventKeyboardShortcuts ev s

/-- The document dispatches `ev`: every listener registered for its type runs. -/
def dispatch (ev : Event) (e : Env) (s : State) : State × List Effect :=
  runListeners runHandler s.listeners ev e s

/-- Test.jsx 79-110: the registrations of the mount effect, in order. -/
def registerAll (reg : List (EventType × Handler)) : List (EventType × Handler) :=
  let r1 := addEventListener reg EventType.fullscreenchange Handler.handleFullscreenExit
  let r2 := addEventListener r1 EventType.webkitfullscreenchange Handler.handleFullscreenExit
  let r3 := addEventListener r2 EventType.mozfullscreenchange Handler.handleFullscreenExit
  let r4 := addEventListener r3 EventType.MSFullscreenChange Handler.handleFullscreenExit
  let r5 := addEventListener r4 EventType.copy Handler.preventCopyPaste
  let r6 := addEventListener r5 EventType.paste Handler.preventCopyPaste
  let r7 := addEventListener r6 EventType.cut Handler.preventCopyPaste
  let r8 := addEventListener r7 EventType.contextmenu Handler.preventContextMenu
  addEventListener r8 EventType.keydown Handler.preventKeyboardShortcuts

/-- Test.jsx 112-122: the removals of the mount effect's cleanup, in order. -/
def unregisterAll (reg : List (EventType × Handler)) : List (EventType × Handler) :=
  let r1 := removeEventListener reg EventType.fullscreenchange Handler.handleFullscreenExit
  let r2 := removeEventListener r1 EventType.webkitfullscreenchange Handler.handleFullscreenExit
  let r3 := removeEventListener r2 EventType.mozfullscreenchange Handler.handleFullscreenExit
  let r4 := removeEventListener r3 EventType.MSFullscreenChange Handler.handleFullscreenExit
  let r5 := removeEventListener r4 EventType.copy Handler.preventCopyPaste
  let r6 := removeEventListener r5 EventType.paste Handler.preventCopyPaste
  let r7 := removeEventListener r6 EventType.cut Handler.preventCopyPaste
  let r8 := removeEventListener r7 EventType.contextmenu Handler.preventContextMenu
  removeEventListener r8 EventType.keydown Handler.preventKeyboardShortcuts

/-- The four event types `handleFullscreenExit` is registered for (Test.jsx 79-82). -/
def fullscreenChangeTypes : List EventType :=
  [EventType.fullscreenchange, EventType.webkitfullscreenchange,
   EventType.mozfullscreenchange, EventType.MSFullscreenChange]

/-- Test.jsx 56-123: body of the mount effect (dependency list `[]`). -/
def mountEffect (e : Env) (s : State) : State × List Effect :=
  ({ s with listeners := registerAll s.listeners }, enterFullscreen e)

/-- Test.jsx 112-122: cleanup of the mount effect. -/
def mountCleanup (s : State) : State × List Effect :=
  ({ s with listeners := unregisterAll s.listeners }, [])

/-- Test.jsx 129-133: `checkAndEnterFullscreen`, the interval callback. -/
def checkAndEnterFullscreen (e : Env) : List Effect :=
  if !checkFullscreen e.doc then enterFullscreen e else []

/-- Test.jsx 126-139: body of the `[isBlocked]` effect. -/
def reentryEffect (s : State) : State × List Effect :=
  if s.isBlocked then
    ({ s with reentryCleanup := none, depIsBlocked := s.isBlocked }, [])
  else
    let intervalId := s.nextTimerId
    ({ s with intervals := s.intervals ++ [intervalId], reentryCleanup := some intervalId,
              depIsBlocked := s.isBlocked, nextTimerId := s.nextTimerId + 1 },
     [Effect.setInterval intervalId 1000])

/-- Test.jsx 138: cleanup of the `[isBlocked]` effect, `clearInterval(intervalId)`. -/
def reentryCleanupRun (s : State) : State × List Effect :=
  match s.reentryCleanup with
  | some intervalId =>
    ({ s with intervals := s.intervals.filter (fun i => i != intervalId),
              reentryCleanup := none }, [Effect.clearInterval intervalId])
  | none => (s, [])

/-- State of a `Test` instance before its effects have run (Test.jsx 24-25). -/
def init : State :=
  { exitAttempts := 0, isBlocked := false, listeners := [], intervals := [],
    reentryCleanup := none, depIsBlocked := false, nextTimerId := 1, mounted := false }

/-- First commit: both effect bodies run, in source order. -/
def mount (e : Env) : State × List Effect :=
  let r1 := mountEffect e { init with mounted := true }
  let r2 := reentryEffect r1.1
  (r2.1, r1.2 ++ r2.2)

/-- Inputs to a mounted `Test`. -/
inductive Input
  /-- The document dispatches an event. -/
  | event (ev : Event) (e : Env)
  /-- The interval with this id fires. -/
  | tick (id : Nat) (e : Env)
  /-- React commits a re-render: an effect whose dependencies changed is cleaned up and re-run. -/
  | render
  /-- Test.jsx 149-151: the "Return to Fullscreen Mode" button is clicked. -/
  | click (e : Env)
  /-- The component unmounts: both cleanups run. -/
  | unmount
  deriving DecidableEq, Repr

/-- One step of the component. -/
def step (s : State) (i : Input) : State × List Effect :=
  match i with
  | Input.event ev e => dispatch ev e s
  | Input.tick id e => if id ∈ s.intervals then (s, checkAndEnterFullscreen e) else (s, [])
  | Input.render =>
    if s.mounted && s.depIsBlocked != s.isBlocked then
      let r1 := reentryCleanupRun s
      let r2 := reentryEffect r1.1
      (r2.1, r1.2 ++ r2.2)
    else
      (s, [])
  | Input.click e => if s.mounted then (s, enterFullscreen e) else (s, [])
  | Input.unmount =>
    if s.mounted then
      let r1 := mountCleanup s
      let r2 := reentryCleanupRun r1.1
      ({ r2.1 with mounted := false }, r1.2 ++ r2.2)
    else
      (s, [])

/-- Run a list of inputs, concatenating the traces. -/
def run (s : State) : List Input → State × List Effect
  | [] => (s, [])
  | i :: rest =>
    let r := step s i
    let r2 := run r.1 rest
    (r2.1, r.2 ++ r2.2)

end Test

/-! ## `CodeEditor.jsx` -/

namespace CodeEditor

/-- CodeEditor.jsx 36: `const maxExits = 3`. -/
def maxExits : Nat := 3

/-- The two listener closures an effect run creates; each captures the `exitCount` of the
render the effect belongs to (CodeEditor.jsx 51, 71). -/
inductive Handler
  | handleVisibilityChange (exitCount : Nat)
  | handleFullscreenChange (exitCount : Nat)
  deriving DecidableEq, Repr

/-- Component state of `CodeEditor`: the two `useState` cells, its listeners on `document`,
the timeouts it has pending (nothing ever clears them), and React's bookkeeping for the
monitor effect. -/
structure State where
  exitCount : Nat
  isBlocked : Bool
  listeners : List (EventType × Handler)
  timeouts : List (TimeoutCallback × Nat)
  /-- The `exitCount` captured by the pending cleanup closure, if a cleanup is pending. -/
  cleanup : Option Nat
  /-- Value of `exitCount` the effect last ran with (`navigate`, `maxExits` never change). -/
  depExitCount : Nat
  mounted : Bool
  deriving DecidableEq, Repr

/-- CodeEditor.jsx 40-46: `enterFullscreen`.  The second component is `true` when the call
throws: `requestFullscreen` is missing (calling `undefined`) or throws itself.  A rejected
promise is handled by `.catch`, which logs it. -/
def enterFullscreen (e : Env) : List Effect × Bool :=
  if !e.doc.fullscreenElement then
    match e.root.requestFullscreen with
    | none => ([], true)
    | some CallOutcome.throws => ([Effect.request RequestMethod.requestFullscreen], true)
    | some CallOutcome.rejected =>
      ([Effect.request RequestMethod.requestFullscreen, Effect.consoleError], false)
    | some CallOutcome.granted => ([Effect.request RequestMethod.requestFullscreen], false)
  else
    ([], false)

/-- CodeEditor.jsx 51-69: `handleVisibilityChange`, closed over `exitCount`.  The function it
returns in the warning branch is discarded by the event dispatcher, so the timeout stays. -/
def handleVisibilityChange (exitCount : Nat) (e : Env) (s : State) : State × List Effect :=
  if e.doc.visibilityState = Visibility.hidden then
    let newCount := exitCount + 1
    let s1 := { s with exitCount := newCount }
    if newCount < maxExits then
      let cb := TimeoutCallback.warnSwitchedTabs newCount maxExits
      ({ s1 with timeouts := s1.timeouts ++ [(cb, 500)] },
       [Effect.setCount newCount, Effect.setTimeout cb 500])
    else if newCount ≥ maxExits then
      ({ s1 with isBlocked := true },
       [Effect.setCount newCount, Effect.alert Alert.blockedFromExam, Effect.setIsBlocked true])
    else
      (s1, [Effect.setCount newCount])
  else
    (s, [])

/-- CodeEditor.jsx 71-86: `handleFullscreenChange`, closed over `exitCount`. -/
def handleFullscreenChange (exitCount : Nat) (e : Env) (s : State) : State × List Effect :=
  if !e.doc.fullscreenElement then
    let newCount := exitCount + 1
    let s1 := { s with exitCount := newCount }
    if newCount < maxExits then
      ({ s1 with timeouts := s1.timeouts ++ [(TimeoutCallback.enterFullscreen, 100)] },
       [Effect.setCount newCount, Effect.alert (Alert.exitedFullscreen newCount maxExits),
        Effect.setTimeout TimeoutCallback.enterFullscreen 100])
    else if newCount ≥ maxExits then
      ({ s1 with isBlocked := true },
       [Effect.setCount newCount, Effect.alert Alert.blockedFromExam, Effect.setIsBlocked true])
    else
      (s1, [Effect.setCount newCount])
  else
    (s, [])

/-- Run one registered listener. -/
def runHandler (h : Handler) (_ev : Event) (e : Env) (s : State) : State × List Effect :=
  match h with
  | Handler.handleVisibilityChange c => handleVisibilityChange c e s
  | Handler.handleFullscreenChange c => handleFullscreenChange c e s

/-- The document dispatches `ev`: every listener registered for its type runs. -/
def dispatch (ev : Event) (e : Env) (s : State) : State × List Effect :=
  runListeners runHandler s.listeners ev e s

/-- Run a timeout callback (CodeEditor.jsx 59-61 and 80). -/
def runTimeout (cb : TimeoutCallback) (e : Env) : List Effect :=
  match cb with
  | TimeoutCallback.warnSwitchedTabs n m => [Effect.alert (Alert.switchedTabs n m)]
  | TimeoutCallback.warnSwitchedTabsAndMonitor n m => [Effect.alert (Alert.switchedTabs n m)]
  | TimeoutCallback.enterFullscreen => (enterFullscreen e).1

/-- The listeners an effect run for a render with `exitCount = c` leaves on a document that
had none of this component (CodeEditor.jsx 88-89). -/
def subscribed (c : Nat) : List (EventType × Handler) :=
  [(EventType.visibilitychange, Handler.handleVisibilityChange c),
   (EventType.fullscreenchange, Handler.handleFullscreenChange c)]

/-- CodeEditor.jsx 38-95: body of the monitor effect for a render with the state's
`exitCount`.  When `enterFullscreen` throws, the body stops before registering anything and
React unmounts the component. -/
def effectBody (e : Env) (s : State) : State × List Effect :=
  let r := enterFullscreen e
  if r.2 then
    ({ s with cleanup := none, depExitCount := s.exitCount, mounted := false }, r.1)
  else
    let l1 := addEventListener s.listeners EventType.visibilitychange
      (Handler.handleVisibilityChange s.exitCount)
    let l2 := addEventListener l1 EventType.fullscreenchange
      (Handler.handleFullscreenChange s.exitCount)
    ({ s with listeners := l2, cleanup := some s.exitCount, depExitCount := s.exitCount }, r.1)

/-- CodeEditor.jsx 91-94: the pending cleanup closure, which removes the two listeners of its
own effect run. -/
def effectCleanup (s : State) : State :=
  match s.cleanup with
  | some c =>
    let l1 := removeEventListener s.listeners EventType.visibilitychange
      (Handler.handleVisibilityChange c)
    let l2 := removeEventListener l1 EventType.fullscreenchange
      (Handler.handleFullscreenChange c)
    { s with listeners := l2, cleanup := none }
  | none => s

/-- State of a `CodeEditor` instance before its effect has run (CodeEditor.jsx 34-35). -/
def init : State :=
  { exitCount := 0, isBlocked := false, listeners := [], timeouts := [], cleanup := none,
    depExitCount := 0, mounted := false }

/-- First commit: the effect body runs. -/
def mount (e : Env) : State × List Effect :=
  effectBody e { init with mounted := true }

/-- Inputs to a mounted `CodeEditor`. -/
inductive Input
  /-- The document dispatches an event. -/
  | event (ev : Event) (e : Env)
  /-- The pending timeout at this position fires. -/
  | fire (i : Nat) (e : Env)
  /-- React commits a re-render: when `exitCount` changed, the effect is cleaned up and re-run. -/
  | render (e : Env)
  /-- The component unmounts: the cleanup runs. -/
  | unmount
  deriving DecidableEq, Repr

/-- One step of the component. -/
def step (s : State) (i : Input) : State × List Effect :=
  match i with
  | Input.event ev e => dispatch ev e s
  | Input.fire n e =>
    match s.timeouts.get? n with
    | some (cb, _) => ({ s with timeouts := s.timeouts.eraseIdx n }, runTimeout cb e)
    | none => (s, [])
  | Input.render e =>
    if s.mounted && s.depExitCount != s.exitCount then effectBody e (effectCleanup s)
    else (s, [])
  | Input.unmount =>
    if s.mounted then ({ effectCleanup s with mounted := false }, []) else (s, [])

/-- Run a list of inputs, concatenating the traces. -/
def run (s : State) : List Input → State × List Effect
  | [] => (s, [])
  | i :: rest =>
    let r := step s i
    let r2 := run r.1 rest
    (r2.1, r.2 ++ r2.2)

/-- Deliver a violation in environment `e`. -/
def violationInput (v : Violation) (e : Env) : Input :=
  Input.event v.event (v.env e)

/-- Deliver violations one by one, each followed by a re-render (in the second environment)
before the next is delivered. -/
def runRendered (s : State) : List (Violation × Env × Env) → State × List Effect
  | [] => (s, [])
  | (v, e1, e2) :: rest =>
    let r := step s (violationInput v e1)
    let r1 := step r.1 (Input.render e2)
    let r2 := runRendered r1.1 rest
    (r2.1, r.2 ++ r1.2 ++ r2.2)

/-- Deliver violations one after another with no re-render in between. -/
def runUnrendered (s : State) : List (Violation × Env) → State × List Effect
  | [] => (s, [])
  | (v, e) :: rest =>
    let r := step s (violationInput v e)
    let r2 := runUnrendered r.1 rest
    (r2.1, r.2 ++ r2.2)

end CodeEditor

/-! ## `CodeEditorSkeleton.jsx` -/

namespace CodeEditorSkeleton

/-- CodeEditorSkeleton.jsx 6: `const maxExits = 3`. -/
def maxExits : Nat := 3

/-- The two listener closures an effect run creates; each captures the `exitCount` of the
render the effect belongs to (CodeEditorSkeleton.jsx 52, 77). -/
inductive Handler
  | handleVisibilityChange (exitCount : Nat)
  | handleFullscreenChange (exitCount : Nat)
  deriving DecidableEq, Repr

/-- Component state of `CodeEditorSkeleton`: the `useState` cell, the ref holding the last
interval id, its listeners on `document`, its live intervals and pending timeouts, the last
value assigned to `window.location.href`, and React's bookkeeping for the monitor effect. -/
structure State where
  exitCount : Nat
  fullscreenAttemptRef : Option Nat
  listeners : List (EventType × Handler)
  intervals : List Nat
  timeouts : List (TimeoutCallback × Nat)
  location : Option String
  /-- The `exitCount` captured by the pending cleanup closure, if a cleanup is pending. -/
  cleanup : Option Nat
  /-- Value of `exitCount` the effect last ran with (`maxExits` never changes). -/
  depExitCount : Nat
  nextTimerId : Nat
  mounted : Bool
  deriving DecidableEq, Repr

/-- CodeEditorSkeleton.jsx 16-32: `enterFullscreen`. -/
def enterFullscreen (e : Env) : List Effect :=
  if !e.doc.fullscreenElement then
    let requestMethod : Option (RequestMethod × CallOutcome) :=
      match e.root.requestFullscreen with
      | some o => some (RequestMethod.requestFullscreen, o)
      | none =>
        match e.root.webkitRequestFullscreen with
        | some o => some (RequestMethod.webkitRequestFullscreen, o)
        | none =>
          match e.root.mozRequestFullScreen with
          | some o => some (RequestMethod.mozRequestFullScreen, o)
          | none =>
            match e.root.msRequestFullscreen with
            | some o => some (RequestMethod.msRequestFullscreen, o)
            | none => none
    match requestMethod with
    | some (m, CallOutcome.throws) => [Effect.request m, Effect.consoleError]
    | some (m, _) => [Effect.request m]
    | none => []
  else
    []

/-- CodeEditorSkeleton.jsx 11-13, 40-42, 119-121: `if (ref.current) clearInterval(ref.current)`;
the ref keeps the id.  Timer ids are positive integers, so an id held by the ref is truthy. -/
def clearRef (s : State) : State × List Effect :=
  match s.fullscreenAttemptRef with
  | some id =>
    ({ s with intervals := s.intervals.filter (fun i => i != id) }, [Effect.clearInterval id])
  | none => (s, [])

/-- CodeEditorSkeleton.jsx 38-50: `setupFullscreenMonitoring`. -/
def setupFullscreenMonitoring (s : State) : State × List Effect :=
  let r := clearRef s
  let id := r.1.nextTimerId
  ({ r.1 with intervals := r.1.intervals ++ [id], fullscreenAttemptRef := some id,
              nextTimerId := id + 1 },
   r.2 ++ [Effect.setInterval id 1000])

/-- CodeEditorSkeleton.jsx 45-49: the interval callback. -/
def intervalCallback (e : Env) : List Effect :=
  if !e.doc.fullscreenElement && e.doc.visibilityState = Visibility.visible then
    enterFullscreen e
  else
    []

/-- CodeEditorSkeleton.jsx 52-75: `handleVisibilityChange`, closed over `exitCount`.  The
function it returns in the warning branch is discarded by the event dispatcher. -/
def handleVisibilityChange (exitCount : Nat) (e : Env) (s : State) : State × List Effect :=
  if e.doc.visibilityState = Visibility.hidden then
    let newCount := exitCount + 1
    let s1 := { s with exitCount := newCount }
    if newCount < maxExits then
      let cb := TimeoutCallback.warnSwitchedTabsAndMonitor newCount maxExits
      ({ s1 with timeouts := s1.timeouts ++ [(cb, 500)] },
       [Effect.setCount newCount, Effect.setTimeout cb 500])
    else if newCount ≥ maxExits then
      ({ s1 with location := some "/blocked" },
       [Effect.setCount newCount, Effect.alert Alert.blockedFromExam,
        Effect.setLocation "/blocked"])
    else
      (s1, [Effect.setCount newCount])
  else if e.doc.visibilityState = Visibility.visible then
    (s, enterFullscreen e)
  else
    (s, [])

/-- CodeEditorSkeleton.jsx 77-100: `handleFullscreenChange`, closed over `exitCount`. -/
def handleFullscreenChange (exitCount : Nat) (e : Env) (s : State) : State × List Effect :=
  if !e.doc.fullscreenElement then
    let newCount := exitCount + 1
    let s1 := { s with exitCount := newCount }
    if newCount < maxExits then
      let r := setupFullscreenMonitoring s1
      ({ r.1 with timeouts := r.1.timeouts ++
            [(TimeoutCallback.enterFullscreen, 100), (TimeoutCallback.enterFullscreen, 500),
             (TimeoutCallback.enterFullscreen, 1000)] },
       [Effect.setCount newCount, Effect.alert (Alert.exitedFullscreen newCount maxExits)] ++
         r.2 ++
         [Effect.setTimeout TimeoutCallback.enterFullscreen 100,
          Effect.setTimeout TimeoutCallback.enterFullscreen 500,
          Effect.setTimeout TimeoutCallback.enterFullscreen 1000])
    else if newCount ≥ maxExits then
      ({ s1 with location := some "/blocked" },
       [Effect.setCount newCount, Effect.alert Alert.blockedFromExam,
        Effect.setLocation "/blocked"])
    else
      (s1, [Effect.setCount newCount])
  else
    (s, [])

/-- Run one registered listener. -/
def runHandler (h : Handler) (_ev : Event) (e : Env) (s : State) : State × List Effect :=
  match h with
  | Handler.handleVisibilityChange c => handleVisibilityChange c e s
  | Handler.handleFullscreenChange c => handleFullscreenChange c e s

/-- The document dispatches `ev`: every listener registered for its type runs. -/
def dispatch (ev : Event) (e : Env) (s : State) : State × List Effect :=
  runListeners runHandler s.listeners ev e s

/-- Run a timeout callback (CodeEditorSkeleton.jsx 60-63 and 91-93). -/
def runTimeout (cb : TimeoutCallback) (e : Env) (s : State) : State × List Effect :=
  match cb with
  | TimeoutCallback.warnSwitchedTabs n m => (s, [Effect.alert (Alert.switchedTabs n m)])
  | TimeoutCallback.warnSwitchedTabsAndMonitor n m =>
    let r := setupFullscreenMonitoring s
    (r.1, Effect.alert (Alert.switchedTabs n m) :: r.2)
  | TimeoutCallback.enterFullscreen => (s, enterFullscreen e)

/-- CodeEditorSkeleton.jsx 9-123: body of the monitor effect for a render with the state's
`exitCount`. -/
def effectBody (e : Env) (s : State) : State × List Effect :=
  let r0 := clearRef s
  let t1 := enterFullscreen e
  let r2 := setupFullscreenMonitoring r0.1
  let hv := Handler.handleVisibilityChange s.exitCount
  let hf := Handler.handleFullscreenChange s.exitCount
  let l1 := addEventListener r2.1.listeners EventType.visibilitychange hv
  let l2 := addEventListener l1 EventType.fullscreenchange hf
  let l3 := addEventListener l2 EventType.webkitfullscreenchange hf
  let l4 := addEventListener l3 EventType.mozfullscreenchange hf
  let l5 := addEventListener l4 EventType.MSFullscreenChange hf
  ({ r2.1 with listeners := l5, cleanup := some s.exitCount, depExitCount := s.exitCount },
   r0.2 ++ t1 ++ r2.2)

/-- CodeEditorSkeleton.jsx 111-122: the pending cleanup closure. -/
def effectCleanup (s : State) : State × List Effect :=
  match s.cleanup with
  | some c =>
    let hv := Handler.handleVisibilityChange c
    let hf := Handler.handleFullscreenChange c
    let l1 := removeEventListener s.listeners EventType.visibilitychange hv
    let l2 := removeEventListener l1 EventType.fullscreenchange hf
    let l3 := removeEventListener l2 EventType.webkitfullscreenchange hf
    let l4 := removeEventListener l3 EventType.mozfullscreenchange hf
    let l5 := removeEventListener l4 EventType.MSFullscreenChange hf
    clearRef { s with listeners := l5, cleanup := none }
  | none => (s, [])

/-- State of a `CodeEditorSkeleton` instance before its effect has run
(CodeEditorSkeleton.jsx 5-7). -/
def init : State :=
  { exitCount := 0, fullscreenAttemptRef := none, listeners := [], intervals := [],
    timeouts := [], location := none, cleanup := none, depExitCount := 0, nextTimerId := 1,
    mounted := false }

/-- First commit: the effect body runs. -/
def mount (e : Env) : State × List Effect :=
  effectBody e { init with mounted := true }

/-- Inputs to a mounted `CodeEditorSkeleton`. -/
inductive Input
  /-- The document dispatches an event. -/
  | event (ev : Event) (e : Env)
  /-- The interval with this id fires. -/
  | tick (id : Nat) (e : Env)
  /-- The pending timeout at this position fires. -/
  | fire (i : Nat) (e : Env)
  /-- React commits a re-render: when `exitCount` changed, the effect is cleaned up and re-run. -/
  | render (e : Env)
  /-- The component unmounts: the cleanup runs. -/
  | unmount
  deriving DecidableEq, Repr

/-- One step of the component. -/
def step (s : State) (i : Input) : State × List Effect :=
  match i with
  | Input.event ev e => dispatch ev e s
  | Input.tick id e => if id ∈ s.intervals then (s, intervalCallback e) else (s, [])
  | Input.fire n e =>
    match s.timeouts.get? n with
    | some (cb, _) => runTimeout cb e { s with timeouts := s.timeouts.eraseIdx n }
    | none => (s, [])
  | Input.render e =>
    if s.mounted && s.depExitCount != s.exitCount then
      let r1 := effectCleanup s
      let r2 := effectBody e r1.1
      (r2.1, r1.2 ++ r2.2)
    else
      (s, [])
  | Input.unmount =>
    if s.mounted then
      let r := effectCleanup s
      ({ r.1 with mounted := false }, r.2)
    else
      (s, [])

/-- Run a list of inputs, concatenating the traces. -/
def run (s : State) : List Input → State × List Effect
  | [] => (s, [])
  | i :: rest =>
    let r := step s i
    let r2 := run r.1 rest
    (r2.1, r.2 ++ r2.2)

/-- The listeners an effect run for a render with `exitCount = c` leaves on a document that
had none of this component (CodeEditorSkeleton.jsx 105-109). -/
def subscribed (c : Nat) : List (EventType × Handler) :=
  [(EventType.visibilitychange, Handler.handleVisibilityChange c),
   (EventType.fullscreenchange, Handler.handleFullscreenChange c),
   (EventType.webkitfullscreenchange, Handler.handleFullscreenChange c),
   (EventType.mozfullscreenchange, Handler.handleFullscreenChange c),
   (EventType.MSFullscreenChange, Handler.handleFullscreenChange c)]

/-- Deliver a violation in environment `e`. -/
def violationInput (v : Violation) (e : Env) : Input :=
  Input.event v.event (v.env e)

/-- Deliver violations one after another with no re-render in between. -/
def runUnrendered (s : State) : List (Violation × Env) → State × List Effect
  | [] => (s, [])
  | (v, e) :: rest =>
    let r := step s (violationInput v e)
    let r2 := runUnrendered r.1 rest
    (r2.1, r.2 ++ r2.2)

end CodeEditorSkeleton

/-! ## Sample environments -/

/-- A root element with the standard request method only, which grants the request. -/
def standardRoot : RootElement :=
  { requestFullscreen := some CallOutcome.granted, mozRequestFullScreen := none,
    webkitRequestFullscreen := none, msRequestFullscreen := none }

/-- The page is visible and in fullscreen. -/
def envFullscreen : Env :=
  { doc := { fullscreenElement := true, webkitFullscreenElement := false,
             mozFullScreenElement := false, msFullscreenElement := false,
             visibilityState := Visibility.visible },
    root := standardRoot }

/-- The page is visible and not in fullscreen. -/
def envExited : Env :=
  { doc := { fullscreenElement := false, webkitFullscreenElement := false,
             mozFullScreenElement := false, msFullscreenElement := false,
             visibilityState := Visibility.visible },
    root := standardRoot }

/-- The page is hidden (another tab is shown) and still has its fullscreen element. -/
def envHidden : Env :=
  { doc := { fullscreenElement := true, webkitFullscreenElement := false,
             mozFullScreenElement := false, msFullscreenElement := false,
             visibilityState := Visibility.hidden },
    root := standardRoot }

/-- An event object of the given type with no key information. -/
def plainEvent (t : EventType) : Event :=
  { type := t, key := "", ctrlKey := false, metaKey := false }

/-- The same fullscreen exit notified three times to `Test`, with re-renders in between. -/
def Test.threeExits : List Test.Input :=
  [Test.Input.event (plainEvent EventType.fullscreenchange) envExited, Test.Input.render,
   Test.Input.event (plainEvent EventType.fullscreenchange) envExited, Test.Input.render,
   Test.Input.event (plainEvent EventType.fullscreenchange) envExited, Test.Input.render]

/-- A `Test` that was mounted in fullscreen and then saw `threeExits`. -/
def Test.afterThreeExits : Test.State :=
  (Test.run (Test.mount envFullscreen).1 Test.threeExits).1

/-- Scenario A then B of the specification for `CodeEditor`: a tab switch, a fullscreen exit,
a tab switch, each rendered (in fullscreen) before the next. -/
def CodeEditor.scenarioAB : List (Violation × Env × Env) :=
  [(Violation.tabHidden, envHidden, envFullscreen),
   (Violation.fullscreenExit, envExited, envFullscreen),
   (Violation.tabHidden, envHidden, envFullscreen)]

/-- A `CodeEditor` that was mounted in fullscreen and then saw `scenarioAB`. -/
def CodeEditor.afterScenarioAB : CodeEditor.State :=
  (CodeEditor.runRendered (CodeEditor.mount envFullscreen).1 CodeEditor.scenarioAB).1

/-- A `Test` that was mounted in fullscreen and was then notified once, through
`fullscreenchange`, that the document is no longer in fullscreen. -/
def Test.afterOneExit : Test.State :=
  (Test.step (Test.mount envFullscreen).1
    (Test.Input.event (plainEvent EventType.fullscreenchange) envExited)).1

/-- The state of a `CodeEditor` right after a commit whose effect ran to completion: the
listeners, the pending cleanup and the dependency all belong to the current `exitCount`. -/
def CodeEditor.Rendered (s : CodeEditor.State) : Prop :=
  s.listeners = CodeEditor.subscribed s.exitCount ∧ s.cleanup = some s.exitCount ∧
    s.depExitCount = s.exitCount ∧ s.mounted = true

/-- Scenario A of the specification for `CodeEditor`: a tab switch, then a fullscreen exit,
each rendered (in fullscreen) before the next. -/
def CodeEditor.scenarioA : List (Violation × Env × Env) :=
  [(Violation.tabHidden, envHidden, envFullscreen),
   (Violation.fullscreenExit, envExited, envFullscreen)]

/-- A `CodeEditor` that was mounted in fullscreen and then saw `scenarioA`. -/
def CodeEditor.afterScenarioA : CodeEditor.State :=
  (CodeEditor.runRendered (CodeEditor.mount envFullscreen).1 CodeEditor.scenarioA).1

instance CodeEditor.decidableRendered (s : CodeEditor.State) :
    Decidable (CodeEditor.Rendered s) := by
  unfold CodeEditor.Rendered
  infer_instance

/-- The event types the clipboard and context-menu guards of `Test` are registered for
(Test.jsx 90-92, 99). -/
def Test.guardedTypes : List EventType :=
  [EventType.copy, EventType.paste, EventType.cut, EventType.contextmenu]

/-- A keydown event for the key `k` with the given modifier state. -/
def keydownEvent (k : String) (ctrl cmd : Bool) : Event :=
  { type := EventType.keydown, key := k, ctrlKey := ctrl, metaKey := cmd }

/-! ## Reachable-state invariants, composite pages and further samples -/

/-- The request calls of a trace, in order. -/
def requests : List Effect → List RequestMethod
  | [] => []
  | Effect.request m :: t => m :: requests t
  | _ :: t => requests t

/-- Whether an effect is a state write (`setExitAttempts` / `setExitCount` / `setIsBlocked`). -/
def Effect.isWrite : Effect → Bool
  | Effect.setIsBlocked _ => true
  | Effect.setCount _ => true
  | _ => false

/-- What holds in every state a mounted `Test` can reach: while mounted the nine mount
registrations are in place and the only live interval is the one whose cleanup is pending,
which exists exactly when the `[isBlocked]` effect last ran unblocked; after the unmount
nothing is left. -/
def Test.Inv (s : Test.State) : Prop :=
  (s.mounted = true ∧ s.listeners = Test.registerAll [] ∧
    ((s.reentryCleanup = none ∧ s.intervals = [] ∧ s.depIsBlocked = true) ∨
     (∃ id, s.reentryCleanup = some id ∧ s.intervals = [id] ∧ s.depIsBlocked = false))) ∨
  (s.mounted = false ∧ s.listeners = [] ∧ s.intervals = [] ∧ s.reentryCleanup = none)

/-- What holds in every state a mounted `CodeEditor` can reach: while mounted the listeners
are those of the effect run for some count `c`, whose cleanup is pending, and `exitCount` is
`c` or `c + 1`; after the unmount (or after an effect run that threw) no listener is left. -/
def CodeEditor.Inv (s : CodeEditor.State) : Prop :=
  (s.mounted = true ∧ ∃ c, s.cleanup = some c ∧ s.listeners = CodeEditor.subscribed c ∧
    s.depExitCount = c ∧ c ≤ s.exitCount ∧ s.exitCount ≤ c + 1) ∨
  (s.mounted = false ∧ s.cleanup = none ∧ s.listeners = [])

/-- No interval of the component is live, or exactly one is and `fullscreenAttemptRef` holds
its id. -/
def CodeEditorSkeleton.OneInterval (s : CodeEditorSkeleton.State) : Prop :=
  s.intervals = [] ∨ ∃ id, s.intervals = [id] ∧ s.fullscreenAttemptRef = some id

/-- What holds in every state a mounted `CodeEditorSkeleton` can reach: a live interval is the
one whose id `fullscreenAttemptRef` holds, and there is at most one; while mounted the
listeners are those of the effect run for some count `c`, whose cleanup is pending, and
`exitCount` is `c` or `c + 1`; after the unmount no listener is left. -/
def CodeEditorSkeleton.Inv (s : CodeEditorSkeleton.State) : Prop :=
  CodeEditorSkeleton.OneInterval s ∧
  ((s.mounted = true ∧ ∃ c, s.cleanup = some c ∧ s.listeners = CodeEditorSkeleton.subscribed c ∧
      s.depExitCount = c ∧ c ≤ s.exitCount ∧ s.exitCount ≤ c + 1) ∨
   (s.mounted = false ∧ s.cleanup = none ∧ s.listeners = []))

/-- Test.jsx 145-147: while `isLoading || !(timer && status === "scheduled")` the view
renders `<CodeEditorSkeleton />`.  The page then holds two mounted components, each with its
own state and its own monitor effect on the same `document`. -/
structure Test.LoadingPage where
  skeleton : CodeEditorSkeleton.State
  view : Test.State
  deriving DecidableEq, Repr

/-- First commit of a loading `Test`: the effects of the child run before those of the
parent. -/
def Test.LoadingPage.mount (e : Env) : Test.LoadingPage × List Effect :=
  let r1 := CodeEditorSkeleton.mount e
  let r2 := Test.mount e
  ({ skeleton := r1.1, view := r2.1 }, r1.2 ++ r2.2)

/-- The document dispatches `ev` to a loading `Test`: the listeners of both components run,
in registration order. -/
def Test.LoadingPage.dispatch (ev : Event) (e : Env) (p : Test.LoadingPage) :
    Test.LoadingPage × List Effect :=
  let r1 := CodeEditorSkeleton.dispatch ev e p.skeleton
  let r2 := Test.dispatch ev e p.view
  ({ skeleton := r1.1, view := r2.1 }, r1.2 ++ r2.2)

/-- CodeEditor.jsx 109-111: while `isLoading || isFinding` the view renders
`<CodeEditorSkeleton />`; the page holds both mounted components. -/
structure CodeEditor.LoadingPage where
  skeleton : CodeEditorSkeleton.State
  view : CodeEditor.State
  deriving DecidableEq, Repr

/-- First commit of a loading `CodeEditor`: the effects of the child run before those of the
parent.  When the effect of `CodeEditor` throws (its `enterFullscreen` has no `try`), React
unmounts the tree, so the cleanup of the skeleton's effect, which had already run, runs
too. -/
def CodeEditor.LoadingPage.mount (e : Env) : CodeEditor.LoadingPage × List Effect :=
  let r1 := CodeEditorSkeleton.mount e
  let r2 := CodeEditor.mount e
  if r2.1.mounted then
    ({ skeleton := r1.1, view := r2.1 }, r1.2 ++ r2.2)
  else
    let r3 := CodeEditorSkeleton.step r1.1 CodeEditorSkeleton.Input.unmount
    ({ skeleton := r3.1, view := r2.1 }, r1.2 ++ r2.2 ++ r3.2)

/-- The document dispatches `ev` to a loading `CodeEditor`: the listeners of both components
run, in registration order. -/
def CodeEditor.LoadingPage.dispatch (ev : Event) (e : Env) (p : CodeEditor.LoadingPage) :
    CodeEditor.LoadingPage × List Effect :=
  let r1 := CodeEditorSkeleton.dispatch ev e p.skeleton
  let r2 := CodeEditor.dispatch ev e p.view
  ({ skeleton := r1.1, view := r2.1 }, r1.2 ++ r2.2)

/-- The number of listeners a registry holds for an event type. -/
def listenerCount {H : Type} (reg : List (EventType × H)) (t : EventType) : Nat :=
  (reg.filter (fun p => p.1 = t)).length

/-- A root element that only has the webkit-prefixed request method. -/
def webkitRoot : RootElement :=
  { requestFullscreen := none, mozRequestFullScreen := none,
    webkitRequestFullscreen := some CallOutcome.granted, msRequestFullscreen := none }

/-- A root element whose standard request method throws. -/
def throwingRoot : RootElement :=
  { requestFullscreen := some CallOutcome.throws, mozRequestFullScreen := none,
    webkitRequestFullscreen := none, msRequestFullscreen := none }

/-- The page is visible and not in fullscreen, on a webkit-only platform. -/
def envWebkitExited : Env := { envExited with root := webkitRoot }

/-- The page is visible and not in fullscreen, and the standard request method throws. -/
def envThrowing : Env := { envExited with root := throwingRoot }

/-- The page is visible and in fullscreen on a webkit-only platform: only the prefixed
indicator `webkitFullscreenElement` is set. -/
def envWebkitFullscreen : Env :=
  { doc := { fullscreenElement := false, webkitFullscreenElement := true,
             mozFullScreenElement := false, msFullscreenElement := false,
             visibilityState := Visibility.visible },
    root := webkitRoot }

/-- The page is hidden and not in fullscreen. -/
def envHiddenExited : Env :=
  { envExited with doc := { envExited.doc with visibilityState := Visibility.hidden } }

/-- The state a `Test` mounted in environment `e` is in after the inputs `is`. -/
def Test.reach (e : Env) (is : List Test.Input) : Test.State :=
  (Test.run (Test.mount e).1 is).1

/-- The state a `CodeEditor` mounted in environment `e` is in after the inputs `is`. -/
def CodeEditor.reach (e : Env) (is : List CodeEditor.Input) : CodeEditor.State :=
  (CodeEditor.run (CodeEditor.mount e).1 is).1

/-- The state a `CodeEditorSkeleton` mounted in environment `e` is in after the inputs `is`. -/
def CodeEditorSkeleton.reach (e : Env) (is : List CodeEditorSkeleton.Input) :
    CodeEditorSkeleton.State :=
  (CodeEditorSkeleton.run (CodeEditorSkeleton.mount e).1 is).1

/-- A `CodeEditor` mounted in fullscreen that handled one fullscreen exit (which scheduled
`enterFullscreen` after 100 ms) and was then unmounted. -/
def CodeEditor.exitThenUnmount : List CodeEditor.Input :=
  [CodeEditor.violationInput Violation.fullscreenExit envExited, CodeEditor.Input.unmount]

/-- A `CodeEditorSkeleton` mounted in fullscreen that handled one fullscreen exit (which
scheduled `enterFullscreen` after 100, 500 and 1000 ms) and was then unmounted. -/
def CodeEditorSkeleton.exitThenUnmount : List CodeEditorSkeleton.Input :=
  [CodeEditorSkeleton.violationInput Violation.fullscreenExit envExited,
   CodeEditorSkeleton.Input.unmount]

/-- A `CodeEditorSkeleton` mounted in fullscreen that handled two fullscreen exits, each
rendered before the next, and then a third one, which brings the count to `maxExits`. -/
def CodeEditorSkeleton.threeExits : List CodeEditorSkeleton.Input :=
  [CodeEditorSkeleton.violationInput Violation.fullscreenExit envExited,
   CodeEditorSkeleton.Input.render envFullscreen,
   CodeEditorSkeleton.violationInput Violation.fullscreenExit envExited,
   CodeEditorSkeleton.Input.render envFullscreen,
   CodeEditorSkeleton.violationInput Violation.fullscreenExit envExited]

/-- A `CodeEditor` mounted in fullscreen that handled one tab switch (which scheduled the
warning alert after 500 ms) and was then unmounted. -/
def CodeEditor.hideThenUnmount : List CodeEditor.Input :=
  [CodeEditor.violationInput Violation.tabHidden envHidden, CodeEditor.Input.unmount]

/-- A `CodeEditorSkeleton` mounted in fullscreen that handled one tab switch (which scheduled
the warning alert and the re-arming of the monitor after 500 ms) and was then unmounted. -/
def CodeEditorSkeleton.hideThenUnmount : List CodeEditorSkeleton.Input :=
  [CodeEditorSkeleton.violationInput Violation.tabHidden envHidden,
   CodeEditorSkeleton.Input.unmount]

/-- Whether the root element has the given request method. -/
def RootElement.has (r : RootElement) : RequestMethod → Bool
  | RequestMethod.requestFullscreen => r.requestFullscreen.isSome
  | RequestMethod.mozRequestFullScreen => r.mozRequestFullScreen.isSome
  | RequestMethod.webkitRequestFullscreen => r.webkitRequestFullscreen.isSome
  | RequestMethod.msRequestFullscreen => r.msRequestFullscreen.isSome

/-- Whether the root element has at least one of the four request methods. -/
def RootElement.hasAny (r : RootElement) : Bool :=
  r.requestFullscreen.isSome || r.webkitRequestFullscreen.isSome ||
    r.mozRequestFullScreen.isSome || r.msRequestFullscreen.isSome

/-- A root element that has all three prefixed request methods and not the standard one;
the moz-prefixed one throws. -/
def prefixedRoot : RootElement :=
  { requestFullscreen := none, mozRequestFullScreen := some CallOutcome.throws,
    webkitRequestFullscreen := some CallOutcome.granted,
    msRequestFullscreen := some CallOutcome.rejected }

/-- The page is visible and not in fullscreen, on a platform with the prefixed methods
only. -/
def envPrefixedExited : Env := { envExited with root := prefixedRoot }

/-- A `CodeEditor` mounted in fullscreen that handled one tab switch and has not re-rendered
since: `exitCount` is 1 while the listeners on the document are still the closures of the
first effect run, which captured `exitCount = 0`. -/
def CodeEditor.afterUnrenderedSwitch : CodeEditor.State :=
  CodeEditor.reach envFullscreen [CodeEditor.violationInput Violation.tabHidden envHidden]

/-- A `CodeEditor` mounted in fullscreen that handled one tab switch, re-rendered (the effect
re-subscribed with `exitCount = 1`), and handled a second tab switch without re-rendering
since: `exitCount` is 2 while the listeners captured `exitCount = 1`. -/
def CodeEditor.afterSecondUnrenderedSwitch : CodeEditor.State :=
  CodeEditor.reach envFullscreen
    [CodeEditor.violationInput Violation.tabHidden envHidden,
     CodeEditor.Input.render envHidden,
     CodeEditor.violationInput Violation.tabHidden envHidden]

/-- Whether the input lets a pending timeout of `CodeEditor` fire. -/
def CodeEditor.Input.isFire : CodeEditor.Input → Bool
  | CodeEditor.Input.fire _ _ => true
  | _ => false

/-- Whether the input lets a pending timeout of `CodeEditorSkeleton` fire. -/
def CodeEditorSkeleton.Input.isFire : CodeEditorSkeleton.Input → Bool
  | CodeEditorSkeleton.Input.fire _ _ => true
  | _ => false

/-- Whether the input, given in state `s`, fires a pending timeout whose callback is not
`enterFullscreen` itself: the 500 ms warning callback of CodeEditorSkeleton.jsx 60-63. -/
def CodeEditorSkeleton.firesWarning (s : CodeEditorSkeleton.State) :
    CodeEditorSkeleton.Input → Bool
  | CodeEditorSkeleton.Input.fire n _ =>
    match s.timeouts.get? n with
    | some (TimeoutCallback.enterFullscreen, _) => false
    | some _ => true
    | none => false
  | _ => false

/-- No input of the run, started in state `s`, fires a warning timeout. -/
def CodeEditorSkeleton.noWarningFires (s : CodeEditorSkeleton.State) :
    List CodeEditorSkeleton.Input → Bool
  | [] => true
  | j :: rest =>
    !CodeEditorSkeleton.firesWarning s j &&
      CodeEditorSkeleton.noWarningFires (CodeEditorSkeleton.step s j).1 rest

/-- The state of a `CodeEditor` that was mounted in `e`, saw the inputs `is`, was unmounted,
and then saw the inputs `js`. -/
def CodeEditor.afterTeardown (e : Env) (is js : List CodeEditor.Input) : CodeEditor.State :=
  (CodeEditor.run (CodeEditor.step (CodeEditor.reach e is) CodeEditor.Input.unmount).1 js).1

/-- The state of a `CodeEditorSkeleton` that was mounted in `e`, saw the inputs `is`, was
unmounted, and then saw the inputs `js`. -/
def CodeEditorSkeleton.afterTeardown (e : Env) (is js : List CodeEditorSkeleton.Input) :
    CodeEditorSkeleton.State :=
  (CodeEditorSkeleton.run
    (CodeEditorSkeleton.step (CodeEditorSkeleton.reach e is)
      CodeEditorSkeleton.Input.unmount).1 js).1

/-! ## Theorems -/

/-- The nine registrations of the mount effect of `Test`, spelled out. -/
theorem Test.registerAll_nil :
    Test.registerAll [] =
      [(EventType.fullscreenchange, Test.Handler.handleFullscreenExit),
       (EventType.webkitfullscreenchange, Test.Handler.handleFullscreenExit),
       (EventType.mozfullscreenchange, Test.Handler.handleFullscreenExit),
       (EventType.MSFullscreenChange, Test.Handler.handleFullscreenExit),
       (EventType.copy, Test.Handler.preventCopyPaste),
       (EventType.paste, Test.Handler.preventCopyPaste),
       (EventType.cut, Test.Handler.preventCopyPaste),
       (EventType.contextmenu, Test.Handler.preventContextMenu),
       (EventType.keydown, Test.Handler.preventKeyboardShortcuts)] := by
  decide

/-- With the mount registrations in place, a fullscreen-change event of any of the four types
runs `handleFullscreenExit` exactly once. -/
theorem Test.dispatch_fullscreenChange (s : Test.State) (ev : Event) (e : Env)
    (hl : s.listeners = Test.registerAll []) (ht : ev.type ∈ Test.fullscreenChangeTypes) :
    Test.dispatch ev e s = Test.handleFullscreenExit e s := by
  unfold Test.dispatch
  rw [hl, Test.registerAll_nil]
  simp only [Test.fullscreenChangeTypes, List.mem_cons, List.mem_singleton, List.not_mem_nil,
    or_false] at ht
  rcases ht with h | h | h | h <;>
    simp [runListeners, h, Test.runHandler]

/-- With the listeners of an effect run for count `c` in place, a violation event runs the
matching handler of that run exactly once. -/
theorem CodeEditor.dispatch_violation (s : CodeEditor.State) (c : Nat)
    (v : Violation) (e : Env) (hl : s.listeners = CodeEditor.subscribed c) :
    CodeEditor.step s (CodeEditor.violationInput v e) =
      match v with
      | Violation.tabHidden => CodeEditor.handleVisibilityChange c (v.env e) s
      | Violation.fullscreenExit => CodeEditor.handleFullscreenChange c (v.env e) s := by
  cases v <;>
    simp [CodeEditor.step, CodeEditor.violationInput, CodeEditor.dispatch, hl,
      CodeEditor.subscribed, runListeners, Violation.event, CodeEditor.runHandler]


/-! ### C1: the transition on one violation event -/

/-- `handleFullscreenExit` of `Test` on a document that is not in fullscreen, from count `c`. -/
theorem Test.handleFullscreenExit_spec (s : Test.State) (e : Env)
    (hd : Test.checkFullscreen e.doc = false) :
    (Test.handleFullscreenExit e s).1.exitAttempts = s.exitAttempts + 1 ∧
    (Effect.setIsBlocked true ∈ (Test.handleFullscreenExit e s).2 ↔ 3 ≤ s.exitAttempts + 1) ∧
    ((Test.handleFullscreenExit e s).1.isBlocked = true ↔
      (s.isBlocked = true ∨ 3 ≤ s.exitAttempts + 1)) ∧
    (s.exitAttempts + 1 < 3 →
      warningCounts (Test.handleFullscreenExit e s).2 = [s.exitAttempts + 1] ∧
      blockNotices (Test.handleFullscreenExit e s).2 = 0 ∧
      (Test.handleFullscreenExit e s).1.isBlocked = s.isBlocked) ∧
    (3 ≤ s.exitAttempts + 1 →
      warningCounts (Test.handleFullscreenExit e s).2 = [] ∧
      blockNotices (Test.handleFullscreenExit e s).2 = 1) := by
  by_cases h : 3 ≤ s.exitAttempts + 1
  · have h2 : ¬ s.exitAttempts + 1 < 3 := by omega
    simp [Test.handleFullscreenExit, hd, Test.exitAttemptsUpdater, h, h2, Test.applyIsBlocked,
      warningCounts, blockNotices]
  · have h2 : s.exitAttempts + 1 < 3 := by omega
    simp [Test.handleFullscreenExit, hd, Test.exitAttemptsUpdater, h, h2, Test.applyIsBlocked,
      warningCounts, blockNotices]

/-- `handleVisibilityChange` of `CodeEditor`, subscribed for count `c`, on a hidden page. -/
theorem CodeEditor.handleVisibilityChange_spec (c : Nat) (s : CodeEditor.State) (e : Env)
    (hd : e.doc.visibilityState = Visibility.hidden) :
    (CodeEditor.handleVisibilityChange c e s).1.exitCount = c + 1 ∧
    (Effect.setIsBlocked true ∈ (CodeEditor.handleVisibilityChange c e s).2 ↔ 3 ≤ c + 1) ∧
    ((CodeEditor.handleVisibilityChange c e s).1.isBlocked = true ↔
      (s.isBlocked = true ∨ 3 ≤ c + 1)) ∧
    (c + 1 < 3 →
      warningCounts (CodeEditor.handleVisibilityChange c e s).2 = [c + 1] ∧
      blockNotices (CodeEditor.handleVisibilityChange c e s).2 = 0 ∧
      (CodeEditor.handleVisibilityChange c e s).1.isBlocked = s.isBlocked) ∧
    (3 ≤ c + 1 →
      warningCounts (CodeEditor.handleVisibilityChange c e s).2 = [] ∧
      blockNotices (CodeEditor.handleVisibilityChange c e s).2 = 1) := by
  by_cases h : 3 ≤ c + 1
  · have h2 : ¬ c + 1 < 3 := by omega
    simp [CodeEditor.handleVisibilityChange, hd, CodeEditor.maxExits, h, h2, warningCounts,
      blockNotices]
  · have h2 : c + 1 < 3 := by omega
    simp [CodeEditor.handleVisibilityChange, hd, CodeEditor.maxExits, h, h2, warningCounts,
      blockNotices]

/-- `handleFullscreenChange` of `CodeEditor`, subscribed for count `c`, with no fullscreen
element. -/
theorem CodeEditor.handleFullscreenChange_spec (c : Nat) (s : CodeEditor.State) (e : Env)
    (hd : e.doc.fullscreenElement = false) :
    (CodeEditor.handleFullscreenChange c e s).1.exitCount = c + 1 ∧
    (Effect.setIsBlocked true ∈ (CodeEditor.handleFullscreenChange c e s).2 ↔ 3 ≤ c + 1) ∧
    ((CodeEditor.handleFullscreenChange c e s).1.isBlocked = true ↔
      (s.isBlocked = true ∨ 3 ≤ c + 1)) ∧
    (c + 1 < 3 →
      warningCounts (CodeEditor.handleFullscreenChange c e s).2 = [c + 1] ∧
      blockNotices (CodeEditor.handleFullscreenChange c e s).2 = 0 ∧
      (CodeEditor.handleFullscreenChange c e s).1.isBlocked = s.isBlocked) ∧
    (3 ≤ c + 1 →
      warningCounts (CodeEditor.handleFullscreenChange c e s).2 = [] ∧
      blockNotices (CodeEditor.handleFullscreenChange c e s).2 = 1) := by
  by_cases h : 3 ≤ c + 1
  · have h2 : ¬ c + 1 < 3 := by omega
    simp [CodeEditor.handleFullscreenChange, hd, CodeEditor.maxExits, h, h2, warningCounts,
      blockNotices]
  · have h2 : c + 1 < 3 := by omega
    simp [CodeEditor.handleFullscreenChange, hd, CodeEditor.maxExits, h, h2, warningCounts,
      blockNotices]


/-- The transition of `CodeEditor` on one violation event handled by the listeners subscribed
for the current count. -/
theorem CodeEditor.step_violation_spec (s : CodeEditor.State) (v : Violation) (e : Env)
    (hl : s.listeners = CodeEditor.subscribed s.exitCount) :
    (CodeEditor.step s (CodeEditor.violationInput v e)).1.exitCount = s.exitCount + 1 ∧
    (Effect.setIsBlocked true ∈ (CodeEditor.step s (CodeEditor.violationInput v e)).2 ↔
      3 ≤ s.exitCount + 1) ∧
    ((CodeEditor.step s (CodeEditor.violationInput v e)).1.isBlocked = true ↔
      (s.isBlocked = true ∨ 3 ≤ s.exitCount + 1)) ∧
    (s.exitCount + 1 < 3 →
      warningCounts (CodeEditor.step s (CodeEditor.violationInput v e)).2 = [s.exitCount + 1] ∧
      blockNotices (CodeEditor.step s (CodeEditor.violationInput v e)).2 = 0 ∧
      (CodeEditor.step s (CodeEditor.violationInput v e)).1.isBlocked = s.isBlocked) ∧
    (3 ≤ s.exitCount + 1 →
      warningCounts (CodeEditor.step s (CodeEditor.violationInput v e)).2 = [] ∧
      blockNotices (CodeEditor.step s (CodeEditor.violationInput v e)).2 = 1) := by
  rw [CodeEditor.dispatch_violation s s.exitCount v e hl]
  cases v
  · exact CodeEditor.handleVisibilityChange_spec s.exitCount s _ rfl
  · exact CodeEditor.handleFullscreenChange_spec s.exitCount s _ rfl

/-- The transition on one violation event whose handler works from the current count `c`: in
`Test` a fullscreen-change notification of any of the four types while the document is not in
fullscreen (the updater receives the current count), in `CodeEditor` a tab-hidden or a
fullscreen-exit event handled by listeners that were subscribed for the current count.  The
count goes to `c + 1`, `isBlocked := true` is written exactly when `c + 1 >= 3`, below 3 the
trace holds one warning carrying `c + 1` and no block notice and `isBlocked` is untouched,
from 3 on it holds one block notice and no warning.  For `Test` the trace is that of one
call of the updater.  The tab-switch warning of `CodeEditor` is an alert handed to
`setTimeout`; the timeout stays pending and shows the alert carrying `c + 1` when it fires.
Listeners of `CodeEditor` subscribed for an earlier count are outside this statement. -/
theorem transition_from_current_count :
    (∀ (s : Test.State) (ev : Event) (e : Env),
      s.listeners = Test.registerAll [] → ev.type ∈ Test.fullscreenChangeTypes →
      Test.checkFullscreen e.doc = false →
      (Test.step s (Test.Input.event ev e)).1.exitAttempts = s.exitAttempts + 1 ∧
      (Effect.setIsBlocked true ∈ (Test.step s (Test.Input.event ev e)).2 ↔
        3 ≤ s.exitAttempts + 1) ∧
      ((Test.step s (Test.Input.event ev e)).1.isBlocked = true ↔
        (s.isBlocked = true ∨ 3 ≤ s.exitAttempts + 1)) ∧
      (s.exitAttempts + 1 < 3 →
        warningCounts (Test.step s (Test.Input.event ev e)).2 = [s.exitAttempts + 1] ∧
        blockNotices (Test.step s (Test.Input.event ev e)).2 = 0 ∧
        (Test.step s (Test.Input.event ev e)).1.isBlocked = s.isBlocked) ∧
      (3 ≤ s.exitAttempts + 1 →
        warningCounts (Test.step s (Test.Input.event ev e)).2 = [] ∧
        blockNotices (Test.step s (Test.Input.event ev e)).2 = 1)) ∧
    (∀ (s : CodeEditor.State) (v : Violation) (e : Env),
      s.listeners = CodeEditor.subscribed s.exitCount →
      (CodeEditor.step s (CodeEditor.violationInput v e)).1.exitCount = s.exitCount + 1 ∧
      (Effect.setIsBlocked true ∈ (CodeEditor.step s (CodeEditor.violationInput v e)).2 ↔ 3 ≤ s.exitCount + 1) ∧
      ((CodeEditor.step s (CodeEditor.violationInput v e)).1.isBlocked = true ↔
        (s.isBlocked = true ∨ 3 ≤ s.exitCount + 1)) ∧
      (s.exitCount + 1 < 3 →
        warningCounts (CodeEditor.step s (CodeEditor.violationInput v e)).2 = [s.exitCount + 1] ∧
        blockNotices (CodeEditor.step s (CodeEditor.violationInput v e)).2 = 0 ∧
        (CodeEditor.step s (CodeEditor.violationInput v e)).1.isBlocked = s.isBlocked) ∧
      (3 ≤ s.exitCount + 1 →
        warningCounts (CodeEditor.step s (CodeEditor.violationInput v e)).2 = [] ∧
        blockNotices (CodeEditor.step s (CodeEditor.violationInput v e)).2 = 1)) ∧
    (∀ (s : CodeEditor.State) (e e2 : Env),
      s.listeners = CodeEditor.subscribed s.exitCount → s.exitCount + 1 < 3 →
      (CodeEditor.step (CodeEditor.step s (CodeEditor.violationInput Violation.tabHidden e)).1
        (CodeEditor.Input.fire s.timeouts.length e2)).2
        = [Effect.alert (Alert.switchedTabs (s.exitCount + 1) CodeEditor.maxExits)]) := by
  refine ⟨?_, ?_, ?_⟩
  · intro s ev e hl ht hd
    have hstep : Test.step s (Test.Input.event ev e) = Test.handleFullscreenExit e s := by
      simp only [Test.step]
      exact Test.dispatch_fullscreenChange s ev e hl ht
    rw [hstep]
    exact Test.handleFullscreenExit_spec s e hd
  · intro s v e hl
    exact CodeEditor.step_violation_spec s v e hl
  · intro s e e2 hl h3
    rw [CodeEditor.dispatch_violation s s.exitCount _ e hl]
    simp [CodeEditor.handleVisibilityChange, Violation.env, CodeEditor.maxExits, h3,
      CodeEditor.step, CodeEditor.runTimeout]

/-- C1 fails in `CodeEditor` when the violation event is handled before the component has
re-rendered after the previous one: the handlers compute `exitCount + 1` from the `exitCount`
their effect run captured, not from the current count.  With prior count 1 (one tab switch,
not yet re-rendered) a fullscreen exit leaves the count at 1 and raises a warning carrying 1,
where the claim has count 2 and a warning carrying 2.  With prior count 2 (a rendered tab
switch, then one not yet re-rendered) a third violation leaves the count at 2, does not write
`isBlocked`, and raises a warning carrying 2 and no block notice, where the claim has count
3, `isBlocked = true` and the block outcome. -/
theorem C1_stale_count_breaks_transition :
    (CodeEditor.afterUnrenderedSwitch.exitCount = 1 ∧
      CodeEditor.afterUnrenderedSwitch.isBlocked = false ∧
      CodeEditor.afterUnrenderedSwitch.listeners = CodeEditor.subscribed 0 ∧
      (CodeEditor.step CodeEditor.afterUnrenderedSwitch
        (CodeEditor.violationInput Violation.fullscreenExit envHidden)).1.exitCount = 1 ∧
      warningCounts (CodeEditor.step CodeEditor.afterUnrenderedSwitch
        (CodeEditor.violationInput Violation.fullscreenExit envHidden)).2 = [1]) ∧
    (CodeEditor.afterSecondUnrenderedSwitch.exitCount = 2 ∧
      CodeEditor.afterSecondUnrenderedSwitch.isBlocked = false ∧
      CodeEditor.afterSecondUnrenderedSwitch.listeners = CodeEditor.subscribed 1 ∧
      (CodeEditor.step CodeEditor.afterSecondUnrenderedSwitch
        (CodeEditor.violationInput Violation.fullscreenExit envHidden)).1.exitCount = 2 ∧
      (CodeEditor.step CodeEditor.afterSecondUnrenderedSwitch
        (CodeEditor.violationInput Violation.fullscreenExit envHidden)).1.isBlocked = false ∧
      Effect.setIsBlocked true ∉ (CodeEditor.step CodeEditor.afterSecondUnrenderedSwitch
        (CodeEditor.violationInput Violation.fullscreenExit envHidden)).2 ∧
      warningCounts (CodeEditor.step CodeEditor.afterSecondUnrenderedSwitch
        (CodeEditor.violationInput Violation.fullscreenExit envHidden)).2 = [2] ∧
      blockNotices (CodeEditor.step CodeEditor.afterSecondUnrenderedSwitch
        (CodeEditor.violationInput Violation.fullscreenExit envHidden)).2 = 0 ∧
      (CodeEditor.step CodeEditor.afterSecondUnrenderedSwitch
        (CodeEditor.violationInput Violation.tabHidden envHidden)).1.exitCount = 2 ∧
      (CodeEditor.step CodeEditor.afterSecondUnrenderedSwitch
        (CodeEditor.violationInput Violation.tabHidden envHidden)).1.isBlocked = false ∧
      blockNotices (CodeEditor.step CodeEditor.afterSecondUnrenderedSwitch
        (CodeEditor.violationInput Violation.tabHidden envHidden)).2 = 0) := by
  decide

/-! ### C2: the blocked flag is never reset -/

/-- Induction principle for `runListeners`: a relation between the state before and after
that every listener respects, and a property of effects that every listener's trace has,
carry over to the whole dispatch. -/
theorem runListeners_induct {H S : Type} (runH : H → Event → Env → S → S × List Effect)
    (R : S → S → Prop) (Q : Effect → Prop) (hrefl : ∀ s, R s s)
    (htrans : ∀ a b c, R a b → R b c → R a c)
    (hR : ∀ h ev e s, R s (runH h ev e s).1)
    (hQ : ∀ h ev e s, ∀ x ∈ (runH h ev e s).2, Q x)
    (ls : List (EventType × H)) (ev : Event) (e : Env) (s : S) :
    R s (runListeners runH ls ev e s).1 ∧ ∀ x ∈ (runListeners runH ls ev e s).2, Q x := by
  induction ls generalizing s with
  | nil => exact ⟨hrefl s, by simp [runListeners]⟩
  | cons p rest ih =>
    obtain ⟨t, h⟩ := p
    by_cases ht : t = ev.type
    · have ih1 := ih (runH h ev e s).1
      simp only [runListeners, ht, if_true]
      refine ⟨htrans _ _ _ (hR h ev e s) ih1.1, ?_⟩
      intro x hx
      rcases List.mem_append.mp hx with hx | hx
      · exact hQ h ev e s x hx
      · exact ih1.2 x hx
    · simp only [runListeners, ht, if_false]
      exact ih s

/-- Every listener of `Test` keeps a set `isBlocked` set and never writes `false` to it. -/
theorem Test.runHandler_blocked (h : Test.Handler) (ev : Event) (e : Env) (s : Test.State) :
    (s.isBlocked = true → (Test.runHandler h ev e s).1.isBlocked = true) ∧
    ∀ x ∈ (Test.runHandler h ev e s).2, x ≠ Effect.setIsBlocked false := by
  cases h
  · by_cases hd : Test.checkFullscreen e.doc = true
    · simp [Test.runHandler, Test.handleFullscreenExit, hd]
    · by_cases h3 : 3 ≤ s.exitAttempts + 1
      · simp [Test.runHandler, Test.handleFullscreenExit, hd, Test.exitAttemptsUpdater, h3,
          Test.applyIsBlocked]
      · simp [Test.runHandler, Test.handleFullscreenExit, hd, Test.exitAttemptsUpdater, h3,
          Test.applyIsBlocked]
  · simp [Test.runHandler, Test.preventCopyPaste]
  · simp [Test.runHandler, Test.preventContextMenu]
  · by_cases hk : (ev.ctrlKey && (ev.key == "c" || ev.key == "v" || ev.key == "x")) = true
    · simp only [Test.runHandler, Test.preventKeyboardShortcuts, hk, if_true]
      simp
    · simp only [Test.runHandler, Test.preventKeyboardShortcuts, hk]
      simp

/-- A request made inside `try` only produces the call and possibly a console message. -/
theorem Test.callInTry_mem (m : RequestMethod) (o : CallOutcome) :
    ∀ x ∈ Test.callInTry m o, x = Effect.request m ∨ x = Effect.consoleError := by
  intro x hx
  cases o <;> simp [Test.callInTry] at hx <;> simp [hx]

/-- The trace of `enterFullscreen` of `Test` consists of request calls and console messages. -/
theorem Test.enterFullscreen_mem (e : Env) :
    ∀ x ∈ Test.enterFullscreen e, (∃ m, x = Effect.request m) ∨ x = Effect.consoleError := by
  intro x hx
  unfold Test.enterFullscreen at hx
  split at hx
  · exact (Test.callInTry_mem _ _ x hx).imp (fun h => ⟨_, h⟩) id
  · split at hx
    · exact (Test.callInTry_mem _ _ x hx).imp (fun h => ⟨_, h⟩) id
    · split at hx
      · exact (Test.callInTry_mem _ _ x hx).imp (fun h => ⟨_, h⟩) id
      · split at hx
        · exact (Test.callInTry_mem _ _ x hx).imp (fun h => ⟨_, h⟩) id
        · simp at hx

/-- No trace of `enterFullscreen` of `Test` writes `isBlocked`. -/
theorem Test.enterFullscreen_no_write (e : Env) :
    ∀ x ∈ Test.enterFullscreen e, x ≠ Effect.setIsBlocked false := by
  intro x hx
  rcases Test.enterFullscreen_mem e x hx with ⟨m, rfl⟩ | rfl <;> simp

/-- One step of `Test` keeps a set `isBlocked` set and never writes `false` to it. -/
theorem Test.step_blocked (s : Test.State) (i : Test.Input) :
    (s.isBlocked = true → (Test.step s i).1.isBlocked = true) ∧
    ∀ x ∈ (Test.step s i).2, x ≠ Effect.setIsBlocked false := by
  cases i with
  | event ev e =>
    exact runListeners_induct Test.runHandler
      (fun a b => a.isBlocked = true → b.isBlocked = true) (fun x => x ≠ Effect.setIsBlocked false)
      (fun _ h => h) (fun _ _ _ h1 h2 h => h2 (h1 h))
      (fun h ev e s => (Test.runHandler_blocked h ev e s).1)
      (fun h ev e s => (Test.runHandler_blocked h ev e s).2) s.listeners ev e s
  | tick id e =>
    by_cases hid : id ∈ s.intervals
    · simp only [Test.step, hid, if_true]
      refine ⟨fun h => h, fun x hx => ?_⟩
      unfold Test.checkAndEnterFullscreen at hx
      split at hx
      · exact Test.enterFullscreen_no_write e x hx
      · simp at hx
    · simp [Test.step, hid]
  | render =>
    by_cases hc : (s.mounted && s.depIsBlocked != s.isBlocked) = true
    · simp only [Test.step, hc, if_true]
      cases hr : s.reentryCleanup <;> cases hb : s.isBlocked <;>
        simp [Test.reentryCleanupRun, Test.reentryEffect, hr, hb]
    · simp [Test.step, hc]
  | click e =>
    by_cases hm : s.mounted = true
    · simp only [Test.step, hm, if_true]
      exact ⟨fun h => h, Test.enterFullscreen_no_write e⟩
    · simp [Test.step, hm]
  | unmount =>
    by_cases hm : s.mounted = true
    · simp only [Test.step, hm, if_true]
      cases hr : s.reentryCleanup <;>
        simp [Test.mountCleanup, Test.reentryCleanupRun, hr]
    · simp [Test.step, hm]

/-- Any run of `Test` keeps a set `isBlocked` set and never writes `false` to it. -/
theorem Test.run_blocked (is : List Test.Input) (s : Test.State) :
    (s.isBlocked = true → (Test.run s is).1.isBlocked = true) ∧
    ∀ x ∈ (Test.run s is).2, x ≠ Effect.setIsBlocked false := by
  induction is generalizing s with
  | nil => simp [Test.run]
  | cons i rest ih =>
    have h1 := Test.step_blocked s i
    have h2 := ih (Test.step s i).1
    simp only [Test.run]
    refine ⟨fun h => h2.1 (h1.1 h), fun x hx => ?_⟩
    rcases List.mem_append.mp hx with hx | hx
    · exact h1.2 x hx
    · exact h2.2 x hx

/-- Every listener of `CodeEditor` keeps a set `isBlocked` set and never writes `false`. -/
theorem CodeEditor.editor_runHandler_blocked (h : CodeEditor.Handler) (ev : Event) (e : Env)
    (s : CodeEditor.State) :
    (s.isBlocked = true → (CodeEditor.runHandler h ev e s).1.isBlocked = true) ∧
    ∀ x ∈ (CodeEditor.runHandler h ev e s).2, x ≠ Effect.setIsBlocked false := by
  cases h with
  | handleVisibilityChange c =>
    simp only [CodeEditor.runHandler, CodeEditor.handleVisibilityChange]
    split_ifs <;> simp
  | handleFullscreenChange c =>
    simp only [CodeEditor.runHandler, CodeEditor.handleFullscreenChange]
    split_ifs <;> simp

/-- The trace of `enterFullscreen` of `CodeEditor` consists of request calls and console
messages. -/
theorem CodeEditor.editor_enterFullscreen_mem (e : Env) :
    ∀ x ∈ (CodeEditor.enterFullscreen e).1,
      (∃ m, x = Effect.request m) ∨ x = Effect.consoleError := by
  intro x hx
  unfold CodeEditor.enterFullscreen at hx
  split at hx
  · split at hx <;> simp at hx <;> rcases hx with rfl | rfl <;> simp
  · simp at hx

/-- The effect body and cleanup of `CodeEditor` leave both state cells alone. -/
theorem CodeEditor.effect_frame (e : Env) (s : CodeEditor.State) :
    (CodeEditor.effectBody e s).1.isBlocked = s.isBlocked ∧
    (CodeEditor.effectBody e s).1.exitCount = s.exitCount ∧
    (CodeEditor.effectCleanup s).isBlocked = s.isBlocked ∧
    (CodeEditor.effectCleanup s).exitCount = s.exitCount ∧
    (CodeEditor.effectBody e s).2 = (CodeEditor.enterFullscreen e).1 := by
  refine ⟨?_, ?_, ?_, ?_, ?_⟩
  · simp only [CodeEditor.effectBody]
    split_ifs <;> rfl
  · simp only [CodeEditor.effectBody]
    split_ifs <;> rfl
  · unfold CodeEditor.effectCleanup
    split <;> rfl
  · unfold CodeEditor.effectCleanup
    split <;> rfl
  · simp only [CodeEditor.effectBody]
    split_ifs <;> rfl

/-- One step of `CodeEditor` keeps a set `isBlocked` set and never writes `false` to it. -/
theorem CodeEditor.editor_step_blocked (s : CodeEditor.State) (i : CodeEditor.Input) :
    (s.isBlocked = true → (CodeEditor.step s i).1.isBlocked = true) ∧
    ∀ x ∈ (CodeEditor.step s i).2, x ≠ Effect.setIsBlocked false := by
  cases i with
  | event ev e =>
    exact runListeners_induct CodeEditor.runHandler
      (fun a b => a.isBlocked = true → b.isBlocked = true) (fun x => x ≠ Effect.setIsBlocked false)
      (fun _ h => h) (fun _ _ _ h1 h2 h => h2 (h1 h))
      (fun h ev e s => (CodeEditor.editor_runHandler_blocked h ev e s).1)
      (fun h ev e s => (CodeEditor.editor_runHandler_blocked h ev e s).2) s.listeners ev e s
  | fire n e =>
    simp only [CodeEditor.step]
    split
    · rename_i cb d hget
      refine ⟨fun h => h, fun x hx => ?_⟩
      cases cb with
      | warnSwitchedTabs a b => simp [CodeEditor.runTimeout] at hx; simp [hx]
      | warnSwitchedTabsAndMonitor a b => simp [CodeEditor.runTimeout] at hx; simp [hx]
      | enterFullscreen =>
        rcases CodeEditor.editor_enterFullscreen_mem e x hx with ⟨m, rfl⟩ | rfl <;> simp
    · simp
  | render e =>
    by_cases hc : (s.mounted && s.depExitCount != s.exitCount) = true
    · simp only [CodeEditor.step, hc, if_true]
      have hf := CodeEditor.effect_frame e (CodeEditor.effectCleanup s)
      have hg := CodeEditor.effect_frame e s
      refine ⟨fun h => by rw [hf.1, hg.2.2.1]; exact h, fun x hx => ?_⟩
      rw [hf.2.2.2.2] at hx
      rcases CodeEditor.editor_enterFullscreen_mem e x hx with ⟨m, rfl⟩ | rfl <;> simp
    · simp [CodeEditor.step, hc]
  | unmount =>
    by_cases hm : s.mounted = true
    · simp only [CodeEditor.step, hm, if_true]
      have hg := CodeEditor.effect_frame envFullscreen s
      exact ⟨fun h => by simpa [hg.2.2.1] using h, by simp⟩
    · simp [CodeEditor.step, hm]

/-- Any run of `CodeEditor` keeps a set `isBlocked` set and never writes `false` to it. -/
theorem CodeEditor.editor_run_blocked (is : List CodeEditor.Input) (s : CodeEditor.State) :
    (s.isBlocked = true → (CodeEditor.run s is).1.isBlocked = true) ∧
    ∀ x ∈ (CodeEditor.run s is).2, x ≠ Effect.setIsBlocked false := by
  induction is generalizing s with
  | nil => simp [CodeEditor.run]
  | cons i rest ih =>
    have h1 := CodeEditor.editor_step_blocked s i
    have h2 := ih (CodeEditor.step s i).1
    simp only [CodeEditor.run]
    refine ⟨fun h => h2.1 (h1.1 h), fun x hx => ?_⟩
    rcases List.mem_append.mp hx with hx | hx
    · exact h1.2 x hx
    · exact h2.2 x hx

/-- C2: in `Test` and in `CodeEditor`, from any state with `isBlocked = true`, after any
sequence of inputs (events of every type, timer callbacks, re-renders with their effect
re-runs, clicks, unmount) `isBlocked` is still `true`; and no run ever performs the write
`setIsBlocked(false)`. -/
theorem C2_blocked_is_irreversible :
    (∀ (s : Test.State) (is : List Test.Input),
      s.isBlocked = true → (Test.run s is).1.isBlocked = true) ∧
    (∀ (s : Test.State) (is : List Test.Input),
      Effect.setIsBlocked false ∉ (Test.run s is).2) ∧
    (∀ (s : CodeEditor.State) (is : List CodeEditor.Input),
      s.isBlocked = true → (CodeEditor.run s is).1.isBlocked = true) ∧
    (∀ (s : CodeEditor.State) (is : List CodeEditor.Input),
      Effect.setIsBlocked false ∉ (CodeEditor.run s is).2) :=
  ⟨fun s is => (Test.run_blocked is s).1,
   fun s is hx => (Test.run_blocked is s).2 _ hx rfl,
   fun s is => (CodeEditor.editor_run_blocked is s).1,
   fun s is hx => (CodeEditor.editor_run_blocked is s).2 _ hx rfl⟩

/-- C2 at concrete inputs: a `Test` blocked by three exits stays blocked through a further
exit, a re-render, a timer tick and a copy event; a `CodeEditor` blocked by scenario A+B
stays blocked through a further exit, a timeout and a re-render. -/
theorem C2_blocked_is_irreversible_witness :
    (Test.afterThreeExits.isBlocked = true ∧
      (Test.run Test.afterThreeExits
        [Test.Input.event (plainEvent EventType.fullscreenchange) envExited, Test.Input.render,
         Test.Input.tick 1 envExited,
         Test.Input.event (plainEvent EventType.copy) envExited]).1.isBlocked = true) ∧
    (CodeEditor.afterScenarioAB.isBlocked = true ∧
      (CodeEditor.run CodeEditor.afterScenarioAB
        [CodeEditor.violationInput Violation.fullscreenExit envExited, CodeEditor.Input.fire 0 envExited,
         CodeEditor.Input.render envFullscreen]).1.isBlocked = true) :=
  ⟨⟨by decide, C2_blocked_is_irreversible.1 Test.afterThreeExits _ (by decide)⟩,
   ⟨by decide, C2_blocked_is_irreversible.2.2.1 CodeEditor.afterScenarioAB _ (by decide)⟩⟩

/-! ### C3: a blocked view still counts and alerts -/

/-- C3 fails as stated: a `Test` that is blocked after three exits (`exitAttempts = 3`) and is
notified of a fullscreen change while the document is not in fullscreen moves to
`exitAttempts = 4` and shows the block alert again; a `CodeEditor` blocked by scenario A+B
(`exitCount = 3`) that handles a further fullscreen exit moves to `exitCount = 4` and shows
its block alert again. -/
theorem C3_blocked_noop_counterexample :
    (Test.afterThreeExits.isBlocked = true ∧ Test.afterThreeExits.exitAttempts = 3 ∧
      Test.checkFullscreen envExited.doc = false ∧
      (Test.step Test.afterThreeExits
        (Test.Input.event (plainEvent EventType.fullscreenchange) envExited)).1.exitAttempts = 4 ∧
      alerts (Test.step Test.afterThreeExits
        (Test.Input.event (plainEvent EventType.fullscreenchange) envExited)).2
        = [Alert.exceededLimit]) ∧
    (CodeEditor.afterScenarioAB.isBlocked = true ∧ CodeEditor.afterScenarioAB.exitCount = 3 ∧
      (CodeEditor.step CodeEditor.afterScenarioAB
        (CodeEditor.violationInput Violation.fullscreenExit envExited)).1.exitCount = 4 ∧
      alerts (CodeEditor.step CodeEditor.afterScenarioAB
        (CodeEditor.violationInput Violation.fullscreenExit envExited)).2
        = [Alert.blockedFromExam]) := by
  decide

/-- C3 as amended: being blocked does not silence the handlers.  In `Test`, from a state with
`isBlocked = true` and `exitAttempts >= 3`, a fullscreen-change notification handled while the
document is not in fullscreen raises `exitAttempts` by one and shows the block alert once
more, `isBlocked` staying `true`.  In `CodeEditor`, from a rendered state with
`isBlocked = true` and `exitCount = c >= 3`, a tab-hidden or fullscreen-exit event sets
`exitCount` to `c + 1` and shows the block alert once more, `isBlocked` staying `true`. -/
theorem C3_blocked_still_counts_and_alerts :
    (∀ (s : Test.State) (ev : Event) (e : Env),
      s.listeners = Test.registerAll [] → s.isBlocked = true → 3 ≤ s.exitAttempts →
      ev.type ∈ Test.fullscreenChangeTypes → Test.checkFullscreen e.doc = false →
      (Test.step s (Test.Input.event ev e)).1.exitAttempts = s.exitAttempts + 1 ∧
      alerts (Test.step s (Test.Input.event ev e)).2 = [Alert.exceededLimit] ∧
      (Test.step s (Test.Input.event ev e)).1.isBlocked = true) ∧
    (∀ (s : CodeEditor.State) (v : Violation) (e : Env),
      s.listeners = CodeEditor.subscribed s.exitCount → s.isBlocked = true → 3 ≤ s.exitCount →
      (CodeEditor.step s (CodeEditor.violationInput v e)).1.exitCount = s.exitCount + 1 ∧
      alerts (CodeEditor.step s (CodeEditor.violationInput v e)).2 = [Alert.blockedFromExam] ∧
      (CodeEditor.step s (CodeEditor.violationInput v e)).1.isBlocked = true) := by
  refine ⟨?_, ?_⟩
  · intro s ev e hl hb h3 ht hd
    have hstep : Test.step s (Test.Input.event ev e) = Test.handleFullscreenExit e s := by
      simp only [Test.step]
      exact Test.dispatch_fullscreenChange s ev e hl ht
    have h3' : 3 ≤ s.exitAttempts + 1 := by omega
    rw [hstep]
    simp [Test.handleFullscreenExit, hd, Test.exitAttemptsUpdater, h3', Test.applyIsBlocked,
      alerts]
  · intro s v e hl hb h3
    have h3' : ¬ s.exitCount + 1 < 3 := by omega
    have h3'' : 3 ≤ s.exitCount + 1 := by omega
    rw [CodeEditor.dispatch_violation s s.exitCount v e hl]
    cases v
    · simp [CodeEditor.handleVisibilityChange, Violation.env, CodeEditor.maxExits, h3', h3'',
        alerts]
    · simp [CodeEditor.handleFullscreenChange, Violation.env, CodeEditor.maxExits, h3', h3'',
        alerts]

/-- C3 as amended, at concrete inputs: the blocked `Test` after three exits and the blocked
`CodeEditor` after scenario A+B, each handling one more fullscreen exit. -/
theorem C3_blocked_still_counts_and_alerts_witness :
    (Test.afterThreeExits.listeners = Test.registerAll [] ∧
      Test.afterThreeExits.isBlocked = true ∧ 3 ≤ Test.afterThreeExits.exitAttempts ∧
      EventType.webkitfullscreenchange ∈ Test.fullscreenChangeTypes ∧
      Test.checkFullscreen envExited.doc = false ∧
      (Test.step Test.afterThreeExits
        (Test.Input.event (plainEvent EventType.webkitfullscreenchange) envExited)).1.exitAttempts
        = Test.afterThreeExits.exitAttempts + 1) ∧
    (CodeEditor.afterScenarioAB.listeners =
        CodeEditor.subscribed CodeEditor.afterScenarioAB.exitCount ∧
      CodeEditor.afterScenarioAB.isBlocked = true ∧ 3 ≤ CodeEditor.afterScenarioAB.exitCount ∧
      (CodeEditor.step CodeEditor.afterScenarioAB
        (CodeEditor.violationInput Violation.tabHidden envHidden)).1.exitCount
        = CodeEditor.afterScenarioAB.exitCount + 1) :=
  ⟨⟨by decide, by decide, by decide, by decide, by decide,
    (C3_blocked_still_counts_and_alerts.1 Test.afterThreeExits
      (plainEvent EventType.webkitfullscreenchange) envExited (by decide) (by decide)
      (by decide) (by decide) (by decide)).1⟩,
   ⟨by decide, by decide, by decide,
    (C3_blocked_still_counts_and_alerts.2 CodeEditor.afterScenarioAB Violation.tabHidden
      envHidden (by decide) (by decide) (by decide)).1⟩⟩

/-! ### C4, C5: two events under one subscription -/

/-- A violation handled by the `CodeEditor` listeners subscribed for count `c` writes
`exitCount := c + 1`, whatever the current `exitCount` is, and touches neither the listeners
nor React's bookkeeping for the effect. -/
theorem CodeEditor.step_violation_frame (s : CodeEditor.State) (c : Nat) (v : Violation)
    (e : Env) (hl : s.listeners = CodeEditor.subscribed c) :
    (CodeEditor.step s (CodeEditor.violationInput v e)).1.exitCount = c + 1 ∧
    (CodeEditor.step s (CodeEditor.violationInput v e)).1.listeners = s.listeners ∧
    (CodeEditor.step s (CodeEditor.violationInput v e)).1.cleanup = s.cleanup ∧
    (CodeEditor.step s (CodeEditor.violationInput v e)).1.depExitCount = s.depExitCount ∧
    (CodeEditor.step s (CodeEditor.violationInput v e)).1.mounted = s.mounted := by
  rw [CodeEditor.dispatch_violation s c v e hl]
  cases v
  · simp only [CodeEditor.handleVisibilityChange, Violation.env]
    split_ifs <;> simp_all
  · simp only [CodeEditor.handleFullscreenChange, Violation.env]
    split_ifs <;> simp_all

/-- With the listeners of an effect run for count `c` in place, a violation event runs the
matching `CodeEditorSkeleton` handler of that run exactly once. -/
theorem CodeEditorSkeleton.skeleton_dispatch_violation (s : CodeEditorSkeleton.State) (c : Nat)
    (v : Violation) (e : Env) (hl : s.listeners = CodeEditorSkeleton.subscribed c) :
    CodeEditorSkeleton.step s (CodeEditorSkeleton.violationInput v e) =
      match v with
      | Violation.tabHidden => CodeEditorSkeleton.handleVisibilityChange c (v.env e) s
      | Violation.fullscreenExit => CodeEditorSkeleton.handleFullscreenChange c (v.env e) s := by
  cases v <;>
    simp [CodeEditorSkeleton.step, CodeEditorSkeleton.violationInput,
      CodeEditorSkeleton.dispatch, hl, CodeEditorSkeleton.subscribed, runListeners,
      Violation.event, CodeEditorSkeleton.runHandler]

/-- A violation handled by the `CodeEditorSkeleton` listeners subscribed for count `c` writes
`exitCount := c + 1`, whatever the current `exitCount` is, and leaves the listeners alone. -/
theorem CodeEditorSkeleton.skeleton_step_violation_frame (s : CodeEditorSkeleton.State)
    (c : Nat) (v : Violation) (e : Env) (hl : s.listeners = CodeEditorSkeleton.subscribed c) :
    (CodeEditorSkeleton.step s (CodeEditorSkeleton.violationInput v e)).1.exitCount = c + 1 ∧
    (CodeEditorSkeleton.step s (CodeEditorSkeleton.violationInput v e)).1.listeners
      = s.listeners := by
  rw [CodeEditorSkeleton.skeleton_dispatch_violation s c v e hl]
  cases v
  · simp only [CodeEditorSkeleton.handleVisibilityChange, Violation.env]
    split_ifs <;> simp_all
  · simp only [CodeEditorSkeleton.handleFullscreenChange, Violation.env,
      CodeEditorSkeleton.setupFullscreenMonitoring, CodeEditorSkeleton.clearRef]
    split_ifs <;> (try split) <;> simp_all

/-- C4 at its failing input: a `CodeEditor` mounted in fullscreen handles a tab-hidden event
and then a fullscreen-exit event before any re-render; two events were delivered, fewer than
3, and `isBlocked` is `false`, but `exitCount` is 1, not 2. -/
theorem C4_unrendered_events_lose_a_count :
    (CodeEditor.runUnrendered (CodeEditor.mount envFullscreen).1
      [(Violation.tabHidden, envHidden), (Violation.fullscreenExit, envExited)]).1.exitCount = 1 ∧
    (CodeEditor.runUnrendered (CodeEditor.mount envFullscreen).1
      [(Violation.tabHidden, envHidden), (Violation.fullscreenExit, envExited)]).1.isBlocked
      = false ∧
    [(Violation.tabHidden, envHidden), (Violation.fullscreenExit, envExited)].length = 2 := by
  decide

/-- C5: in `CodeEditor` and in `CodeEditorSkeleton`, when a tab-hidden event and a
fullscreen-exit event are handled in the same turn (either order, no re-render in between)
by the listeners subscribed for the current count `c`, the resulting `exitCount` is `c + 1`
(and so not `c + 2`). -/
theorem C5_same_turn_counts_once :
    (∀ (s : CodeEditor.State) (e1 e2 : Env),
      s.listeners = CodeEditor.subscribed s.exitCount →
      (CodeEditor.runUnrendered s
        [(Violation.tabHidden, e1), (Violation.fullscreenExit, e2)]).1.exitCount
        = s.exitCount + 1 ∧
      (CodeEditor.runUnrendered s
        [(Violation.fullscreenExit, e1), (Violation.tabHidden, e2)]).1.exitCount
        = s.exitCount + 1) ∧
    (∀ (s : CodeEditorSkeleton.State) (e1 e2 : Env),
      s.listeners = CodeEditorSkeleton.subscribed s.exitCount →
      (CodeEditorSkeleton.runUnrendered s
        [(Violation.tabHidden, e1), (Violation.fullscreenExit, e2)]).1.exitCount
        = s.exitCount + 1 ∧
      (CodeEditorSkeleton.runUnrendered s
        [(Violation.fullscreenExit, e1), (Violation.tabHidden, e2)]).1.exitCount
        = s.exitCount + 1) := by
  refine ⟨?_, ?_⟩
  · intro s e1 e2 hl
    have key : ∀ v1 v2 : Violation,
        (CodeEditor.runUnrendered s [(v1, e1), (v2, e2)]).1.exitCount = s.exitCount + 1 := by
      intro v1 v2
      have h1 := CodeEditor.step_violation_frame s s.exitCount v1 e1 hl
      have h2 := CodeEditor.step_violation_frame
        (CodeEditor.step s (CodeEditor.violationInput v1 e1)).1 s.exitCount v2 e2
        (by rw [h1.2.1]; exact hl)
      simp only [CodeEditor.runUnrendered]
      exact h2.1
    exact ⟨key _ _, key _ _⟩
  · intro s e1 e2 hl
    have key : ∀ v1 v2 : Violation,
        (CodeEditorSkeleton.runUnrendered s [(v1, e1), (v2, e2)]).1.exitCount
          = s.exitCount + 1 := by
      intro v1 v2
      have h1 := CodeEditorSkeleton.skeleton_step_violation_frame s s.exitCount v1 e1 hl
      have h2 := CodeEditorSkeleton.skeleton_step_violation_frame
        (CodeEditorSkeleton.step s (CodeEditorSkeleton.violationInput v1 e1)).1 s.exitCount v2 e2
        (by rw [h1.2]; exact hl)
      simp only [CodeEditorSkeleton.runUnrendered]
      exact h2.1
    exact ⟨key _ _, key _ _⟩

/-- C5 at concrete inputs: both components mounted in fullscreen, then one action that hides
the page and ends fullscreen. -/
theorem C5_same_turn_counts_once_witness :
    ((CodeEditor.mount envFullscreen).1.listeners
        = CodeEditor.subscribed (CodeEditor.mount envFullscreen).1.exitCount ∧
      (CodeEditor.runUnrendered (CodeEditor.mount envFullscreen).1
        [(Violation.tabHidden, envExited), (Violation.fullscreenExit, envExited)]).1.exitCount
        = (CodeEditor.mount envFullscreen).1.exitCount + 1) ∧
    ((CodeEditorSkeleton.mount envFullscreen).1.listeners
        = CodeEditorSkeleton.subscribed (CodeEditorSkeleton.mount envFullscreen).1.exitCount ∧
      (CodeEditorSkeleton.runUnrendered (CodeEditorSkeleton.mount envFullscreen).1
        [(Violation.tabHidden, envExited), (Violation.fullscreenExit, envExited)]).1.exitCount
        = (CodeEditorSkeleton.mount envFullscreen).1.exitCount + 1) :=
  ⟨⟨by decide,
    (C5_same_turn_counts_once.1 (CodeEditor.mount envFullscreen).1 envExited envExited
      (by decide)).1⟩,
   ⟨by decide,
    (C5_same_turn_counts_once.2 (CodeEditorSkeleton.mount envFullscreen).1 envExited envExited
      (by decide)).1⟩⟩

/-! ### C6: `Test` counts notifications, not edges -/

/-- The fullscreen handler of `Test` leaves the listener registry alone and moves the count
by one exactly when the document is not in fullscreen. -/
theorem Test.handleFullscreenExit_frame (s : Test.State) (e : Env) :
    (Test.handleFullscreenExit e s).1.listeners = s.listeners ∧
    (Test.handleFullscreenExit e s).1.exitAttempts =
      if Test.checkFullscreen e.doc then s.exitAttempts else s.exitAttempts + 1 := by
  by_cases hd : Test.checkFullscreen e.doc = true
  · simp [Test.handleFullscreenExit, hd]
  · simp [Test.handleFullscreenExit, hd, Test.exitAttemptsUpdater]
    split_ifs <;> simp

/-- C6 fails as stated: a `Test` mounted in fullscreen is notified of one exit through
`fullscreenchange` (count 1); the same exit notified again through `webkitfullscreenchange`,
the document being not in fullscreen at both notifications, raises the count to 2. -/
theorem C6_edge_triggered_counterexample :
    Test.checkFullscreen envExited.doc = false ∧
    Test.afterOneExit.exitAttempts = 1 ∧
    (Test.step Test.afterOneExit
      (Test.Input.event (plainEvent EventType.webkitfullscreenchange) envExited)).1.exitAttempts
      = 2 := by
  decide

/-- C6 as amended: `handleFullscreenExit` is level-triggered.  Every fullscreen-change
notification (of any of the four types) handled while the document is not in fullscreen
raises `exitAttempts` by one, whatever the document was at the previous notification; a
notification handled while the document is in fullscreen leaves it unchanged.  So two
notifications of one exit raise the count by 2. -/
theorem C6_level_triggered_counting :
    (∀ (s : Test.State) (ev : Event) (e : Env),
      s.listeners = Test.registerAll [] → ev.type ∈ Test.fullscreenChangeTypes →
      (Test.step s (Test.Input.event ev e)).1.exitAttempts =
        if Test.checkFullscreen e.doc then s.exitAttempts else s.exitAttempts + 1) ∧
    (∀ (s : Test.State) (ev1 ev2 : Event) (e1 e2 : Env),
      s.listeners = Test.registerAll [] → ev1.type ∈ Test.fullscreenChangeTypes →
      ev2.type ∈ Test.fullscreenChangeTypes → Test.checkFullscreen e1.doc = false →
      Test.checkFullscreen e2.doc = false →
      (Test.run s [Test.Input.event ev1 e1, Test.Input.event ev2 e2]).1.exitAttempts
        = s.exitAttempts + 2) := by
  have one : ∀ (s : Test.State) (ev : Event) (e : Env),
      s.listeners = Test.registerAll [] → ev.type ∈ Test.fullscreenChangeTypes →
      Test.step s (Test.Input.event ev e) = Test.handleFullscreenExit e s := by
    intro s ev e hl ht
    simp only [Test.step]
    exact Test.dispatch_fullscreenChange s ev e hl ht
  refine ⟨?_, ?_⟩
  · intro s ev e hl ht
    rw [one s ev e hl ht]
    exact (Test.handleFullscreenExit_frame s e).2
  · intro s ev1 ev2 e1 e2 hl ht1 ht2 hd1 hd2
    have hl2 : (Test.handleFullscreenExit e1 s).1.listeners = Test.registerAll [] := by
      rw [(Test.handleFullscreenExit_frame s e1).1]; exact hl
    simp only [Test.run]
    rw [one s ev1 e1 hl ht1, one _ ev2 e2 hl2 ht2, (Test.handleFullscreenExit_frame _ e2).2,
      (Test.handleFullscreenExit_frame s e1).2]
    simp [hd1, hd2]

/-- C6 as amended, at concrete inputs: the exit of a freshly mounted `Test` notified through
`fullscreenchange` and `webkitfullscreenchange`. -/
theorem C6_level_triggered_counting_witness :
    (Test.mount envFullscreen).1.listeners = Test.registerAll [] ∧
    EventType.fullscreenchange ∈ Test.fullscreenChangeTypes ∧
    EventType.webkitfullscreenchange ∈ Test.fullscreenChangeTypes ∧
    Test.checkFullscreen envExited.doc = false ∧
    (Test.run (Test.mount envFullscreen).1
      [Test.Input.event (plainEvent EventType.fullscreenchange) envExited,
       Test.Input.event (plainEvent EventType.webkitfullscreenchange) envExited]).1.exitAttempts
      = (Test.mount envFullscreen).1.exitAttempts + 2 :=
  ⟨by decide, by decide, by decide, by decide,
   C6_level_triggered_counting.2 (Test.mount envFullscreen).1
     (plainEvent EventType.fullscreenchange) (plainEvent EventType.webkitfullscreenchange)
     envExited envExited (by decide) (by decide) (by decide) (by decide) (by decide)⟩

/-! ### C7: one threshold for both kinds -/

/-- The warnings of a concatenated trace. -/
theorem warningCounts_append (a b : List Effect) :
    warningCounts (a ++ b) = warningCounts a ++ warningCounts b := by
  induction a with
  | nil => rfl
  | cons x t ih =>
    cases x with
    | alert al => cases al <;> simp [warningCounts, ih]
    | setTimeout cb d => cases cb <;> simp [warningCounts, ih]
    | _ => simp [warningCounts, ih]

/-- The block notices of a concatenated trace. -/
theorem blockNotices_append (a b : List Effect) :
    blockNotices (a ++ b) = blockNotices a + blockNotices b := by
  induction a with
  | nil => simp [blockNotices]
  | cons x t ih =>
    cases x with
    | alert al => cases al <;> simp [blockNotices, ih] <;> omega
    | _ => simp [blockNotices, ih]

/-- A trace of request calls and console messages raises no warning and no block notice. -/
theorem platform_trace_silent (tr : List Effect)
    (h : ∀ x ∈ tr, (∃ m, x = Effect.request m) ∨ x = Effect.consoleError) :
    warningCounts tr = [] ∧ blockNotices tr = 0 := by
  induction tr with
  | nil => simp [warningCounts, blockNotices]
  | cons x t ih =>
    have ht := ih (fun y hy => h y (List.mem_cons_of_mem _ hy))
    rcases h x (List.mem_cons_self _ _) with ⟨m, rfl⟩ | rfl <;>
      simp [warningCounts, blockNotices, ht]

/-- A mount whose effect runs to completion leaves `CodeEditor` rendered, with count 0 and
not blocked. -/
theorem CodeEditor.mount_rendered (e : Env) (he : (CodeEditor.enterFullscreen e).2 = false) :
    CodeEditor.Rendered (CodeEditor.mount e).1 ∧ (CodeEditor.mount e).1.exitCount = 0 ∧
    (CodeEditor.mount e).1.isBlocked = false := by
  simp [CodeEditor.mount, CodeEditor.effectBody, he, CodeEditor.Rendered, CodeEditor.init,
    CodeEditor.subscribed, addEventListener]

/-- The re-render after a violation: the effect is cleaned up and re-subscribed for the new
count. -/
theorem CodeEditor.render_after_violation (s : CodeEditor.State) (c : Nat) (e : Env)
    (hl : s.listeners = CodeEditor.subscribed c) (hc : s.cleanup = some c)
    (hd : s.depExitCount = c) (hm : s.mounted = true) (hx : s.exitCount = c + 1)
    (he : (CodeEditor.enterFullscreen e).2 = false) :
    CodeEditor.Rendered (CodeEditor.step s (CodeEditor.Input.render e)).1 ∧
    (CodeEditor.step s (CodeEditor.Input.render e)).1.exitCount = c + 1 ∧
    (CodeEditor.step s (CodeEditor.Input.render e)).1.isBlocked = s.isBlocked ∧
    (CodeEditor.step s (CodeEditor.Input.render e)).2 = (CodeEditor.enterFullscreen e).1 := by
  have hne : (s.mounted && s.depExitCount != s.exitCount) = true := by
    simp [hm, hd, hx]
  have hcl : (CodeEditor.effectCleanup s).listeners = [] := by
    simp [CodeEditor.effectCleanup, hc, hl, CodeEditor.subscribed, removeEventListener]
  have hcm : (CodeEditor.effectCleanup s).mounted = true := by
    simp [CodeEditor.effectCleanup, hc, hm]
  have hf := CodeEditor.effect_frame e s
  simp only [CodeEditor.step, hne, if_true]
  refine ⟨?_, ?_, ?_, ?_⟩
  · simp [CodeEditor.effectBody, he, CodeEditor.Rendered, hcl, hcm, CodeEditor.subscribed,
      addEventListener, hf.2.2.2.1]
  · rw [(CodeEditor.effect_frame e _).2.1, hf.2.2.2.1, hx]
  · rw [(CodeEditor.effect_frame e _).1, hf.2.2.1]
  · exact (CodeEditor.effect_frame e _).2.2.2.2

/-- One violation delivered to a rendered `CodeEditor` and then rendered: the count goes up
by one, the view is rendered again, and the event raised one warning carrying the new count
when that is below 3 and one block notice otherwise. -/
theorem CodeEditor.rendered_pair (s : CodeEditor.State) (v : Violation) (e1 e2 : Env)
    (hR : CodeEditor.Rendered s) (he : (CodeEditor.enterFullscreen e2).2 = false) :
    CodeEditor.Rendered (CodeEditor.runRendered s [(v, e1, e2)]).1 ∧
    (CodeEditor.runRendered s [(v, e1, e2)]).1.exitCount = s.exitCount + 1 ∧
    ((CodeEditor.runRendered s [(v, e1, e2)]).1.isBlocked = true ↔
      (s.isBlocked = true ∨ 3 ≤ s.exitCount + 1)) ∧
    warningCounts (CodeEditor.runRendered s [(v, e1, e2)]).2 =
      (if s.exitCount + 1 < 3 then [s.exitCount + 1] else []) ∧
    blockNotices (CodeEditor.runRendered s [(v, e1, e2)]).2 =
      (if s.exitCount + 1 < 3 then 0 else 1) := by
  obtain ⟨hl, hc, hd, hm⟩ := hR
  have hfr := CodeEditor.step_violation_frame s s.exitCount v e1 hl
  have hsp := (CodeEditor.step_violation_spec s v e1 hl)
  have hrn := CodeEditor.render_after_violation
    (CodeEditor.step s (CodeEditor.violationInput v e1)).1 s.exitCount e2
    (by rw [hfr.2.1]; exact hl) (by rw [hfr.2.2.1]; exact hc) (by rw [hfr.2.2.2.1]; exact hd)
    (by rw [hfr.2.2.2.2]; exact hm) hfr.1 he
  have hsil := platform_trace_silent _ (CodeEditor.editor_enterFullscreen_mem e2)
  simp only [CodeEditor.runRendered, List.append_nil]
  refine ⟨hrn.1, hrn.2.1, ?_, ?_, ?_⟩
  · rw [hrn.2.2.1]; exact hsp.2.2.1
  · rw [warningCounts_append, hrn.2.2.2, hsil.1, List.append_nil]
    by_cases h3 : s.exitCount + 1 < 3
    · simp only [h3, if_true]; exact (hsp.2.2.2.1 h3).1
    · simp only [h3, if_false]; exact (hsp.2.2.2.2 (by omega)).1
  · rw [blockNotices_append, hrn.2.2.2, hsil.2, Nat.add_zero]
    by_cases h3 : s.exitCount + 1 < 3
    · simp only [h3, if_true]; exact (hsp.2.2.2.1 h3).2.1
    · simp only [h3, if_false]; exact (hsp.2.2.2.2 (by omega)).2

/-- Delivering a first violation and the rest is delivering the first, then the rest. -/
theorem CodeEditor.runRendered_cons (s : CodeEditor.State) (x : Violation × Env × Env)
    (rest : List (Violation × Env × Env)) :
    (CodeEditor.runRendered s (x :: rest)).1 =
      (CodeEditor.runRendered (CodeEditor.runRendered s [x]).1 rest).1 ∧
    (CodeEditor.runRendered s (x :: rest)).2 =
      (CodeEditor.runRendered s [x]).2 ++
        (CodeEditor.runRendered (CodeEditor.runRendered s [x]).1 rest).2 := by
  obtain ⟨v, e1, e2⟩ := x
  simp [CodeEditor.runRendered]

/-- Violations delivered one by one to a rendered `CodeEditor`, each rendered before the
next: the count grows by the number of events, and the warnings raised carry exactly the
counts below 3 that were passed. -/
theorem CodeEditor.runRendered_spec (steps : List (Violation × Env × Env))
    (s : CodeEditor.State) (hR : CodeEditor.Rendered s)
    (hs : ∀ x ∈ steps, (CodeEditor.enterFullscreen x.2.2).2 = false) :
    CodeEditor.Rendered (CodeEditor.runRendered s steps).1 ∧
    (CodeEditor.runRendered s steps).1.exitCount = s.exitCount + steps.length ∧
    ((CodeEditor.runRendered s steps).1.isBlocked = true ↔
      (s.isBlocked = true ∨ (0 < steps.length ∧ 3 ≤ s.exitCount + steps.length))) ∧
    warningCounts (CodeEditor.runRendered s steps).2 =
      (List.range' (s.exitCount + 1) steps.length).filter (fun k => decide (k < 3)) ∧
    blockNotices (CodeEditor.runRendered s steps).2 =
      (s.exitCount + steps.length - 2) - (s.exitCount - 2) := by
  induction steps generalizing s with
  | nil =>
    simp [CodeEditor.runRendered, hR, warningCounts, blockNotices]
  | cons x rest ih =>
    obtain ⟨v, e1, e2⟩ := x
    have hp := CodeEditor.rendered_pair s v e1 e2 hR (hs (v, e1, e2) (List.mem_cons_self _ _))
    have hi := ih (CodeEditor.runRendered s [(v, e1, e2)]).1 hp.1
      (fun y hy => hs y (List.mem_cons_of_mem _ hy))
    have hc := CodeEditor.runRendered_cons s (v, e1, e2) rest
    rw [hc.1, hc.2, warningCounts_append, blockNotices_append, hi.2.2.2.1, hi.2.2.2.2,
      hp.2.2.2.1, hp.2.2.2.2, hp.2.1]
    refine ⟨hi.1, ?_, ?_, ?_, ?_⟩
    · rw [hi.2.1, hp.2.1, List.length_cons]; omega
    · rw [hi.2.2.1, hp.2.2.1, hp.2.1, List.length_cons]
      constructor
      · rintro ((h | h) | ⟨_, h⟩)
        · exact Or.inl h
        · exact Or.inr ⟨by omega, by omega⟩
        · exact Or.inr ⟨by omega, by omega⟩
      · rintro (h | ⟨_, h⟩)
        · exact Or.inl (Or.inl h)
        · by_cases h3 : 3 ≤ s.exitCount + 1
          · exact Or.inl (Or.inr h3)
          · exact Or.inr ⟨by omega, by omega⟩
    · rw [List.length_cons, List.range'_succ, List.filter_cons]
      by_cases h3 : s.exitCount + 1 < 3 <;> simp [h3]
    · rw [List.length_cons]
      by_cases h3 : s.exitCount + 1 < 3 <;> simp only [h3, if_true, if_false] <;> omega

/-- C7: in `CodeEditor`, for every sequence of tab-hidden and fullscreen-exit events, each
rendered before the next is handled (the effect re-running to completion), the outcome
depends only on the number of events: `exitCount` is that number, `isBlocked` is `true`
exactly when it is at least 3, the warnings raised carry the counts 1 and 2 (as far as the
sequence goes), and every event from the third on raises a block notice.  Scenario A
(`[TabHidden, FullscreenExit]`) gives `exitCount = 2`, `isBlocked = false`, warnings 1 and 2
and no block notice; scenario B (one more `TabHidden`) gives `exitCount = 3`,
`isBlocked = true` and exactly one block notice. -/
theorem C7_shared_threshold_pool :
    (∀ (e0 : Env) (steps : List (Violation × Env × Env)),
      (CodeEditor.enterFullscreen e0).2 = false →
      (∀ x ∈ steps, (CodeEditor.enterFullscreen x.2.2).2 = false) →
      (CodeEditor.runRendered (CodeEditor.mount e0).1 steps).1.exitCount = steps.length ∧
      ((CodeEditor.runRendered (CodeEditor.mount e0).1 steps).1.isBlocked = true ↔
        3 ≤ steps.length) ∧
      warningCounts (CodeEditor.runRendered (CodeEditor.mount e0).1 steps).2 =
        (List.range' 1 steps.length).filter (fun k => decide (k < 3)) ∧
      blockNotices (CodeEditor.runRendered (CodeEditor.mount e0).1 steps).2 =
        steps.length - 2) ∧
    (CodeEditor.afterScenarioA.exitCount = 2 ∧ CodeEditor.afterScenarioA.isBlocked = false ∧
      warningCounts
        (CodeEditor.runRendered (CodeEditor.mount envFullscreen).1 CodeEditor.scenarioA).2
        = [1, 2] ∧
      blockNotices
        (CodeEditor.runRendered (CodeEditor.mount envFullscreen).1 CodeEditor.scenarioA).2
        = 0) ∧
    ((CodeEditor.runRendered CodeEditor.afterScenarioA
        [(Violation.tabHidden, envHidden, envFullscreen)]).1.exitCount = 3 ∧
      (CodeEditor.runRendered CodeEditor.afterScenarioA
        [(Violation.tabHidden, envHidden, envFullscreen)]).1.isBlocked = true ∧
      blockNotices (CodeEditor.runRendered CodeEditor.afterScenarioA
        [(Violation.tabHidden, envHidden, envFullscreen)]).2 = 1 ∧
      warningCounts (CodeEditor.runRendered CodeEditor.afterScenarioA
        [(Violation.tabHidden, envHidden, envFullscreen)]).2 = []) := by
  refine ⟨?_, by decide, by decide⟩
  intro e0 steps h0 hs
  have hm := CodeEditor.mount_rendered e0 h0
  have h := CodeEditor.runRendered_spec steps (CodeEditor.mount e0).1 hm.1 hs
  rw [hm.2.1, hm.2.2] at h
  refine ⟨by simpa using h.2.1, ?_, by simpa using h.2.2.2.1, by simpa using h.2.2.2.2⟩
  rw [h.2.2.1]
  constructor
  · rintro (h | ⟨_, h⟩)
    · exact absurd h (by simp)
    · omega
  · intro h3
    exact Or.inr ⟨by omega, by omega⟩

/-- C7 at concrete inputs: scenario A followed by scenario B on a `CodeEditor` mounted in
fullscreen. -/
theorem C7_shared_threshold_pool_witness :
    (CodeEditor.enterFullscreen envFullscreen).2 = false ∧
    (∀ x ∈ CodeEditor.scenarioAB, (CodeEditor.enterFullscreen x.2.2).2 = false) ∧
    (CodeEditor.runRendered (CodeEditor.mount envFullscreen).1
      CodeEditor.scenarioAB).1.exitCount = CodeEditor.scenarioAB.length :=
  ⟨by decide, by decide,
   (C7_shared_threshold_pool.1 envFullscreen CodeEditor.scenarioAB (by decide)
     (by decide)).1⟩

/-! ### C8: the clipboard and context-menu guards of `Test` -/

/-- No listener of `Test` changes the listener registry. -/
theorem Test.runHandler_listeners (h : Test.Handler) (ev : Event) (e : Env) (s : Test.State) :
    (Test.runHandler h ev e s).1.listeners = s.listeners := by
  cases h
  · exact (Test.handleFullscreenExit_frame s e).1
  · rfl
  · rfl
  · simp only [Test.runHandler, Test.preventKeyboardShortcuts]
    split_ifs <;> rfl

/-- Every step of `Test` other than the unmount leaves the listener registry as it is. -/
theorem Test.step_listeners (s : Test.State) (i : Test.Input) (hi : i ≠ Test.Input.unmount) :
    (Test.step s i).1.listeners = s.listeners := by
  cases i with
  | event ev e =>
    exact (runListeners_induct Test.runHandler (fun a b => b.listeners = a.listeners)
      (fun _ => True) (fun _ => rfl) (fun _ _ _ h1 h2 => h2.trans h1)
      (fun h ev e s => Test.runHandler_listeners h ev e s) (fun _ _ _ _ _ _ => trivial)
      s.listeners ev e s).1
  | tick id e =>
    simp only [Test.step]
    split_ifs <;> rfl
  | render =>
    simp only [Test.step]
    split_ifs
    · cases hr : s.reentryCleanup <;> cases hb : s.isBlocked <;>
        simp [Test.reentryCleanupRun, Test.reentryEffect, hr, hb]
    · rfl
  | click e =>
    simp only [Test.step]
    split_ifs <;> rfl
  | unmount => exact absurd rfl hi

/-- Any run of `Test` without an unmount leaves the listener registry as it is. -/
theorem Test.run_listeners (is : List Test.Input) (s : Test.State)
    (hi : Test.Input.unmount ∉ is) : (Test.run s is).1.listeners = s.listeners := by
  induction is generalizing s with
  | nil => rfl
  | cons i rest ih =>
    simp only [Test.run]
    rw [ih _ (fun h => hi (List.mem_cons_of_mem _ h)),
      Test.step_listeners s i (fun h => hi (h ▸ List.mem_cons_self _ _))]

/-- C8: in `Test`, a copy, paste, cut or contextmenu event handled with the mount
registrations in place has its default action prevented and leaves the whole component state,
in particular `exitAttempts` and `isBlocked`, unchanged, whatever their values are.  The
registrations are made by the mount effect and are still in place after any sequence of
events, timer ticks, re-renders and clicks, whatever `isBlocked` has become. -/
theorem C8_guard_filter :
    (∀ (s : Test.State) (ev : Event) (e : Env),
      s.listeners = Test.registerAll [] → ev.type ∈ Test.guardedTypes →
      Effect.preventDefault ∈ (Test.step s (Test.Input.event ev e)).2 ∧
      (Test.step s (Test.Input.event ev e)).1 = s) ∧
    (∀ (e : Env) (is : List Test.Input), Test.Input.unmount ∉ is →
      (Test.run (Test.mount e).1 is).1.listeners = Test.registerAll []) := by
  refine ⟨?_, ?_⟩
  · intro s ev e hl ht
    simp only [Test.guardedTypes, List.mem_cons, List.mem_singleton, List.not_mem_nil,
      or_false] at ht
    simp only [Test.step, Test.dispatch]
    rw [hl, Test.registerAll_nil]
    rcases ht with h | h | h | h <;>
      simp [runListeners, h, Test.runHandler, Test.preventCopyPaste, Test.preventContextMenu]
  · intro e is hi
    rw [Test.run_listeners is _ hi]
    rfl

/-- C8 at concrete inputs: a paste event handled by a `Test` that is blocked after three
exits, and the registrations after those three exits. -/
theorem C8_guard_filter_witness :
    (Test.afterThreeExits.listeners = Test.registerAll [] ∧
      EventType.paste ∈ Test.guardedTypes ∧
      Effect.preventDefault ∈
        (Test.step Test.afterThreeExits
          (Test.Input.event (plainEvent EventType.paste) envExited)).2) ∧
    (Test.Input.unmount ∉ Test.threeExits ∧
      (Test.run (Test.mount envFullscreen).1 Test.threeExits).1.listeners
        = Test.registerAll []) :=
  ⟨⟨by decide, by decide,
    (C8_guard_filter.1 Test.afterThreeExits (plainEvent EventType.paste) envExited
      (by decide) (by decide)).1⟩,
   ⟨by decide, C8_guard_filter.2 envFullscreen Test.threeExits (by decide)⟩⟩

/-! ### C9: keyboard shortcuts in `Test` -/

/-- C9 fails as stated: Cmd+C (meta held, Ctrl not held) and Ctrl+C with the key reported in
upper case are keydown events of the claimed kind, and `preventKeyboardShortcuts` does
nothing for them: the default action is not prevented. -/
theorem C9_shortcut_counterexample :
    Effect.preventDefault ∉
      (Test.preventKeyboardShortcuts (keydownEvent "c" false true) Test.afterOneExit).2 ∧
    Effect.preventDefault ∉
      (Test.preventKeyboardShortcuts (keydownEvent "C" true false) Test.afterOneExit).2 ∧
    Effect.preventDefault ∉
      (Test.step Test.afterOneExit (Test.Input.event (keydownEvent "c" false true) envExited)).2
    := by
  decide

/-- C9 as amended: for every keydown event whose key is lower-case `c`, `v` or `x` pressed
with Ctrl held, `preventKeyboardShortcuts` prevents the default action, as the handler itself
and as the listener registered for keydown. -/
theorem C9_ctrl_shortcuts_prevented :
    (∀ (s : Test.State) (ev : Event), ev.ctrlKey = true → ev.key ∈ ["c", "v", "x"] →
      Effect.preventDefault ∈ (Test.preventKeyboardShortcuts ev s).2) ∧
    (∀ (s : Test.State) (ev : Event) (e : Env), s.listeners = Test.registerAll [] →
      ev.type = EventType.keydown → ev.ctrlKey = true → ev.key ∈ ["c", "v", "x"] →
      Effect.preventDefault ∈ (Test.step s (Test.Input.event ev e)).2) := by
  have key : ∀ (s : Test.State) (ev : Event), ev.ctrlKey = true → ev.key ∈ ["c", "v", "x"] →
      Test.preventKeyboardShortcuts ev s =
        (s, [Effect.preventDefault, Effect.alert Alert.copyPasteNotAllowed]) := by
    intro s ev hc hk
    simp only [List.mem_cons, List.mem_singleton, List.not_mem_nil, or_false] at hk
    rcases hk with h | h | h <;> simp [Test.preventKeyboardShortcuts, hc, h]
  refine ⟨?_, ?_⟩
  · intro s ev hc hk
    rw [key s ev hc hk]
    simp
  · intro s ev e hl ht hc hk
    simp only [Test.step, Test.dispatch]
    rw [hl, Test.registerAll_nil]
    simp [runListeners, ht, Test.runHandler, key s ev hc hk]

/-- C9 as amended, at a concrete input: Ctrl+V on a freshly mounted `Test`. -/
theorem C9_ctrl_shortcuts_prevented_witness :
    (keydownEvent "v" true false).ctrlKey = true ∧
    (keydownEvent "v" true false).key ∈ ["c", "v", "x"] ∧
    Effect.preventDefault ∈
      (Test.preventKeyboardShortcuts (keydownEvent "v" true false) (Test.mount envFullscreen).1).2
    :=
  ⟨by decide, by decide,
   C9_ctrl_shortcuts_prevented.1 (Test.mount envFullscreen).1 (keydownEvent "v" true false)
     (by decide) (by decide)⟩

/-! ### C10: the announced bound -/

/-- Every listener of `Test` keeps `isBlocked` equivalent to `exitAttempts >= 3`. -/
theorem Test.runHandler_threshold (h : Test.Handler) (ev : Event) (e : Env) (s : Test.State)
    (hs : s.isBlocked = true ↔ 3 ≤ s.exitAttempts) :
    (Test.runHandler h ev e s).1.isBlocked = true ↔ 3 ≤ (Test.runHandler h ev e s).1.exitAttempts
    := by
  cases h
  · by_cases hd : Test.checkFullscreen e.doc = true
    · simpa [Test.runHandler, Test.handleFullscreenExit, hd] using hs
    · have hd2 : Test.checkFullscreen e.doc = false := by simpa using hd
      have hsp := Test.handleFullscreenExit_spec s e hd2
      simp only [Test.runHandler]
      rw [hsp.2.2.1, hsp.1, hs]
      omega
  · exact hs
  · exact hs
  · simp only [Test.runHandler, Test.preventKeyboardShortcuts]
    split_ifs <;> exact hs

/-- Every step of `Test` keeps `isBlocked` equivalent to `exitAttempts >= 3`. -/
theorem Test.step_threshold (s : Test.State) (i : Test.Input)
    (hs : s.isBlocked = true ↔ 3 ≤ s.exitAttempts) :
    (Test.step s i).1.isBlocked = true ↔ 3 ≤ (Test.step s i).1.exitAttempts := by
  cases i with
  | event ev e =>
    exact (runListeners_induct Test.runHandler
      (fun a b => (a.isBlocked = true ↔ 3 ≤ a.exitAttempts) →
        (b.isBlocked = true ↔ 3 ≤ b.exitAttempts))
      (fun _ => True) (fun _ h => h) (fun _ _ _ h1 h2 h => h2 (h1 h))
      (fun h ev e s => Test.runHandler_threshold h ev e s) (fun _ _ _ _ _ _ => trivial)
      s.listeners ev e s).1 hs
  | tick id e =>
    simp only [Test.step]
    split_ifs <;> exact hs
  | render =>
    simp only [Test.step]
    split_ifs
    · cases hr : s.reentryCleanup <;> cases hb : s.isBlocked <;>
        simp_all [Test.reentryCleanupRun, Test.reentryEffect]
    · exact hs
  | click e =>
    simp only [Test.step]
    split_ifs <;> exact hs
  | unmount =>
    simp only [Test.step]
    split_ifs
    · cases hr : s.reentryCleanup <;>
        simp_all [Test.mountCleanup, Test.reentryCleanupRun]
    · exact hs

/-- Every run of `Test` keeps `isBlocked` equivalent to `exitAttempts >= 3`. -/
theorem Test.run_threshold (is : List Test.Input) (s : Test.State)
    (hs : s.isBlocked = true ↔ 3 ≤ s.exitAttempts) :
    (Test.run s is).1.isBlocked = true ↔ 3 ≤ (Test.run s is).1.exitAttempts := by
  induction is generalizing s with
  | nil => exact hs
  | cons i rest ih => exact ih _ (Test.step_threshold s i hs)

/-- C10 at its failing input, and what the code does in general: a `Test` mounted in
fullscreen and notified of three fullscreen exits has `exitAttempts = 3`, which does not
exceed 3, and is blocked; the third notification already showed the block alert.  In every
state reachable from a mount, `isBlocked` is `true` exactly when `exitAttempts >= 3`. -/
theorem C10_blocked_at_three_exits :
    ((Test.run (Test.mount envFullscreen).1 Test.threeExits).1.exitAttempts = 3 ∧
      (Test.run (Test.mount envFullscreen).1 Test.threeExits).1.isBlocked = true ∧
      alerts (Test.run (Test.mount envFullscreen).1 Test.threeExits).2 =
        [Alert.stayInFullscreen 1, Alert.stayInFullscreen 2, Alert.exceededLimit]) ∧
    (∀ (e : Env) (is : List Test.Input),
      (Test.run (Test.mount e).1 is).1.isBlocked = true ↔
        3 ≤ (Test.run (Test.mount e).1 is).1.exitAttempts) := by
  refine ⟨by decide, ?_⟩
  intro e is
  apply Test.run_threshold
  simp [Test.mount, Test.mountEffect, Test.reentryEffect, Test.init]

/-! ### Reachable states of `Test` -/

/-- An event dispatched to `Test` changes nothing but the two state cells. -/
theorem Test.dispatch_frame (ev : Event) (e : Env) (s : Test.State) :
    (Test.dispatch ev e s).1.listeners = s.listeners ∧
    (Test.dispatch ev e s).1.intervals = s.intervals ∧
    (Test.dispatch ev e s).1.reentryCleanup = s.reentryCleanup ∧
    (Test.dispatch ev e s).1.depIsBlocked = s.depIsBlocked ∧
    (Test.dispatch ev e s).1.mounted = s.mounted := by
  refine (runListeners_induct Test.runHandler
    (fun a b => b.listeners = a.listeners ∧ b.intervals = a.intervals ∧
      b.reentryCleanup = a.reentryCleanup ∧ b.depIsBlocked = a.depIsBlocked ∧
      b.mounted = a.mounted)
    (fun _ => True) (fun _ => ⟨rfl, rfl, rfl, rfl, rfl⟩)
    (fun _ _ _ h1 h2 => ⟨h2.1.trans h1.1, h2.2.1.trans h1.2.1, h2.2.2.1.trans h1.2.2.1,
      h2.2.2.2.1.trans h1.2.2.2.1, h2.2.2.2.2.trans h1.2.2.2.2⟩)
    ?_ (fun _ _ _ _ _ _ => trivial) s.listeners ev e s).1
  intro h ev e s
  cases h
  · simp only [Test.runHandler, Test.handleFullscreenExit]
    split_ifs <;> simp
  · simp [Test.runHandler, Test.preventCopyPaste]
  · simp [Test.runHandler, Test.preventContextMenu]
  · simp only [Test.runHandler, Test.preventKeyboardShortcuts]
    split_ifs <;> simp

/-- The cleanup of the mount effect removes the nine mount registrations. -/
theorem Test.unregisterAll_registerAll_nil : Test.unregisterAll (Test.registerAll []) = [] := by
  decide

/-- A freshly mounted `Test` satisfies the invariant. -/
theorem Test.mount_inv (e : Env) : Test.Inv (Test.mount e).1 := by
  left
  simp [Test.mount, Test.mountEffect, Test.reentryEffect, Test.init]

/-- Every step of `Test` keeps the invariant. -/
theorem Test.step_inv (s : Test.State) (i : Test.Input) (hs : Test.Inv s) :
    Test.Inv (Test.step s i).1 := by
  cases i with
  | event ev e =>
    obtain ⟨h1, h2, h3, h4, h5⟩ := Test.dispatch_frame ev e s
    simp only [Test.step]
    unfold Test.Inv at hs ⊢
    rw [h1, h2, h3, h4, h5]
    exact hs
  | tick id e =>
    simp only [Test.step]
    split_ifs <;> exact hs
  | click e =>
    simp only [Test.step]
    split_ifs <;> exact hs
  | render =>
    simp only [Test.step]
    split_ifs with hc
    · rcases hs with ⟨hm, hl, (⟨hr, hi, hd⟩ | ⟨id, hr, hi, hd⟩)⟩ | ⟨hm, _⟩
      · left
        cases hb : s.isBlocked <;>
          simp [Test.reentryCleanupRun, Test.reentryEffect, hr, hi, hb, hm, hl]
      · left
        cases hb : s.isBlocked <;>
          simp [Test.reentryCleanupRun, Test.reentryEffect, hr, hi, hb, hm, hl]
      · simp [hm] at hc
    · exact hs
  | unmount =>
    simp only [Test.step]
    split_ifs with hm
    · right
      rcases hs with ⟨_, hl, (⟨hr, hi, hd⟩ | ⟨id, hr, hi, hd⟩)⟩ | ⟨hm2, _⟩
      · simp [Test.mountCleanup, Test.reentryCleanupRun, hr, hi, hl,
          Test.unregisterAll_registerAll_nil]
      · simp [Test.mountCleanup, Test.reentryCleanupRun, hr, hi, hl,
          Test.unregisterAll_registerAll_nil]
      · simp [hm2] at hm
    · exact hs

/-- Every state reached from a mount of `Test` satisfies the invariant. -/
theorem Test.run_inv (is : List Test.Input) (s : Test.State) (hs : Test.Inv s) :
    Test.Inv (Test.run s is).1 := by
  induction is generalizing s with
  | nil => exact hs
  | cons i rest ih => exact ih _ (Test.step_inv s i hs)

/-! ### Reachable states of `CodeEditor` -/

/-- An event dispatched to `CodeEditor` leaves the listeners and React's bookkeeping alone. -/
theorem CodeEditor.editor_dispatch_frame (ev : Event) (e : Env) (s : CodeEditor.State) :
    (CodeEditor.dispatch ev e s).1.listeners = s.listeners ∧
    (CodeEditor.dispatch ev e s).1.cleanup = s.cleanup ∧
    (CodeEditor.dispatch ev e s).1.depExitCount = s.depExitCount ∧
    (CodeEditor.dispatch ev e s).1.mounted = s.mounted := by
  refine (runListeners_induct CodeEditor.runHandler
    (fun a b => b.listeners = a.listeners ∧ b.cleanup = a.cleanup ∧
      b.depExitCount = a.depExitCount ∧ b.mounted = a.mounted)
    (fun _ => True) (fun _ => ⟨rfl, rfl, rfl, rfl⟩)
    (fun _ _ _ h1 h2 => ⟨h2.1.trans h1.1, h2.2.1.trans h1.2.1, h2.2.2.1.trans h1.2.2.1,
      h2.2.2.2.trans h1.2.2.2⟩)
    ?_ (fun _ _ _ _ _ _ => trivial) s.listeners ev e s).1
  intro h ev e s
  cases h
  · simp only [CodeEditor.runHandler, CodeEditor.handleVisibilityChange]
    split_ifs <;> simp
  · simp only [CodeEditor.runHandler, CodeEditor.handleFullscreenChange]
    split_ifs <;> simp

/-- A handler of `CodeEditor` subscribed for count `c` leaves `exitCount` as it is or sets it
to `c + 1`. -/
theorem CodeEditor.editor_runHandler_count (c : Nat) (e : Env) (s : CodeEditor.State) :
    ((CodeEditor.handleVisibilityChange c e s).1.exitCount = s.exitCount ∨
      (CodeEditor.handleVisibilityChange c e s).1.exitCount = c + 1) ∧
    ((CodeEditor.handleFullscreenChange c e s).1.exitCount = s.exitCount ∨
      (CodeEditor.handleFullscreenChange c e s).1.exitCount = c + 1) := by
  constructor
  · simp only [CodeEditor.handleVisibilityChange]
    split_ifs <;> simp
  · simp only [CodeEditor.handleFullscreenChange]
    split_ifs <;> simp

/-- An event dispatched to the listeners subscribed for count `c` leaves `exitCount` as it is
or sets it to `c + 1`. -/
theorem CodeEditor.editor_dispatch_count (ev : Event) (e : Env) (s : CodeEditor.State) (c : Nat)
    (hl : s.listeners = CodeEditor.subscribed c) :
    (CodeEditor.dispatch ev e s).1.exitCount = s.exitCount ∨
    (CodeEditor.dispatch ev e s).1.exitCount = c + 1 := by
  have hc := CodeEditor.editor_runHandler_count c e s
  unfold CodeEditor.dispatch
  rw [hl]
  cases ht : ev.type <;>
    simp [CodeEditor.subscribed, runListeners, ht, CodeEditor.runHandler, hc.1, hc.2]

/-- With no listener registered, an event does nothing. -/
theorem CodeEditor.editor_dispatch_nil (ev : Event) (e : Env) (s : CodeEditor.State)
    (hl : s.listeners = []) : CodeEditor.dispatch ev e s = (s, []) := by
  simp [CodeEditor.dispatch, hl, runListeners]

/-- A mounted `CodeEditor` satisfies the invariant, whether or not its effect threw. -/
theorem CodeEditor.editor_mount_inv (e : Env) : CodeEditor.Inv (CodeEditor.mount e).1 := by
  by_cases he : (CodeEditor.enterFullscreen e).2 = true
  · right
    simp [CodeEditor.mount, CodeEditor.effectBody, he, CodeEditor.init]
  · left
    simp [CodeEditor.mount, CodeEditor.effectBody, he, CodeEditor.init, CodeEditor.subscribed,
      addEventListener]

/-- Every step of `CodeEditor` keeps the invariant. -/
theorem CodeEditor.editor_step_inv (s : CodeEditor.State) (i : CodeEditor.Input)
    (hs : CodeEditor.Inv s) : CodeEditor.Inv (CodeEditor.step s i).1 := by
  cases i with
  | event ev e =>
    obtain ⟨h1, h2, h3, h4⟩ := CodeEditor.editor_dispatch_frame ev e s
    simp only [CodeEditor.step]
    rcases hs with ⟨hm, c, hc, hl, hd, hle, hge⟩ | ⟨hm, hc, hl⟩
    · left
      refine ⟨by rw [h4]; exact hm, c, by rw [h2]; exact hc, by rw [h1]; exact hl,
        by rw [h3]; exact hd, ?_, ?_⟩ <;>
        rcases CodeEditor.editor_dispatch_count ev e s c hl with h | h <;> omega
    · right
      exact ⟨by rw [h4]; exact hm, by rw [h2]; exact hc, by rw [h1]; exact hl⟩
  | fire n e =>
    simp only [CodeEditor.step]
    split
    · exact hs
    · exact hs
  | render e =>
    simp only [CodeEditor.step]
    split_ifs with hc
    · rcases hs with ⟨hm, c, hcl, hl, hd, hle, hge⟩ | ⟨hm, _⟩
      · have hx : s.exitCount = c + 1 := by
          have : s.depExitCount ≠ s.exitCount := by simpa [hm] using hc
          omega
        by_cases he : (CodeEditor.enterFullscreen e).2 = true
        · right
          simp [CodeEditor.effectBody, he, CodeEditor.effectCleanup, hcl, hl,
            CodeEditor.subscribed, removeEventListener]
        · left
          have he2 : (CodeEditor.enterFullscreen e).2 = false := by simpa using he
          have hr := CodeEditor.render_after_violation s c e hl hcl hd hm hx he2
          simp only [CodeEditor.step, hc, if_true] at hr
          obtain ⟨⟨r1, r2, r3, r4⟩, r5, _, _⟩ := hr
          exact ⟨r4, _, r2, r1, r3, le_refl _, Nat.le_succ _⟩
      · simp [hm] at hc
    · exact hs
  | unmount =>
    simp only [CodeEditor.step]
    split_ifs with hm
    · right
      rcases hs with ⟨_, c, hcl, hl, _⟩ | ⟨hm2, _⟩
      · simp [CodeEditor.effectCleanup, hcl, hl, CodeEditor.subscribed, removeEventListener]
      · simp [hm2] at hm
    · exact hs

/-- Every state reached from a mount of `CodeEditor` satisfies the invariant. -/
theorem CodeEditor.editor_run_inv (is : List CodeEditor.Input) (s : CodeEditor.State)
    (hs : CodeEditor.Inv s) : CodeEditor.Inv (CodeEditor.run s is).1 := by
  induction is generalizing s with
  | nil => exact hs
  | cons i rest ih => exact ih _ (CodeEditor.editor_step_inv s i hs)

/-! ### Reachable states of `CodeEditorSkeleton` -/

/-- Clearing the interval held in the ref leaves no interval live when the only live interval
is the one the ref holds. -/
theorem CodeEditorSkeleton.clearRef_spec (s : CodeEditorSkeleton.State)
    (hi : CodeEditorSkeleton.OneInterval s) :
    (CodeEditorSkeleton.clearRef s).1.intervals = [] ∧
    (CodeEditorSkeleton.clearRef s).1 = { s with intervals := [] } := by
  rcases hi with hi | ⟨id, hi, hr⟩
  · cases hr : s.fullscreenAttemptRef <;> simp [CodeEditorSkeleton.clearRef, hr, hi]
    cases s; simp_all
  · simp [CodeEditorSkeleton.clearRef, hr, hi]

/-- Arming the monitor leaves exactly one interval live, the new one, whose id the ref holds;
nothing else changes but the timer-id counter. -/
theorem CodeEditorSkeleton.setup_spec (s : CodeEditorSkeleton.State)
    (hi : CodeEditorSkeleton.OneInterval s) :
    (CodeEditorSkeleton.setupFullscreenMonitoring s).1 =
      { s with intervals := [s.nextTimerId], fullscreenAttemptRef := some s.nextTimerId,
               nextTimerId := s.nextTimerId + 1 } := by
  have h := (CodeEditorSkeleton.clearRef_spec s hi).2
  simp [CodeEditorSkeleton.setupFullscreenMonitoring, h]

/-- After arming, the one-interval property holds. -/
theorem CodeEditorSkeleton.setup_oneInterval (s : CodeEditorSkeleton.State)
    (hi : CodeEditorSkeleton.OneInterval s) :
    CodeEditorSkeleton.OneInterval (CodeEditorSkeleton.setupFullscreenMonitoring s).1 := by
  rw [CodeEditorSkeleton.setup_spec s hi]
  exact Or.inr ⟨s.nextTimerId, rfl, rfl⟩

/-- A handler of `CodeEditorSkeleton` subscribed for count `c` keeps the one-interval
property, leaves the listeners and React's bookkeeping alone, and leaves `exitCount` as it is
or sets it to `c + 1`. -/
theorem CodeEditorSkeleton.skeleton_runHandler_frame (h : CodeEditorSkeleton.Handler)
    (ev : Event) (e : Env) (s : CodeEditorSkeleton.State) :
    (CodeEditorSkeleton.OneInterval s →
      CodeEditorSkeleton.OneInterval (CodeEditorSkeleton.runHandler h ev e s).1) ∧
    (CodeEditorSkeleton.runHandler h ev e s).1.listeners = s.listeners ∧
    (CodeEditorSkeleton.runHandler h ev e s).1.cleanup = s.cleanup ∧
    (CodeEditorSkeleton.runHandler h ev e s).1.depExitCount = s.depExitCount ∧
    (CodeEditorSkeleton.runHandler h ev e s).1.mounted = s.mounted := by
  cases h with
  | handleVisibilityChange c =>
    simp only [CodeEditorSkeleton.runHandler, CodeEditorSkeleton.handleVisibilityChange]
    split_ifs <;> simp [CodeEditorSkeleton.OneInterval]
  | handleFullscreenChange c =>
    simp only [CodeEditorSkeleton.runHandler, CodeEditorSkeleton.handleFullscreenChange]
    split_ifs
    · refine ⟨fun hi => ?_, ?_, ?_, ?_, ?_⟩
      · have hi2 : CodeEditorSkeleton.OneInterval { s with exitCount := c + 1 } := hi
        have h2 := CodeEditorSkeleton.setup_oneInterval _ hi2
        exact h2
      all_goals
        simp only [CodeEditorSkeleton.setupFullscreenMonitoring, CodeEditorSkeleton.clearRef]
        split <;> rfl
    · simp [CodeEditorSkeleton.OneInterval]
    · simp [CodeEditorSkeleton.OneInterval]
    · simp

/-- An event dispatched to `CodeEditorSkeleton` keeps the one-interval property and leaves
the listeners and React's bookkeeping alone. -/
theorem CodeEditorSkeleton.skeleton_dispatch_frame (ev : Event) (e : Env)
    (s : CodeEditorSkeleton.State) :
    (CodeEditorSkeleton.OneInterval s →
      CodeEditorSkeleton.OneInterval (CodeEditorSkeleton.dispatch ev e s).1) ∧
    (CodeEditorSkeleton.dispatch ev e s).1.listeners = s.listeners ∧
    (CodeEditorSkeleton.dispatch ev e s).1.cleanup = s.cleanup ∧
    (CodeEditorSkeleton.dispatch ev e s).1.depExitCount = s.depExitCount ∧
    (CodeEditorSkeleton.dispatch ev e s).1.mounted = s.mounted :=
  (runListeners_induct CodeEditorSkeleton.runHandler
    (fun a b => (CodeEditorSkeleton.OneInterval a → CodeEditorSkeleton.OneInterval b) ∧
      b.listeners = a.listeners ∧ b.cleanup = a.cleanup ∧
      b.depExitCount = a.depExitCount ∧ b.mounted = a.mounted)
    (fun _ => True) (fun _ => ⟨id, rfl, rfl, rfl, rfl⟩)
    (fun _ _ _ h1 h2 => ⟨fun h => h2.1 (h1.1 h), h2.2.1.trans h1.2.1, h2.2.2.1.trans h1.2.2.1,
      h2.2.2.2.1.trans h1.2.2.2.1, h2.2.2.2.2.trans h1.2.2.2.2⟩)
    (fun h ev e s => CodeEditorSkeleton.skeleton_runHandler_frame h ev e s)
    (fun _ _ _ _ _ _ => trivial) s.listeners ev e s).1

/-- With the listeners of an effect run for count `c` in place, an event runs the handler
registered for its type exactly once, and no handler when none is registered for it. -/
theorem CodeEditorSkeleton.skeleton_dispatch_eq (ev : Event) (e : Env)
    (s : CodeEditorSkeleton.State) (c : Nat)
    (hl : s.listeners = CodeEditorSkeleton.subscribed c) :
    CodeEditorSkeleton.dispatch ev e s =
      if ev.type = EventType.visibilitychange then
        CodeEditorSkeleton.handleVisibilityChange c e s
      else if ev.type = EventType.fullscreenchange ∨ ev.type = EventType.webkitfullscreenchange ∨
          ev.type = EventType.mozfullscreenchange ∨ ev.type = EventType.MSFullscreenChange then
        CodeEditorSkeleton.handleFullscreenChange c e s
      else (s, []) := by
  unfold CodeEditorSkeleton.dispatch
  rw [hl]
  cases ht : ev.type <;>
    simp [CodeEditorSkeleton.subscribed, runListeners, ht, CodeEditorSkeleton.runHandler]

/-- A handler of `CodeEditorSkeleton` subscribed for count `c` leaves `exitCount` as it is or
sets it to `c + 1`. -/
theorem CodeEditorSkeleton.skeleton_runHandler_count (c : Nat) (e : Env)
    (s : CodeEditorSkeleton.State) :
    ((CodeEditorSkeleton.handleVisibilityChange c e s).1.exitCount = s.exitCount ∨
      (CodeEditorSkeleton.handleVisibilityChange c e s).1.exitCount = c + 1) ∧
    ((CodeEditorSkeleton.handleFullscreenChange c e s).1.exitCount = s.exitCount ∨
      (CodeEditorSkeleton.handleFullscreenChange c e s).1.exitCount = c + 1) := by
  constructor
  · simp only [CodeEditorSkeleton.handleVisibilityChange]
    split_ifs <;> simp
  · simp only [CodeEditorSkeleton.handleFullscreenChange,
      CodeEditorSkeleton.setupFullscreenMonitoring, CodeEditorSkeleton.clearRef]
    split_ifs <;> (try split) <;> simp

/-- An event dispatched to the listeners subscribed for count `c` leaves `exitCount` as it is
or sets it to `c + 1`. -/
theorem CodeEditorSkeleton.skeleton_dispatch_count (ev : Event) (e : Env)
    (s : CodeEditorSkeleton.State) (c : Nat)
    (hl : s.listeners = CodeEditorSkeleton.subscribed c) :
    (CodeEditorSkeleton.dispatch ev e s).1.exitCount = s.exitCount ∨
    (CodeEditorSkeleton.dispatch ev e s).1.exitCount = c + 1 := by
  have hc := CodeEditorSkeleton.skeleton_runHandler_count c e s
  rw [CodeEditorSkeleton.skeleton_dispatch_eq ev e s c hl]
  split_ifs
  · exact hc.1
  · exact hc.2
  · exact Or.inl rfl

/-- The cleanup of `CodeEditorSkeleton` pending for the effect run of count `c`: the five
listeners of that run are removed and the interval the ref holds is cleared; the pending
timeouts are not touched. -/
theorem CodeEditorSkeleton.effectCleanup_spec (s : CodeEditorSkeleton.State) (c : Nat)
    (hc : s.cleanup = some c) (hl : s.listeners = CodeEditorSkeleton.subscribed c)
    (hi : CodeEditorSkeleton.OneInterval s) :
    (CodeEditorSkeleton.effectCleanup s).1 =
      { s with listeners := [], cleanup := none, intervals := [] } := by
  have hi2 : CodeEditorSkeleton.OneInterval { s with listeners := [], cleanup := none } := hi
  have h := (CodeEditorSkeleton.clearRef_spec _ hi2).2
  simp only [CodeEditorSkeleton.effectCleanup, hc, hl, CodeEditorSkeleton.subscribed,
    removeEventListener]
  simpa using h

/-- The effect body of `CodeEditorSkeleton` run on a document without listeners of the
component: the five listeners for the current count are registered and exactly one interval
is live afterwards. -/
theorem CodeEditorSkeleton.effectBody_spec (e : Env) (s : CodeEditorSkeleton.State)
    (hl : s.listeners = []) (hi : CodeEditorSkeleton.OneInterval s) :
    (CodeEditorSkeleton.effectBody e s).1 =
      { s with listeners := CodeEditorSkeleton.subscribed s.exitCount,
               cleanup := some s.exitCount, depExitCount := s.exitCount,
               intervals := [s.nextTimerId], fullscreenAttemptRef := some s.nextTimerId,
               nextTimerId := s.nextTimerId + 1 } := by
  have h0 := CodeEditorSkeleton.clearRef_spec s hi
  have hi1 : CodeEditorSkeleton.OneInterval (CodeEditorSkeleton.clearRef s).1 :=
    Or.inl h0.1
  have h1 := CodeEditorSkeleton.setup_spec _ hi1
  simp only [CodeEditorSkeleton.effectBody, h1]
  rw [h0.2]
  simp [hl, CodeEditorSkeleton.subscribed, addEventListener]

/-- A freshly mounted `CodeEditorSkeleton` satisfies the invariant. -/
theorem CodeEditorSkeleton.skeleton_mount_inv (e : Env) :
    CodeEditorSkeleton.Inv (CodeEditorSkeleton.mount e).1 := by
  have h := CodeEditorSkeleton.effectBody_spec e
    { CodeEditorSkeleton.init with mounted := true } rfl (Or.inl rfl)
  unfold CodeEditorSkeleton.mount
  rw [h]
  exact ⟨Or.inr ⟨_, rfl, rfl⟩, Or.inl ⟨rfl, 0, rfl, rfl, rfl, le_refl _, Nat.le_succ _⟩⟩

/-- Running a timeout callback of `CodeEditorSkeleton` keeps the one-interval property and
changes neither the count nor the listeners nor React's bookkeeping. -/
theorem CodeEditorSkeleton.runTimeout_frame (cb : TimeoutCallback) (e : Env)
    (s : CodeEditorSkeleton.State) :
    (CodeEditorSkeleton.OneInterval s →
      CodeEditorSkeleton.OneInterval (CodeEditorSkeleton.runTimeout cb e s).1) ∧
    (CodeEditorSkeleton.runTimeout cb e s).1.exitCount = s.exitCount ∧
    (CodeEditorSkeleton.runTimeout cb e s).1.listeners = s.listeners ∧
    (CodeEditorSkeleton.runTimeout cb e s).1.cleanup = s.cleanup ∧
    (CodeEditorSkeleton.runTimeout cb e s).1.depExitCount = s.depExitCount ∧
    (CodeEditorSkeleton.runTimeout cb e s).1.mounted = s.mounted ∧
    (CodeEditorSkeleton.runTimeout cb e s).1.location = s.location := by
  cases cb with
  | warnSwitchedTabs n m => simp [CodeEditorSkeleton.runTimeout]
  | enterFullscreen => simp [CodeEditorSkeleton.runTimeout]
  | warnSwitchedTabsAndMonitor n m =>
    refine ⟨fun hi => CodeEditorSkeleton.setup_oneInterval s hi, ?_, ?_, ?_, ?_, ?_, ?_⟩
    all_goals
      simp only [CodeEditorSkeleton.runTimeout, CodeEditorSkeleton.setupFullscreenMonitoring,
        CodeEditorSkeleton.clearRef]
      split <;> rfl

/-- Every step of `CodeEditorSkeleton` keeps the invariant. -/
theorem CodeEditorSkeleton.skeleton_step_inv (s : CodeEditorSkeleton.State)
    (i : CodeEditorSkeleton.Input) (hs : CodeEditorSkeleton.Inv s) :
    CodeEditorSkeleton.Inv (CodeEditorSkeleton.step s i).1 := by
  obtain ⟨hi, hk⟩ := hs
  cases i with
  | event ev e =>
    obtain ⟨h0, h1, h2, h3, h4⟩ := CodeEditorSkeleton.skeleton_dispatch_frame ev e s
    simp only [CodeEditorSkeleton.step]
    refine ⟨h0 hi, ?_⟩
    rcases hk with ⟨hm, c, hc, hl, hd, hle, hge⟩ | ⟨hm, hc, hl⟩
    · left
      refine ⟨by rw [h4]; exact hm, c, by rw [h2]; exact hc, by rw [h1]; exact hl,
        by rw [h3]; exact hd, ?_, ?_⟩ <;>
        rcases CodeEditorSkeleton.skeleton_dispatch_count ev e s c hl with h | h <;> omega
    · right
      exact ⟨by rw [h4]; exact hm, by rw [h2]; exact hc, by rw [h1]; exact hl⟩
  | tick id e =>
    simp only [CodeEditorSkeleton.step]
    split_ifs <;> exact ⟨hi, hk⟩
  | fire n e =>
    simp only [CodeEditorSkeleton.step]
    split
    · rename_i cb d hget
      obtain ⟨f0, f1, f2, f3, f4, f5, _⟩ := CodeEditorSkeleton.runTimeout_frame cb e
        { s with timeouts := s.timeouts.eraseIdx n }
      refine ⟨f0 hi, ?_⟩
      rw [f1, f2, f3, f4, f5]
      exact hk
    · exact ⟨hi, hk⟩
  | render e =>
    simp only [CodeEditorSkeleton.step]
    split_ifs with hc
    · rcases hk with ⟨hm, c, hcl, hl, hd, hle, hge⟩ | ⟨hm, _⟩
      · have h1 := CodeEditorSkeleton.effectCleanup_spec s c hcl hl hi
        have h2 := CodeEditorSkeleton.effectBody_spec e
          { s with listeners := [], cleanup := none, intervals := [] } rfl (Or.inl rfl)
        rw [h1, h2]
        exact ⟨Or.inr ⟨_, rfl, rfl⟩,
          Or.inl ⟨hm, s.exitCount, rfl, rfl, rfl, le_refl _, Nat.le_succ _⟩⟩
      · simp [hm] at hc
    · exact ⟨hi, hk⟩
  | unmount =>
    simp only [CodeEditorSkeleton.step]
    split_ifs with hm
    · rcases hk with ⟨_, c, hcl, hl, _⟩ | ⟨hm2, _⟩
      · rw [CodeEditorSkeleton.effectCleanup_spec s c hcl hl hi]
        exact ⟨Or.inl rfl, Or.inr ⟨rfl, rfl, rfl⟩⟩
      · simp [hm2] at hm
    · exact ⟨hi, hk⟩

/-- Every state reached from a mount of `CodeEditorSkeleton` satisfies the invariant. -/
theorem CodeEditorSkeleton.skeleton_run_inv (is : List CodeEditorSkeleton.Input)
    (s : CodeEditorSkeleton.State) (hs : CodeEditorSkeleton.Inv s) :
    CodeEditorSkeleton.Inv (CodeEditorSkeleton.run s is).1 := by
  induction is generalizing s with
  | nil => exact hs
  | cons i rest ih => exact ih _ (CodeEditorSkeleton.skeleton_step_inv s i hs)

/-! ### C11: what survives the teardown -/

/-- Every state reached from a mount of `CodeEditor` satisfies the invariant. -/
theorem CodeEditor.reach_inv (e : Env) (is : List CodeEditor.Input) :
    CodeEditor.Inv (CodeEditor.reach e is) :=
  CodeEditor.editor_run_inv is _ (CodeEditor.editor_mount_inv e)

/-- Every state reached from a mount of `CodeEditorSkeleton` satisfies the invariant. -/
theorem CodeEditorSkeleton.skeleton_reach_inv (e : Env) (is : List CodeEditorSkeleton.Input) :
    CodeEditorSkeleton.Inv (CodeEditorSkeleton.reach e is) :=
  CodeEditorSkeleton.skeleton_run_inv is _ (CodeEditorSkeleton.skeleton_mount_inv e)

/-- Every state reached from a mount of `Test` satisfies the invariant. -/
theorem Test.reach_inv_test (e : Env) (is : List Test.Input) : Test.Inv (Test.reach e is) :=
  Test.run_inv is _ (Test.mount_inv e)

/-- C11 fails as stated: a `CodeEditor` mounted in fullscreen handles one fullscreen exit and
is unmounted; its cleanup has run (no listener is left), yet the 100 ms timeout scheduled by
the handler is still pending and, when it fires, calls `enterFullscreen`, which requests
fullscreen.  The same happens in `CodeEditorSkeleton` with its three timeouts.  After a tab
switch and the unmount, the pending 500 ms timeout still shows the warning alert, and in
`CodeEditorSkeleton` it also arms a new interval, which is then live after the teardown. -/
theorem C11_teardown_counterexample :
    ((CodeEditor.reach envFullscreen CodeEditor.exitThenUnmount).mounted = false ∧
      (CodeEditor.reach envFullscreen CodeEditor.exitThenUnmount).listeners = [] ∧
      (CodeEditor.step (CodeEditor.reach envFullscreen CodeEditor.exitThenUnmount)
        (CodeEditor.Input.fire 0 envExited)).2
        = [Effect.request RequestMethod.requestFullscreen]) ∧
    ((CodeEditorSkeleton.reach envFullscreen CodeEditorSkeleton.exitThenUnmount).mounted = false ∧
      (CodeEditorSkeleton.reach envFullscreen CodeEditorSkeleton.exitThenUnmount).listeners = [] ∧
      (CodeEditorSkeleton.step
        (CodeEditorSkeleton.reach envFullscreen CodeEditorSkeleton.exitThenUnmount)
        (CodeEditorSkeleton.Input.fire 0 envExited)).2
        = [Effect.request RequestMethod.requestFullscreen]) ∧
    ((CodeEditor.reach envFullscreen CodeEditor.hideThenUnmount).mounted = false ∧
      alerts (CodeEditor.step (CodeEditor.reach envFullscreen CodeEditor.hideThenUnmount)
        (CodeEditor.Input.fire 0 envFullscreen)).2 = [Alert.switchedTabs 1 3]) ∧
    ((CodeEditorSkeleton.reach envFullscreen CodeEditorSkeleton.hideThenUnmount).mounted = false ∧
      (CodeEditorSkeleton.reach envFullscreen CodeEditorSkeleton.hideThenUnmount).intervals
        = [] ∧
      alerts (CodeEditorSkeleton.step
        (CodeEditorSkeleton.reach envFullscreen CodeEditorSkeleton.hideThenUnmount)
        (CodeEditorSkeleton.Input.fire 0 envFullscreen)).2 = [Alert.switchedTabs 1 3] ∧
      (CodeEditorSkeleton.step
        (CodeEditorSkeleton.reach envFullscreen CodeEditorSkeleton.hideThenUnmount)
        (CodeEditorSkeleton.Input.fire 0 envFullscreen)).1.intervals = [2]) := by
  decide

/-- With no listener registered, an event does nothing in `CodeEditorSkeleton`. -/
theorem CodeEditorSkeleton.skeleton_dispatch_nil (ev : Event) (e : Env)
    (s : CodeEditorSkeleton.State) (hl : s.listeners = []) :
    CodeEditorSkeleton.dispatch ev e s = (s, []) := by
  simp [CodeEditorSkeleton.dispatch, hl, runListeners]

/-- A step of an unmounted `CodeEditor` without listeners neither mounts it nor registers a
listener, and a step other than a timeout firing leaves the state as it is. -/
theorem CodeEditor.editor_torn_step (u : CodeEditor.State) (j : CodeEditor.Input)
    (hm : u.mounted = false) (hl : u.listeners = []) :
    (CodeEditor.step u j).1.mounted = false ∧ (CodeEditor.step u j).1.listeners = [] ∧
    (j.isFire = false → (CodeEditor.step u j).1 = u) := by
  cases j with
  | event ev e2 =>
    have hd : CodeEditor.step u (CodeEditor.Input.event ev e2) = CodeEditor.dispatch ev e2 u :=
      rfl
    rw [hd, CodeEditor.editor_dispatch_nil ev e2 u hl]
    exact ⟨hm, hl, fun _ => rfl⟩
  | fire n e2 =>
    simp only [CodeEditor.step]
    split <;> simp [hm, hl, CodeEditor.Input.isFire]
  | render e2 => simp [CodeEditor.step, hm, hl]
  | unmount => simp [CodeEditor.step, hm, hl]

/-- A run of an unmounted `CodeEditor` without listeners neither mounts it nor registers a
listener, and a run without timeout firings leaves the state as it is. -/
theorem CodeEditor.editor_torn_run (js : List CodeEditor.Input) (u : CodeEditor.State)
    (hm : u.mounted = false) (hl : u.listeners = []) :
    (CodeEditor.run u js).1.mounted = false ∧ (CodeEditor.run u js).1.listeners = [] ∧
    (js.all (fun j => !j.isFire) = true → (CodeEditor.run u js).1 = u) := by
  induction js generalizing u with
  | nil => exact ⟨hm, hl, fun _ => rfl⟩
  | cons j rest ih =>
    obtain ⟨h1, h2, h3⟩ := CodeEditor.editor_torn_step u j hm hl
    obtain ⟨k1, k2, k3⟩ := ih _ h1 h2
    refine ⟨k1, k2, fun hall => ?_⟩
    simp only [List.all_cons, Bool.and_eq_true, Bool.not_eq_true'] at hall
    show (CodeEditor.run (CodeEditor.step u j).1 rest).1 = u
    rw [k3 hall.2, h3 hall.1]

/-- A step of an unmounted `CodeEditorSkeleton` without listeners neither mounts it nor
registers a listener; when no interval is live and the step does not fire a warning timeout,
no interval is live afterwards; a step other than a timeout firing leaves the state as it
is. -/
theorem CodeEditorSkeleton.skeleton_torn_step (u : CodeEditorSkeleton.State)
    (j : CodeEditorSkeleton.Input) (hm : u.mounted = false) (hl : u.listeners = []) :
    (CodeEditorSkeleton.step u j).1.mounted = false ∧
    (CodeEditorSkeleton.step u j).1.listeners = [] ∧
    (u.intervals = [] → CodeEditorSkeleton.firesWarning u j = false →
      (CodeEditorSkeleton.step u j).1.intervals = []) ∧
    (j.isFire = false → (CodeEditorSkeleton.step u j).1 = u) := by
  cases j with
  | event ev e2 =>
    have hd : CodeEditorSkeleton.step u (CodeEditorSkeleton.Input.event ev e2)
        = CodeEditorSkeleton.dispatch ev e2 u := rfl
    rw [hd, CodeEditorSkeleton.skeleton_dispatch_nil ev e2 u hl]
    exact ⟨hm, hl, fun h _ => h, fun _ => rfl⟩
  | tick id e2 =>
    simp only [CodeEditorSkeleton.step]
    split_ifs <;> exact ⟨hm, hl, fun h _ => h, fun _ => rfl⟩
  | fire n e2 =>
    cases hget : u.timeouts.get? n with
    | none =>
      simp only [CodeEditorSkeleton.step, hget]
      exact ⟨hm, hl, fun h _ => h, fun h => by simp [CodeEditorSkeleton.Input.isFire] at h⟩
    | some p =>
      obtain ⟨cb, d⟩ := p
      obtain ⟨_, _, f2, _, _, f5, _⟩ := CodeEditorSkeleton.runTimeout_frame cb e2
        { u with timeouts := u.timeouts.eraseIdx n }
      have hg : u.timeouts[n]? = some (cb, d) := by simpa using hget
      simp only [CodeEditorSkeleton.step, hget]
      refine ⟨by rw [f5]; exact hm, by rw [f2]; exact hl, ?_,
        fun h => by simp [CodeEditorSkeleton.Input.isFire] at h⟩
      intro hi hw
      cases cb with
      | enterFullscreen => simpa [CodeEditorSkeleton.runTimeout] using hi
      | warnSwitchedTabs a b => simp [CodeEditorSkeleton.firesWarning, hg] at hw
      | warnSwitchedTabsAndMonitor a b => simp [CodeEditorSkeleton.firesWarning, hg] at hw
  | render e2 =>
    have h : CodeEditorSkeleton.step u (CodeEditorSkeleton.Input.render e2) = (u, []) := by
      simp [CodeEditorSkeleton.step, hm]
    rw [h]
    exact ⟨hm, hl, fun h _ => h, fun _ => rfl⟩
  | unmount =>
    have h : CodeEditorSkeleton.step u CodeEditorSkeleton.Input.unmount = (u, []) := by
      simp [CodeEditorSkeleton.step, hm]
    rw [h]
    exact ⟨hm, hl, fun h _ => h, fun _ => rfl⟩

/-- A run of an unmounted `CodeEditorSkeleton` without listeners neither mounts it nor
registers a listener; when no interval is live and the run fires no warning timeout, no
interval is live afterwards; a run without timeout firings leaves the state as it is. -/
theorem CodeEditorSkeleton.skeleton_torn_run (js : List CodeEditorSkeleton.Input)
    (u : CodeEditorSkeleton.State) (hm : u.mounted = false) (hl : u.listeners = []) :
    (CodeEditorSkeleton.run u js).1.mounted = false ∧
    (CodeEditorSkeleton.run u js).1.listeners = [] ∧
    (u.intervals = [] → CodeEditorSkeleton.noWarningFires u js = true →
      (CodeEditorSkeleton.run u js).1.intervals = []) ∧
    (js.all (fun j => !j.isFire) = true → (CodeEditorSkeleton.run u js).1 = u) := by
  induction js generalizing u with
  | nil => exact ⟨hm, hl, fun h _ => h, fun _ => rfl⟩
  | cons j rest ih =>
    obtain ⟨h1, h2, h3, h4⟩ := CodeEditorSkeleton.skeleton_torn_step u j hm hl
    obtain ⟨k1, k2, k3, k4⟩ := ih _ h1 h2
    refine ⟨k1, k2, fun hi hw => ?_, fun hall => ?_⟩
    · simp only [CodeEditorSkeleton.noWarningFires, Bool.and_eq_true, Bool.not_eq_true'] at hw
      exact k3 (h3 hi hw.1) hw.2
    · simp only [List.all_cons, Bool.and_eq_true, Bool.not_eq_true'] at hall
      show (CodeEditorSkeleton.run (CodeEditorSkeleton.step u j).1 rest).1 = u
      rw [k4 hall.2, h4 hall.1]

/-- C11 as amended: the teardown releases the listeners and the interval for good, and does
not cancel the `enterFullscreen` timeouts.  In `CodeEditor` and in `CodeEditorSkeleton`,
after the unmount of a mounted component and any later inputs, no listener of the component
is registered and an event runs no handler; in `CodeEditorSkeleton`, as long as none of the
later inputs fires a 500 ms warning timeout, no interval is live and an interval tick does
nothing; an `enterFullscreen` timeout that was pending at the unmount is still pending after
it and after later events and ticks, and calls `enterFullscreen` when it fires. -/
theorem C11_teardown_releases_listeners_and_interval :
    (∀ (e : Env) (is js : List CodeEditor.Input),
      (CodeEditor.afterTeardown e is js).listeners = [] ∧
      (∀ (ev : Event) (e2 : Env),
        (CodeEditor.step (CodeEditor.afterTeardown e is js)
          (CodeEditor.Input.event ev e2)).2 = []) ∧
      (∀ (n d : Nat) (e2 : Env),
        js.all (fun j => !j.isFire) = true →
        (CodeEditor.reach e is).timeouts.get? n = some (TimeoutCallback.enterFullscreen, d) →
        (CodeEditor.afterTeardown e is js).timeouts.get? n
          = some (TimeoutCallback.enterFullscreen, d) ∧
        (CodeEditor.step (CodeEditor.afterTeardown e is js) (CodeEditor.Input.fire n e2)).2
          = (CodeEditor.enterFullscreen e2).1)) ∧
    (∀ (e : Env) (is js : List CodeEditorSkeleton.Input),
      (CodeEditorSkeleton.reach e is).mounted = true →
      (CodeEditorSkeleton.afterTeardown e is js).listeners = [] ∧
      (∀ (ev : Event) (e2 : Env),
        (CodeEditorSkeleton.step (CodeEditorSkeleton.afterTeardown e is js)
          (CodeEditorSkeleton.Input.event ev e2)).2 = []) ∧
      (CodeEditorSkeleton.noWarningFires
          (CodeEditorSkeleton.step (CodeEditorSkeleton.reach e is)
            CodeEditorSkeleton.Input.unmount).1 js = true →
        (CodeEditorSkeleton.afterTeardown e is js).intervals = [] ∧
        ∀ (id : Nat) (e2 : Env),
          (CodeEditorSkeleton.step (CodeEditorSkeleton.afterTeardown e is js)
            (CodeEditorSkeleton.Input.tick id e2)).2 = []) ∧
      (∀ (n d : Nat) (e2 : Env),
        js.all (fun j => !j.isFire) = true →
        (CodeEditorSkeleton.reach e is).timeouts.get? n
          = some (TimeoutCallback.enterFullscreen, d) →
        (CodeEditorSkeleton.afterTeardown e is js).timeouts.get? n
          = some (TimeoutCallback.enterFullscreen, d) ∧
        (CodeEditorSkeleton.step (CodeEditorSkeleton.afterTeardown e is js)
          (CodeEditorSkeleton.Input.fire n e2)).2 = CodeEditorSkeleton.enterFullscreen e2)) := by
  refine ⟨?_, ?_⟩
  · intro e is js
    have hinv := CodeEditor.reach_inv e is
    unfold CodeEditor.afterTeardown
    generalize CodeEditor.reach e is = s at hinv
    have hu : (CodeEditor.step s CodeEditor.Input.unmount).1.mounted = false ∧
        (CodeEditor.step s CodeEditor.Input.unmount).1.listeners = [] ∧
        (CodeEditor.step s CodeEditor.Input.unmount).1.timeouts = s.timeouts := by
      rcases hinv with ⟨hm, c, hc, hl, _⟩ | ⟨hm, hc, hl⟩
      · simp [CodeEditor.step, hm, CodeEditor.effectCleanup, hc, hl, CodeEditor.subscribed,
          removeEventListener]
      · simp [CodeEditor.step, hm, hl]
    generalize (CodeEditor.step s CodeEditor.Input.unmount).1 = u at hu
    obtain ⟨_, k2, k3⟩ := CodeEditor.editor_torn_run js u hu.1 hu.2.1
    refine ⟨k2, ?_, ?_⟩
    · intro ev e2
      generalize (CodeEditor.run u js).1 = w at k2
      have hd : CodeEditor.step w (CodeEditor.Input.event ev e2) = CodeEditor.dispatch ev e2 w :=
        rfl
      rw [hd, CodeEditor.editor_dispatch_nil ev e2 w k2]
    · intro n d e2 hall hn
      have hn2 : u.timeouts.get? n = some (TimeoutCallback.enterFullscreen, d) := by
        rw [hu.2.2]; exact hn
      rw [k3 hall]
      refine ⟨hn2, ?_⟩
      simp only [CodeEditor.step, hn2, CodeEditor.runTimeout]
  · intro e is js hm
    have hinv := CodeEditorSkeleton.skeleton_reach_inv e is
    unfold CodeEditorSkeleton.afterTeardown
    generalize CodeEditorSkeleton.reach e is = s at hinv hm
    obtain ⟨hi, hk⟩ := hinv
    rcases hk with ⟨_, c, hc, hl, _⟩ | ⟨hm2, _⟩
    · have hu : (CodeEditorSkeleton.step s CodeEditorSkeleton.Input.unmount).1 =
          { s with listeners := [], cleanup := none, intervals := [], mounted := false } := by
        simp only [CodeEditorSkeleton.step, hm, if_true]
        rw [CodeEditorSkeleton.effectCleanup_spec s c hc hl hi]
      have hu2 : (CodeEditorSkeleton.step s CodeEditorSkeleton.Input.unmount).1.mounted = false ∧
          (CodeEditorSkeleton.step s CodeEditorSkeleton.Input.unmount).1.listeners = [] ∧
          (CodeEditorSkeleton.step s CodeEditorSkeleton.Input.unmount).1.intervals = [] ∧
          (CodeEditorSkeleton.step s CodeEditorSkeleton.Input.unmount).1.timeouts
            = s.timeouts := by
        rw [hu]; exact ⟨rfl, rfl, rfl, rfl⟩
      generalize (CodeEditorSkeleton.step s CodeEditorSkeleton.Input.unmount).1 = u at hu2
      obtain ⟨_, k2, k3, k4⟩ := CodeEditorSkeleton.skeleton_torn_run js u hu2.1 hu2.2.1
      refine ⟨k2, ?_, ?_, ?_⟩
      · intro ev e2
        generalize (CodeEditorSkeleton.run u js).1 = w at k2
        have hd : CodeEditorSkeleton.step w (CodeEditorSkeleton.Input.event ev e2)
            = CodeEditorSkeleton.dispatch ev e2 w := rfl
        rw [hd, CodeEditorSkeleton.skeleton_dispatch_nil ev e2 w k2]
      · intro hw
        have h0 := k3 hu2.2.2.1 hw
        refine ⟨h0, ?_⟩
        intro id e2
        simp [CodeEditorSkeleton.step, h0]
      · intro n d e2 hall hn
        have hn2 : u.timeouts.get? n = some (TimeoutCallback.enterFullscreen, d) := by
          rw [hu2.2.2.2]; exact hn
        rw [k4 hall]
        refine ⟨hn2, ?_⟩
        simp only [CodeEditorSkeleton.step, hn2, CodeEditorSkeleton.runTimeout]
    · simp [hm2] at hm

/-- C11 as amended, at concrete inputs: the two components mounted in fullscreen, after one
fullscreen exit, then unmounted.  In `CodeEditor`, after a later fullscreen-change event and
a later render, the 100 ms timeout is still the first pending one and requests fullscreen
when it fires.  In `CodeEditorSkeleton`, after the first `enterFullscreen` timeout has fired
and the cleared interval would have ticked, no interval is live. -/
theorem C11_teardown_releases_listeners_and_interval_witness :
    (([CodeEditor.Input.event (plainEvent EventType.fullscreenchange) envExited,
        CodeEditor.Input.render envExited].all (fun j => !j.isFire) = true ∧
      (CodeEditor.reach envFullscreen
        [CodeEditor.violationInput Violation.fullscreenExit envExited]).timeouts.get? 0
        = some (TimeoutCallback.enterFullscreen, 100)) ∧
      (CodeEditor.step
        (CodeEditor.afterTeardown envFullscreen
          [CodeEditor.violationInput Violation.fullscreenExit envExited]
          [CodeEditor.Input.event (plainEvent EventType.fullscreenchange) envExited,
           CodeEditor.Input.render envExited])
        (CodeEditor.Input.fire 0 envExited)).2 = (CodeEditor.enterFullscreen envExited).1) ∧
    (((CodeEditorSkeleton.reach envFullscreen
        [CodeEditorSkeleton.violationInput Violation.fullscreenExit envExited]).mounted = true ∧
      CodeEditorSkeleton.noWarningFires
        (CodeEditorSkeleton.step (CodeEditorSkeleton.reach envFullscreen
          [CodeEditorSkeleton.violationInput Violation.fullscreenExit envExited])
          CodeEditorSkeleton.Input.unmount).1
        [CodeEditorSkeleton.Input.fire 0 envExited,
         CodeEditorSkeleton.Input.tick 2 envExited] = true) ∧
      (CodeEditorSkeleton.afterTeardown envFullscreen
        [CodeEditorSkeleton.violationInput Violation.fullscreenExit envExited]
        [CodeEditorSkeleton.Input.fire 0 envExited,
         CodeEditorSkeleton.Input.tick 2 envExited]).intervals = []) :=
  ⟨⟨⟨by decide, by decide⟩,
    ((C11_teardown_releases_listeners_and_interval.1 envFullscreen
      [CodeEditor.violationInput Violation.fullscreenExit envExited]
      [CodeEditor.Input.event (plainEvent EventType.fullscreenchange) envExited,
       CodeEditor.Input.render envExited]).2.2 0 100 envExited (by decide) (by decide)).2⟩,
   ⟨⟨by decide, by decide⟩,
    ((C11_teardown_releases_listeners_and_interval.2 envFullscreen
      [CodeEditorSkeleton.violationInput Violation.fullscreenExit envExited]
      [CodeEditorSkeleton.Input.fire 0 envExited,
       CodeEditorSkeleton.Input.tick 2 envExited] (by decide)).2.2.1 (by decide)).1⟩⟩

/-! ### C12: the reentry timer when the view blocks -/

/-- C12 fails as stated for `CodeEditorSkeleton`: mounted in fullscreen, after two rendered
fullscreen exits a third one brings the count to `maxExits = 3` and assigns the location, but
an interval is still live and six `enterFullscreen` timeouts are still pending. -/
theorem C12_block_cancels_counterexample :
    (CodeEditorSkeleton.reach envFullscreen CodeEditorSkeleton.threeExits).exitCount
      = CodeEditorSkeleton.maxExits ∧
    (CodeEditorSkeleton.reach envFullscreen CodeEditorSkeleton.threeExits).location
      = some "/blocked" ∧
    (CodeEditorSkeleton.reach envFullscreen CodeEditorSkeleton.threeExits).intervals = [5] ∧
    (CodeEditorSkeleton.reach envFullscreen CodeEditorSkeleton.threeExits).timeouts.length = 6 ∧
    (CodeEditorSkeleton.step
      (CodeEditorSkeleton.reach envFullscreen CodeEditorSkeleton.threeExits)
      (CodeEditorSkeleton.Input.tick 5 envExited)).2
      = [Effect.request RequestMethod.requestFullscreen] := by
  decide

/-- C12 as amended: in `Test`, in every reachable state where `isBlocked` is `true` and the
`[isBlocked]` effect has run for it, no interval is live.  In `CodeEditorSkeleton` the block
branch cancels nothing: a violation that brings the count to `maxExits` or beyond leaves the
live intervals, the ref and the pending timeouts exactly as they were; the handler only
writes the count, shows the block alert and assigns `window.location.href = "/blocked"`. -/
theorem C12_block_clears_interval_in_test_only :
    (∀ (e : Env) (is : List Test.Input),
      (Test.reach e is).isBlocked = true →
      (Test.reach e is).depIsBlocked = (Test.reach e is).isBlocked →
      (Test.reach e is).intervals = []) ∧
    (∀ (s : CodeEditorSkeleton.State) (v : Violation) (e : Env),
      s.listeners = CodeEditorSkeleton.subscribed s.exitCount →
      CodeEditorSkeleton.maxExits ≤ s.exitCount + 1 →
      (CodeEditorSkeleton.step s (CodeEditorSkeleton.violationInput v e)).1.intervals
        = s.intervals ∧
      (CodeEditorSkeleton.step s (CodeEditorSkeleton.violationInput v e)).1.fullscreenAttemptRef
        = s.fullscreenAttemptRef ∧
      (CodeEditorSkeleton.step s (CodeEditorSkeleton.violationInput v e)).1.timeouts
        = s.timeouts ∧
      (CodeEditorSkeleton.step s (CodeEditorSkeleton.violationInput v e)).2 =
        [Effect.setCount (s.exitCount + 1), Effect.alert Alert.blockedFromExam,
         Effect.setLocation "/blocked"]) := by
  refine ⟨?_, ?_⟩
  · intro e is hb hd
    rcases Test.reach_inv_test e is with ⟨_, _, (⟨_, hi, _⟩ | ⟨id, _, _, hdf⟩)⟩ | ⟨_, _, hi, _⟩
    · exact hi
    · rw [hd, hb] at hdf
      exact absurd hdf (by simp)
    · exact hi
  · intro s v e hl h3
    have h3' : ¬ s.exitCount + 1 < 3 := by
      simp only [CodeEditorSkeleton.maxExits] at h3; omega
    have h3'' : 3 ≤ s.exitCount + 1 := by omega
    rw [CodeEditorSkeleton.skeleton_dispatch_violation s s.exitCount v e hl]
    cases v
    · simp [CodeEditorSkeleton.handleVisibilityChange, Violation.env,
        CodeEditorSkeleton.maxExits, h3', h3'']
    · simp [CodeEditorSkeleton.handleFullscreenChange, Violation.env,
        CodeEditorSkeleton.maxExits, h3', h3'']

/-- C12 as amended, at concrete inputs: the `Test` blocked by three rendered exits, and the
third exit of the `CodeEditorSkeleton` that saw two rendered exits. -/
theorem C12_block_clears_interval_in_test_only_witness :
    ((Test.reach envFullscreen Test.threeExits).isBlocked = true ∧
      (Test.reach envFullscreen Test.threeExits).depIsBlocked
        = (Test.reach envFullscreen Test.threeExits).isBlocked ∧
      (Test.reach envFullscreen Test.threeExits).intervals = []) ∧
    ((CodeEditorSkeleton.reach envFullscreen (CodeEditorSkeleton.threeExits.take 4)).listeners
        = CodeEditorSkeleton.subscribed
            (CodeEditorSkeleton.reach envFullscreen
              (CodeEditorSkeleton.threeExits.take 4)).exitCount ∧
      CodeEditorSkeleton.maxExits ≤
        (CodeEditorSkeleton.reach envFullscreen
          (CodeEditorSkeleton.threeExits.take 4)).exitCount + 1 ∧
      (CodeEditorSkeleton.step
        (CodeEditorSkeleton.reach envFullscreen (CodeEditorSkeleton.threeExits.take 4))
        (CodeEditorSkeleton.violationInput Violation.fullscreenExit envExited)).1.intervals
        = (CodeEditorSkeleton.reach envFullscreen
            (CodeEditorSkeleton.threeExits.take 4)).intervals) :=
  ⟨⟨by decide, by decide,
    C12_block_clears_interval_in_test_only.1 envFullscreen Test.threeExits (by decide)
      (by decide)⟩,
   ⟨by decide, by decide,
    (C12_block_clears_interval_in_test_only.2
      (CodeEditorSkeleton.reach envFullscreen (CodeEditorSkeleton.threeExits.take 4))
      Violation.fullscreenExit envExited (by decide) (by decide)).1⟩⟩

/-! ### C13: at most one live interval in `CodeEditorSkeleton` -/

/-- C13: in every state a mounted `CodeEditorSkeleton` can reach, through any sequence of
events, timer ticks, timeouts (among them the delayed tab-switch warning, which re-arms the
monitor), re-renders with their cleanup and effect re-run, and the unmount, at most one
interval of the component is live, and a live one is the one whose id the ref holds; and
every arming first clears the handle held in `fullscreenAttemptRef`. -/
theorem C13_single_live_interval :
    (∀ (e : Env) (is : List CodeEditorSkeleton.Input),
      (CodeEditorSkeleton.reach e is).intervals.length ≤ 1 ∧
      CodeEditorSkeleton.OneInterval (CodeEditorSkeleton.reach e is)) ∧
    (∀ (s : CodeEditorSkeleton.State) (id : Nat), s.fullscreenAttemptRef = some id →
      (CodeEditorSkeleton.setupFullscreenMonitoring s).2 =
        [Effect.clearInterval id, Effect.setInterval s.nextTimerId 1000] ∧
      id ∉ (CodeEditorSkeleton.setupFullscreenMonitoring s).1.intervals.dropLast) := by
  refine ⟨?_, ?_⟩
  · intro e is
    have h := (CodeEditorSkeleton.skeleton_reach_inv e is).1
    refine ⟨?_, h⟩
    rcases h with h | ⟨id, h, _⟩ <;> simp [h]
  · intro s id hr
    simp [CodeEditorSkeleton.setupFullscreenMonitoring, CodeEditorSkeleton.clearRef, hr,
      List.mem_filter]

/-- C13 at a concrete input: re-arming the monitor of a freshly mounted
`CodeEditorSkeleton`, whose ref holds interval 1. -/
theorem C13_single_live_interval_witness :
    (CodeEditorSkeleton.mount envFullscreen).1.fullscreenAttemptRef = some 1 ∧
    (CodeEditorSkeleton.setupFullscreenMonitoring (CodeEditorSkeleton.mount envFullscreen).1).2 =
      [Effect.clearInterval 1,
       Effect.setInterval (CodeEditorSkeleton.mount envFullscreen).1.nextTimerId 1000] :=
  ⟨by decide,
   (C13_single_live_interval.2 (CodeEditorSkeleton.mount envFullscreen).1 1 (by decide)).1⟩

/-! ### C14: one monitor per view, two while the skeleton is shown -/

/-- The fullscreen handler of `CodeEditorSkeleton`, subscribed for count `c`, with no
fullscreen element: the count becomes `c + 1` and exactly one notice is raised, a warning
carrying `c + 1` below 3 and a block notice otherwise. -/
theorem CodeEditorSkeleton.skeleton_handleFullscreenChange_spec (c : Nat)
    (s : CodeEditorSkeleton.State) (e : Env) (hd : e.doc.fullscreenElement = false) :
    (CodeEditorSkeleton.handleFullscreenChange c e s).1.exitCount = c + 1 ∧
    (c + 1 < 3 →
      warningCounts (CodeEditorSkeleton.handleFullscreenChange c e s).2 = [c + 1] ∧
      blockNotices (CodeEditorSkeleton.handleFullscreenChange c e s).2 = 0) ∧
    (3 ≤ c + 1 →
      warningCounts (CodeEditorSkeleton.handleFullscreenChange c e s).2 = [] ∧
      blockNotices (CodeEditorSkeleton.handleFullscreenChange c e s).2 = 1) := by
  by_cases h : c + 1 < 3
  · have h2 : ¬ 3 ≤ c + 1 := by omega
    cases hr : s.fullscreenAttemptRef <;>
      simp [CodeEditorSkeleton.handleFullscreenChange, hd, CodeEditorSkeleton.maxExits, h, h2,
        CodeEditorSkeleton.setupFullscreenMonitoring, CodeEditorSkeleton.clearRef, hr,
        warningCounts, blockNotices]
  · have h2 : 3 ≤ c + 1 := by omega
    simp [CodeEditorSkeleton.handleFullscreenChange, hd, CodeEditorSkeleton.maxExits, h, h2,
      warningCounts, blockNotices]

/-- C14 fails as stated while the view is loading: a `Test` that renders the skeleton has two
listeners for `fullscreenchange` and two live intervals in the document; one fullscreen exit
is counted by both counters and raises two warnings.  The same holds for a loading
`CodeEditor`, which has no interval of its own. -/
theorem C14_one_monitor_counterexample :
    (listenerCount (Test.LoadingPage.mount envFullscreen).1.skeleton.listeners
        EventType.fullscreenchange +
      listenerCount (Test.LoadingPage.mount envFullscreen).1.view.listeners
        EventType.fullscreenchange = 2 ∧
      (Test.LoadingPage.mount envFullscreen).1.skeleton.intervals.length +
        (Test.LoadingPage.mount envFullscreen).1.view.intervals.length = 2 ∧
      (Test.LoadingPage.dispatch (plainEvent EventType.fullscreenchange) envExited
        (Test.LoadingPage.mount envFullscreen).1).1.skeleton.exitCount = 1 ∧
      (Test.LoadingPage.dispatch (plainEvent EventType.fullscreenchange) envExited
        (Test.LoadingPage.mount envFullscreen).1).1.view.exitAttempts = 1 ∧
      alerts (Test.LoadingPage.dispatch (plainEvent EventType.fullscreenchange) envExited
        (Test.LoadingPage.mount envFullscreen).1).2
        = [Alert.exitedFullscreen 1 3, Alert.stayInFullscreen 1]) ∧
    (listenerCount (CodeEditor.LoadingPage.mount envFullscreen).1.skeleton.listeners
        EventType.fullscreenchange +
      listenerCount (CodeEditor.LoadingPage.mount envFullscreen).1.view.listeners
        EventType.fullscreenchange = 2 ∧
      (CodeEditor.LoadingPage.dispatch (plainEvent EventType.fullscreenchange) envExited
        (CodeEditor.LoadingPage.mount envFullscreen).1).1.skeleton.exitCount = 1 ∧
      (CodeEditor.LoadingPage.dispatch (plainEvent EventType.fullscreenchange) envExited
        (CodeEditor.LoadingPage.mount envFullscreen).1).1.view.exitCount = 1 ∧
      alerts (CodeEditor.LoadingPage.dispatch (plainEvent EventType.fullscreenchange) envExited
        (CodeEditor.LoadingPage.mount envFullscreen).1).2
        = [Alert.exitedFullscreen 1 3, Alert.exitedFullscreen 1 3]) := by
  decide

/-- C14 as amended: a view that renders its own content has one monitor; a view that renders
the skeleton has two.  In every state a mounted `Test` can reach there is at most one
listener for each fullscreen-change type and at most one live interval, and in every state a
mounted `CodeEditor` can reach at most one `fullscreenchange` listener.  While the view is
loading and `CodeEditorSkeleton` is mounted beside it, a single fullscreen exit, handled in
each component by the listeners subscribed for its current count, is counted by the counter
of the view and by the counter of the skeleton, and raises two notices, one from each. -/
theorem C14_one_monitor_unless_loading :
    (∀ (e : Env) (is : List Test.Input) (t : EventType), t ∈ Test.fullscreenChangeTypes →
      listenerCount (Test.reach e is).listeners t ≤ 1 ∧
      (Test.reach e is).intervals.length ≤ 1) ∧
    (∀ (e : Env) (is : List CodeEditor.Input),
      listenerCount (CodeEditor.reach e is).listeners EventType.fullscreenchange ≤ 1) ∧
    (∀ (p : Test.LoadingPage) (ev : Event) (e : Env),
      p.view.listeners = Test.registerAll [] →
      p.skeleton.listeners = CodeEditorSkeleton.subscribed p.skeleton.exitCount →
      ev.type = EventType.fullscreenchange → Test.checkFullscreen e.doc = false →
      (Test.LoadingPage.dispatch ev e p).1.view.exitAttempts = p.view.exitAttempts + 1 ∧
      (Test.LoadingPage.dispatch ev e p).1.skeleton.exitCount = p.skeleton.exitCount + 1 ∧
      (warningCounts (Test.LoadingPage.dispatch ev e p).2).length +
        blockNotices (Test.LoadingPage.dispatch ev e p).2 = 2) ∧
    (∀ (p : CodeEditor.LoadingPage) (ev : Event) (e : Env),
      p.view.listeners = CodeEditor.subscribed p.view.exitCount →
      p.skeleton.listeners = CodeEditorSkeleton.subscribed p.skeleton.exitCount →
      ev.type = EventType.fullscreenchange → e.doc.fullscreenElement = false →
      (CodeEditor.LoadingPage.dispatch ev e p).1.view.exitCount = p.view.exitCount + 1 ∧
      (CodeEditor.LoadingPage.dispatch ev e p).1.skeleton.exitCount
        = p.skeleton.exitCount + 1 ∧
      (warningCounts (CodeEditor.LoadingPage.dispatch ev e p).2).length +
        blockNotices (CodeEditor.LoadingPage.dispatch ev e p).2 = 2) := by
  have notice : ∀ (tr : List Effect) (c : Nat),
      (c + 1 < 3 → warningCounts tr = [c + 1] ∧ blockNotices tr = 0) →
      (3 ≤ c + 1 → warningCounts tr = [] ∧ blockNotices tr = 1) →
      (warningCounts tr).length + blockNotices tr = 1 := by
    intro tr c h1 h2
    by_cases h : c + 1 < 3
    · rw [(h1 h).1, (h1 h).2]; rfl
    · rw [(h2 (by omega)).1, (h2 (by omega)).2]; rfl
  refine ⟨?_, ?_, ?_, ?_⟩
  · intro e is t ht
    simp only [Test.fullscreenChangeTypes, List.mem_cons, List.mem_singleton,
      List.not_mem_nil, or_false] at ht
    rcases Test.reach_inv_test e is with
      ⟨_, hl, (⟨_, hi, _⟩ | ⟨id, _, hi, _⟩)⟩ | ⟨_, hl, hi, _⟩ <;>
      rw [hl, hi] <;> rcases ht with rfl | rfl | rfl | rfl <;>
      exact ⟨by decide, by simp⟩
  · intro e is
    rcases CodeEditor.reach_inv e is with ⟨_, c, _, hl, _⟩ | ⟨_, _, hl⟩
    · rw [hl]; simp [listenerCount, CodeEditor.subscribed]
    · rw [hl]; simp [listenerCount]
  · intro p ev e hv hs ht hd
    have hfs : e.doc.fullscreenElement = false := by
      simp only [Test.checkFullscreen, Bool.or_eq_false_iff] at hd
      exact hd.1.1.1
    have h1 : CodeEditorSkeleton.dispatch ev e p.skeleton =
        CodeEditorSkeleton.handleFullscreenChange p.skeleton.exitCount e p.skeleton := by
      rw [CodeEditorSkeleton.skeleton_dispatch_eq ev e _ _ hs]
      simp [ht]
    have h2 : Test.dispatch ev e p.view = Test.handleFullscreenExit e p.view :=
      Test.dispatch_fullscreenChange p.view ev e hv (by simp [ht, Test.fullscreenChangeTypes])
    have s1 := CodeEditorSkeleton.skeleton_handleFullscreenChange_spec p.skeleton.exitCount
      p.skeleton e hfs
    have s2 := Test.handleFullscreenExit_spec p.view e hd
    simp only [Test.LoadingPage.dispatch, h1, h2]
    refine ⟨s2.1, s1.1, ?_⟩
    rw [warningCounts_append, blockNotices_append, List.length_append]
    have n1 := notice _ _ s1.2.1 s1.2.2
    have n2 := notice _ _ (fun h => ⟨(s2.2.2.2.1 h).1, (s2.2.2.2.1 h).2.1⟩) s2.2.2.2.2
    omega
  · intro p ev e hv hs ht hfs
    have h1 : CodeEditorSkeleton.dispatch ev e p.skeleton =
        CodeEditorSkeleton.handleFullscreenChange p.skeleton.exitCount e p.skeleton := by
      rw [CodeEditorSkeleton.skeleton_dispatch_eq ev e _ _ hs]
      simp [ht]
    have h2 : CodeEditor.dispatch ev e p.view =
        CodeEditor.handleFullscreenChange p.view.exitCount e p.view := by
      simp [CodeEditor.dispatch, hv, CodeEditor.subscribed, runListeners, ht,
        CodeEditor.runHandler]
    have s1 := CodeEditorSkeleton.skeleton_handleFullscreenChange_spec p.skeleton.exitCount
      p.skeleton e hfs
    have s2 := CodeEditor.handleFullscreenChange_spec p.view.exitCount p.view e hfs
    simp only [CodeEditor.LoadingPage.dispatch, h1, h2]
    refine ⟨s2.1, s1.1, ?_⟩
    rw [warningCounts_append, blockNotices_append, List.length_append]
    have n1 := notice _ _ s1.2.1 s1.2.2
    have n2 := notice _ _ (fun h => ⟨(s2.2.2.2.1 h).1, (s2.2.2.2.1 h).2.1⟩) s2.2.2.2.2
    omega

/-- C14 as amended, at concrete inputs: the first fullscreen exit of a loading `Test` and of
a loading `CodeEditor`, both mounted in fullscreen. -/
theorem C14_one_monitor_unless_loading_witness :
    (EventType.fullscreenchange ∈ Test.fullscreenChangeTypes ∧
      (Test.reach envFullscreen Test.threeExits).intervals.length ≤ 1) ∧
    ((Test.LoadingPage.mount envFullscreen).1.view.listeners = Test.registerAll [] ∧
      Test.checkFullscreen envExited.doc = false ∧
      (Test.LoadingPage.dispatch (plainEvent EventType.fullscreenchange) envExited
        (Test.LoadingPage.mount envFullscreen).1).1.skeleton.exitCount
        = (Test.LoadingPage.mount envFullscreen).1.skeleton.exitCount + 1) ∧
    ((CodeEditor.LoadingPage.mount envFullscreen).1.view.listeners
        = CodeEditor.subscribed (CodeEditor.LoadingPage.mount envFullscreen).1.view.exitCount ∧
      envExited.doc.fullscreenElement = false ∧
      (CodeEditor.LoadingPage.dispatch (plainEvent EventType.fullscreenchange) envExited
        (CodeEditor.LoadingPage.mount envFullscreen).1).1.skeleton.exitCount
        = (CodeEditor.LoadingPage.mount envFullscreen).1.skeleton.exitCount + 1) :=
  ⟨⟨by decide,
    (C14_one_monitor_unless_loading.1 envFullscreen Test.threeExits
      EventType.fullscreenchange (by decide)).2⟩,
   ⟨by decide, by decide,
    (C14_one_monitor_unless_loading.2.2.1 (Test.LoadingPage.mount envFullscreen).1
      (plainEvent EventType.fullscreenchange) envExited (by decide) (by decide) (by decide)
      (by decide)).2.1⟩,
   ⟨by decide, by decide,
    (C14_one_monitor_unless_loading.2.2.2 (CodeEditor.LoadingPage.mount envFullscreen).1
      (plainEvent EventType.fullscreenchange) envExited (by decide) (by decide) (by decide)
      (by decide)).2.1⟩⟩

/-! ### C15: a fullscreen request is never a violation -/

/-- A trace of request calls and console messages contains no state write and no alert. -/
theorem platform_trace_no_write (tr : List Effect)
    (h : ∀ x ∈ tr, (∃ m, x = Effect.request m) ∨ x = Effect.consoleError) :
    tr.any Effect.isWrite = false ∧ alerts tr = [] := by
  induction tr with
  | nil => simp [alerts]
  | cons x t ih =>
    have ht := ih (fun y hy => h y (List.mem_cons_of_mem _ hy))
    rcases h x (List.mem_cons_self _ _) with ⟨m, rfl⟩ | rfl <;>
      simp [Effect.isWrite, alerts, ht.1, ht.2]

/-- The trace of `enterFullscreen` of `CodeEditorSkeleton` consists of request calls and
console messages. -/
theorem CodeEditorSkeleton.skeleton_enterFullscreen_mem (e : Env) :
    ∀ x ∈ CodeEditorSkeleton.enterFullscreen e,
      (∃ m, x = Effect.request m) ∨ x = Effect.consoleError := by
  obtain ⟨doc, ⟨a, b, c, d⟩⟩ := e
  intro x hx
  unfold CodeEditorSkeleton.enterFullscreen at hx
  split_ifs at hx
  · rcases a with _ | (_ | _ | _) <;> rcases c with _ | (_ | _ | _) <;>
      rcases b with _ | (_ | _ | _) <;> rcases d with _ | (_ | _ | _) <;>
      simp at hx <;> rcases hx with rfl | rfl <;> simp
  · simp at hx

/-- Clearing the ref's interval touches only the live intervals. -/
theorem CodeEditorSkeleton.clearRef_frame (s : CodeEditorSkeleton.State) :
    (CodeEditorSkeleton.clearRef s).1.exitCount = s.exitCount ∧
    (CodeEditorSkeleton.clearRef s).1.location = s.location ∧
    (CodeEditorSkeleton.clearRef s).1.timeouts = s.timeouts ∧
    (CodeEditorSkeleton.clearRef s).1.listeners = s.listeners := by
  unfold CodeEditorSkeleton.clearRef
  split <;> simp

/-- Arming the monitor touches only the intervals, the ref and the timer-id counter. -/
theorem CodeEditorSkeleton.setup_frame (s : CodeEditorSkeleton.State) :
    (CodeEditorSkeleton.setupFullscreenMonitoring s).1.exitCount = s.exitCount ∧
    (CodeEditorSkeleton.setupFullscreenMonitoring s).1.location = s.location ∧
    (CodeEditorSkeleton.setupFullscreenMonitoring s).1.timeouts = s.timeouts ∧
    (CodeEditorSkeleton.setupFullscreenMonitoring s).1.listeners = s.listeners := by
  have h := CodeEditorSkeleton.clearRef_frame s
  simp only [CodeEditorSkeleton.setupFullscreenMonitoring]
  exact h

/-- C15: in `Test`, `CodeEditor` and `CodeEditorSkeleton`, whatever the platform does with
the request (granted, rejected, throwing, no method available), `enterFullscreen` performs
no state write and shows no alert, and every caller of it leaves the violation state as it
was: the click handler and the interval tick of `Test`, the timeouts and the effect body of
`CodeEditor`, the interval tick, the timeouts, the effect body and the tab-visible branch of
`CodeEditorSkeleton`. -/
theorem C15_request_is_not_a_violation :
    ((∀ (e : Env), (Test.enterFullscreen e).any Effect.isWrite = false ∧
        alerts (Test.enterFullscreen e) = []) ∧
      (∀ (s : Test.State) (id : Nat) (e : Env), (Test.step s (Test.Input.tick id e)).1 = s) ∧
      (∀ (s : Test.State) (e : Env), (Test.step s (Test.Input.click e)).1 = s) ∧
      (∀ (s : Test.State) (e : Env),
        (Test.mountEffect e s).1.exitAttempts = s.exitAttempts ∧
        (Test.mountEffect e s).1.isBlocked = s.isBlocked)) ∧
    ((∀ (e : Env), (CodeEditor.enterFullscreen e).1.any Effect.isWrite = false ∧
        alerts (CodeEditor.enterFullscreen e).1 = []) ∧
      (∀ (s : CodeEditor.State) (n : Nat) (e : Env),
        (CodeEditor.step s (CodeEditor.Input.fire n e)).1.exitCount = s.exitCount ∧
        (CodeEditor.step s (CodeEditor.Input.fire n e)).1.isBlocked = s.isBlocked) ∧
      (∀ (s : CodeEditor.State) (e : Env),
        (CodeEditor.effectBody e s).1.exitCount = s.exitCount ∧
        (CodeEditor.effectBody e s).1.isBlocked = s.isBlocked)) ∧
    ((∀ (e : Env), (CodeEditorSkeleton.enterFullscreen e).any Effect.isWrite = false ∧
        alerts (CodeEditorSkeleton.enterFullscreen e) = []) ∧
      (∀ (s : CodeEditorSkeleton.State) (id : Nat) (e : Env),
        (CodeEditorSkeleton.step s (CodeEditorSkeleton.Input.tick id e)).1 = s) ∧
      (∀ (s : CodeEditorSkeleton.State) (n : Nat) (e : Env),
        (CodeEditorSkeleton.step s (CodeEditorSkeleton.Input.fire n e)).1.exitCount
          = s.exitCount ∧
        (CodeEditorSkeleton.step s (CodeEditorSkeleton.Input.fire n e)).1.location
          = s.location) ∧
      (∀ (s : CodeEditorSkeleton.State) (e : Env),
        (CodeEditorSkeleton.effectBody e s).1.exitCount = s.exitCount ∧
        (CodeEditorSkeleton.effectBody e s).1.location = s.location) ∧
      (∀ (s : CodeEditorSkeleton.State) (c : Nat) (e : Env),
        e.doc.visibilityState = Visibility.visible →
        CodeEditorSkeleton.handleVisibilityChange c e s
          = (s, CodeEditorSkeleton.enterFullscreen e))) := by
  refine ⟨⟨?_, ?_, ?_, ?_⟩, ⟨?_, ?_, ?_⟩, ⟨?_, ?_, ?_, ?_, ?_⟩⟩
  · exact fun e => platform_trace_no_write _ (Test.enterFullscreen_mem e)
  · intro s id e
    simp only [Test.step]
    split_ifs <;> rfl
  · intro s e
    simp only [Test.step]
    split_ifs <;> rfl
  · intro s e
    simp [Test.mountEffect]
  · exact fun e => platform_trace_no_write _ (CodeEditor.editor_enterFullscreen_mem e)
  · intro s n e
    simp only [CodeEditor.step]
    split <;> simp
  · intro s e
    exact ⟨(CodeEditor.effect_frame e s).2.1, (CodeEditor.effect_frame e s).1⟩
  · exact fun e => platform_trace_no_write _ (CodeEditorSkeleton.skeleton_enterFullscreen_mem e)
  · intro s id e
    simp only [CodeEditorSkeleton.step]
    split_ifs <;> rfl
  · intro s n e
    simp only [CodeEditorSkeleton.step]
    split
    · rename_i cb d hget
      have h := CodeEditorSkeleton.runTimeout_frame cb e
        { s with timeouts := s.timeouts.eraseIdx n }
      exact ⟨h.2.1, h.2.2.2.2.2.2⟩
    · simp
  · intro s e
    have h1 := CodeEditorSkeleton.setup_frame (CodeEditorSkeleton.clearRef s).1
    have h0 := CodeEditorSkeleton.clearRef_frame s
    simp only [CodeEditorSkeleton.effectBody]
    exact ⟨h1.1.trans h0.1, h1.2.1.trans h0.2.1⟩
  · intro s c e hv
    simp [CodeEditorSkeleton.handleVisibilityChange, hv]

/-- C15 at a concrete input: the tab becomes visible again on a platform whose request
method throws; the skeleton's handler calls `enterFullscreen` and the state is unchanged. -/
theorem C15_request_is_not_a_violation_witness :
    envThrowing.doc.visibilityState = Visibility.visible ∧
    CodeEditorSkeleton.handleVisibilityChange 0 envThrowing
        (CodeEditorSkeleton.mount envFullscreen).1
      = ((CodeEditorSkeleton.mount envFullscreen).1,
         CodeEditorSkeleton.enterFullscreen envThrowing) :=
  ⟨by decide,
   C15_request_is_not_a_violation.2.2.2.2.2.2 (CodeEditorSkeleton.mount envFullscreen).1 0
     envThrowing (by decide)⟩

/-! ### C16: which `enterFullscreen` absorbs a platform failure -/

/-- C16 at its failing inputs, and what the code does in general.  On a platform without the
standard `requestFullscreen` (webkit only), and on one whose `requestFullscreen` throws, a
document that is not in fullscreen makes `enterFullscreen` of `CodeEditor` throw: the mount
effect stops before registering any listener and the component is unmounted.  On the same
platforms `enterFullscreen` of `Test` and of `CodeEditorSkeleton` return normally.  In
general `enterFullscreen` of `CodeEditor` throws exactly when the document has no fullscreen
element and the standard method is missing or throws. -/
theorem C16_codeeditor_enterFullscreen_throws :
    ((CodeEditor.enterFullscreen envWebkitExited).2 = true ∧
      (CodeEditor.mount envWebkitExited).1.listeners = [] ∧
      (CodeEditor.mount envWebkitExited).1.mounted = false ∧
      (CodeEditor.enterFullscreen envThrowing).2 = true ∧
      (CodeEditor.mount envThrowing).1.listeners = [] ∧
      (CodeEditor.mount envThrowing).1.mounted = false) ∧
    (Test.enterFullscreen envWebkitExited
        = [Effect.request RequestMethod.webkitRequestFullscreen] ∧
      Test.enterFullscreen envThrowing
        = [Effect.request RequestMethod.requestFullscreen, Effect.consoleError] ∧
      CodeEditorSkeleton.enterFullscreen envWebkitExited
        = [Effect.request RequestMethod.webkitRequestFullscreen] ∧
      CodeEditorSkeleton.enterFullscreen envThrowing
        = [Effect.request RequestMethod.requestFullscreen, Effect.consoleError]) ∧
    (∀ (e : Env), (CodeEditor.enterFullscreen e).2 = true ↔
      (e.doc.fullscreenElement = false ∧
        (e.root.requestFullscreen = none ∨
          e.root.requestFullscreen = some CallOutcome.throws))) := by
  refine ⟨by decide, by decide, ?_⟩
  intro e
  unfold CodeEditor.enterFullscreen
  cases hf : e.doc.fullscreenElement <;> rcases hr : e.root.requestFullscreen with _ | (_ | _ | _) <;>
    simp

/-! ### C17: one tick of the reentry timer -/

/-- With the standard request method available, `enterFullscreen` of `Test` makes exactly
that request. -/
theorem Test.enterFullscreen_requests (e : Env) (o : CallOutcome)
    (h : e.root.requestFullscreen = some o) :
    requests (Test.enterFullscreen e) = [RequestMethod.requestFullscreen] := by
  cases o <;> simp [Test.enterFullscreen, h, Test.callInTry, requests]

/-- With the standard request method available and no fullscreen element,
`enterFullscreen` of `CodeEditorSkeleton` makes exactly that request. -/
theorem CodeEditorSkeleton.skeleton_enterFullscreen_requests (e : Env) (o : CallOutcome)
    (h : e.root.requestFullscreen = some o) (hf : e.doc.fullscreenElement = false) :
    requests (CodeEditorSkeleton.enterFullscreen e) = [RequestMethod.requestFullscreen] := by
  cases o <;> simp [CodeEditorSkeleton.enterFullscreen, h, hf, requests]

/-- C17 fails as stated for `CodeEditorSkeleton`: with the page hidden and the document not
in fullscreen, the tick of the live interval does nothing, although `enterFullscreen` called
in that environment would request fullscreen. -/
theorem C17_reentry_tick_counterexample :
    1 ∈ (CodeEditorSkeleton.mount envFullscreen).1.intervals ∧
    Test.checkFullscreen envHiddenExited.doc = false ∧
    (CodeEditorSkeleton.step (CodeEditorSkeleton.mount envFullscreen).1
      (CodeEditorSkeleton.Input.tick 1 envHiddenExited)).2 = [] ∧
    CodeEditorSkeleton.enterFullscreen envHiddenExited
      = [Effect.request RequestMethod.requestFullscreen] := by
  decide

/-- C17 as amended: one tick of the reentry interval of `Test` calls `enterFullscreen` if and
only if the document is not in fullscreen (none of the four indicators set); one tick of the
interval of `CodeEditorSkeleton` calls `enterFullscreen` if and only if the document is not
in fullscreen and the page is visible (for a document whose fullscreen state shows in the
standard `fullscreenElement`).  Neither tick changes the component state, and both intervals
are armed with period 1000 ms.  Where the standard request method exists, a request is made
in exactly those cases. -/
theorem C17_reentry_tick :
    (∀ (s : Test.State) (id : Nat) (e : Env), id ∈ s.intervals →
      Test.step s (Test.Input.tick id e) =
        (s, if Test.checkFullscreen e.doc then [] else Test.enterFullscreen e)) ∧
    (∀ (s : Test.State) (id : Nat) (e : Env) (o : CallOutcome), id ∈ s.intervals →
      e.root.requestFullscreen = some o →
      (requests (Test.step s (Test.Input.tick id e)).2 = [RequestMethod.requestFullscreen] ↔
        Test.checkFullscreen e.doc = false)) ∧
    (∀ (s : CodeEditorSkeleton.State) (id : Nat) (e : Env), id ∈ s.intervals →
      Test.checkFullscreen e.doc = e.doc.fullscreenElement →
      CodeEditorSkeleton.step s (CodeEditorSkeleton.Input.tick id e) =
        (s, if Test.checkFullscreen e.doc = false ∧ e.doc.visibilityState = Visibility.visible
            then CodeEditorSkeleton.enterFullscreen e else [])) ∧
    (∀ (s : CodeEditorSkeleton.State) (id : Nat) (e : Env) (o : CallOutcome),
      id ∈ s.intervals → Test.checkFullscreen e.doc = e.doc.fullscreenElement →
      e.root.requestFullscreen = some o →
      (requests (CodeEditorSkeleton.step s (CodeEditorSkeleton.Input.tick id e)).2
          = [RequestMethod.requestFullscreen] ↔
        (Test.checkFullscreen e.doc = false ∧ e.doc.visibilityState = Visibility.visible))) ∧
    (∀ (e : Env), Effect.setInterval 1 1000 ∈ (Test.mount e).2 ∧
      (Test.mount e).1.intervals = [1]) ∧
    (∀ (e : Env), Effect.setInterval 1 1000 ∈ (CodeEditorSkeleton.mount e).2 ∧
      (CodeEditorSkeleton.mount e).1.intervals = [1]) := by
  refine ⟨?_, ?_, ?_, ?_, ?_, ?_⟩
  · intro s id e hid
    simp only [Test.step, hid, if_true, Test.checkAndEnterFullscreen]
    cases Test.checkFullscreen e.doc <;> simp
  · intro s id e o hid ho
    simp only [Test.step, hid, if_true, Test.checkAndEnterFullscreen]
    cases hc : Test.checkFullscreen e.doc
    · simp [Test.enterFullscreen_requests e o ho]
    · simp [requests]
  · intro s id e hid hstd
    simp only [CodeEditorSkeleton.step, hid, if_true, CodeEditorSkeleton.intervalCallback, hstd]
    cases e.doc.fullscreenElement <;> cases e.doc.visibilityState <;> simp
  · intro s id e o hid hstd ho
    simp only [CodeEditorSkeleton.step, hid, if_true, CodeEditorSkeleton.intervalCallback, hstd]
    cases hf : e.doc.fullscreenElement <;> cases hv : e.doc.visibilityState <;>
      simp [requests, CodeEditorSkeleton.skeleton_enterFullscreen_requests e o ho, hf]
  · intro e
    simp [Test.mount, Test.mountEffect, Test.reentryEffect, Test.init]
  · intro e
    have h := CodeEditorSkeleton.effectBody_spec e
      { CodeEditorSkeleton.init with mounted := true } rfl (Or.inl rfl)
    refine ⟨?_, ?_⟩
    · simp [CodeEditorSkeleton.mount, CodeEditorSkeleton.effectBody,
        CodeEditorSkeleton.setupFullscreenMonitoring, CodeEditorSkeleton.clearRef,
        CodeEditorSkeleton.init]
    · unfold CodeEditorSkeleton.mount
      rw [h]
      rfl

/-- C17 as amended, at concrete inputs: the interval of a freshly mounted `Test` and of a
freshly mounted `CodeEditorSkeleton` ticking while the page is visible and not in
fullscreen. -/
theorem C17_reentry_tick_witness :
    (1 ∈ (Test.mount envFullscreen).1.intervals ∧
      Test.step (Test.mount envFullscreen).1 (Test.Input.tick 1 envExited) =
        ((Test.mount envFullscreen).1,
          if Test.checkFullscreen envExited.doc then [] else Test.enterFullscreen envExited)) ∧
    (1 ∈ (CodeEditorSkeleton.mount envFullscreen).1.intervals ∧
      Test.checkFullscreen envExited.doc = envExited.doc.fullscreenElement ∧
      envExited.root.requestFullscreen = some CallOutcome.granted ∧
      (requests (CodeEditorSkeleton.step (CodeEditorSkeleton.mount envFullscreen).1
          (CodeEditorSkeleton.Input.tick 1 envExited)).2 = [RequestMethod.requestFullscreen] ↔
        (Test.checkFullscreen envExited.doc = false ∧
          envExited.doc.visibilityState = Visibility.visible))) :=
  ⟨⟨by decide,
    C17_reentry_tick.1 (Test.mount envFullscreen).1 1 envExited (by decide)⟩,
   ⟨by decide, by decide, by decide,
    C17_reentry_tick.2.2.2.1 (CodeEditorSkeleton.mount envFullscreen).1 1 envExited
      CallOutcome.granted (by decide) (by decide) (by decide)⟩⟩

/-! ### C18: counts never decrease -/

/-- No step of `Test` lowers `exitAttempts`, from any state. -/
theorem Test.step_count_mono (s : Test.State) (i : Test.Input) :
    s.exitAttempts ≤ (Test.step s i).1.exitAttempts := by
  cases i with
  | event ev e =>
    refine (runListeners_induct Test.runHandler (fun a b => a.exitAttempts ≤ b.exitAttempts)
      (fun _ => True) (fun _ => le_refl _) (fun _ _ _ h1 h2 => le_trans h1 h2) ?_
      (fun _ _ _ _ _ _ => trivial) s.listeners ev e s).1
    intro h ev e s
    cases h
    · have hf := (Test.handleFullscreenExit_frame s e).2
      simp only [Test.runHandler, hf]
      split_ifs <;> omega
    · exact le_refl _
    · exact le_refl _
    · simp only [Test.runHandler, Test.preventKeyboardShortcuts]
      split_ifs <;> exact le_refl _
  | tick id e =>
    simp only [Test.step]
    split_ifs <;> exact le_refl _
  | render =>
    simp only [Test.step]
    split_ifs
    · cases hr : s.reentryCleanup <;> cases hb : s.isBlocked <;>
        simp [Test.reentryCleanupRun, Test.reentryEffect, hr, hb]
    · exact le_refl _
  | click e =>
    simp only [Test.step]
    split_ifs <;> exact le_refl _
  | unmount =>
    simp only [Test.step]
    split_ifs
    · cases hr : s.reentryCleanup <;> simp [Test.mountCleanup, Test.reentryCleanupRun, hr]
    · exact le_refl _

/-- No step of `CodeEditor` lowers `exitCount` in a state that satisfies the invariant. -/
theorem CodeEditor.editor_step_count_mono (s : CodeEditor.State) (i : CodeEditor.Input)
    (hs : CodeEditor.Inv s) : s.exitCount ≤ (CodeEditor.step s i).1.exitCount := by
  cases i with
  | event ev e =>
    simp only [CodeEditor.step]
    rcases hs with ⟨_, c, _, hl, _, hle, hge⟩ | ⟨_, _, hl⟩
    · rcases CodeEditor.editor_dispatch_count ev e s c hl with h | h <;> omega
    · rw [CodeEditor.editor_dispatch_nil ev e s hl]
  | fire n e =>
    simp only [CodeEditor.step]
    split <;> simp
  | render e =>
    simp only [CodeEditor.step]
    split_ifs
    · rw [(CodeEditor.effect_frame e _).2.1, (CodeEditor.effect_frame e s).2.2.2.1]
    · exact le_refl _
  | unmount =>
    simp only [CodeEditor.step]
    split_ifs
    · exact le_of_eq (CodeEditor.effect_frame envFullscreen s).2.2.2.1.symm
    · exact le_refl _

/-- The cleanup and the effect body of `CodeEditorSkeleton` leave `exitCount` alone. -/
theorem CodeEditorSkeleton.skeleton_effect_count (e : Env) (s : CodeEditorSkeleton.State) :
    (CodeEditorSkeleton.effectCleanup s).1.exitCount = s.exitCount ∧
    (CodeEditorSkeleton.effectBody e s).1.exitCount = s.exitCount := by
  constructor
  · unfold CodeEditorSkeleton.effectCleanup
    split
    · exact (CodeEditorSkeleton.clearRef_frame _).1
    · rfl
  · have h1 := CodeEditorSkeleton.setup_frame (CodeEditorSkeleton.clearRef s).1
    have h0 := CodeEditorSkeleton.clearRef_frame s
    simp only [CodeEditorSkeleton.effectBody]
    exact h1.1.trans h0.1

/-- No step of `CodeEditorSkeleton` lowers `exitCount` in a state that satisfies the
invariant. -/
theorem CodeEditorSkeleton.skeleton_step_count_mono (s : CodeEditorSkeleton.State)
    (i : CodeEditorSkeleton.Input) (hs : CodeEditorSkeleton.Inv s) :
    s.exitCount ≤ (CodeEditorSkeleton.step s i).1.exitCount := by
  cases i with
  | event ev e =>
    simp only [CodeEditorSkeleton.step]
    rcases hs.2 with ⟨_, c, _, hl, _, hle, hge⟩ | ⟨_, _, hl⟩
    · rcases CodeEditorSkeleton.skeleton_dispatch_count ev e s c hl with h | h <;> omega
    · simp [CodeEditorSkeleton.dispatch, hl, runListeners]
  | tick id e =>
    simp only [CodeEditorSkeleton.step]
    split_ifs <;> exact le_refl _
  | fire n e =>
    simp only [CodeEditorSkeleton.step]
    split
    · rename_i cb d hget
      exact le_of_eq (CodeEditorSkeleton.runTimeout_frame cb e
        { s with timeouts := s.timeouts.eraseIdx n }).2.1.symm
    · exact le_refl _
  | render e =>
    simp only [CodeEditorSkeleton.step]
    split_ifs
    · rw [(CodeEditorSkeleton.skeleton_effect_count e _).2,
        (CodeEditorSkeleton.skeleton_effect_count e s).1]
    · exact le_refl _
  | unmount =>
    simp only [CodeEditorSkeleton.step]
    split_ifs
    · exact le_of_eq (CodeEditorSkeleton.skeleton_effect_count envFullscreen s).1.symm
    · exact le_refl _

/-- C18: in `Test`, `CodeEditor` and `CodeEditorSkeleton`, for every state reached from a
mount by any sequence of inputs (events, timer callbacks, re-renders with their effect
re-runs, unmount, in any interleaving) and every further input, the violation count after
the step is at least the count before it. -/
theorem C18_counts_never_decrease :
    (∀ (e : Env) (is : List Test.Input) (i : Test.Input),
      (Test.reach e is).exitAttempts ≤ (Test.step (Test.reach e is) i).1.exitAttempts) ∧
    (∀ (e : Env) (is : List CodeEditor.Input) (i : CodeEditor.Input),
      (CodeEditor.reach e is).exitCount
        ≤ (CodeEditor.step (CodeEditor.reach e is) i).1.exitCount) ∧
    (∀ (e : Env) (is : List CodeEditorSkeleton.Input) (i : CodeEditorSkeleton.Input),
      (CodeEditorSkeleton.reach e is).exitCount
        ≤ (CodeEditorSkeleton.step (CodeEditorSkeleton.reach e is) i).1.exitCount) :=
  ⟨fun _ _ i => Test.step_count_mono _ i,
   fun e is i => CodeEditor.editor_step_count_mono _ i (CodeEditor.reach_inv e is),
   fun e is i =>
     CodeEditorSkeleton.skeleton_step_count_mono _ i (CodeEditorSkeleton.skeleton_reach_inv e is)⟩

/-! ### C19: what the cleanups release -/

/-- The cleanup of the mount effect of `Test` undoes its registrations on any registry that
does not already hold one of the nine pairs. -/
theorem Test.unregister_register (reg : List (EventType × Test.Handler))
    (hfresh : ∀ p ∈ Test.registerAll [], p ∉ reg) :
    Test.registerAll reg = reg ++ Test.registerAll [] ∧
    Test.unregisterAll (Test.registerAll reg) = reg := by
  rw [Test.registerAll_nil] at hfresh ⊢
  simp only [List.mem_cons, List.mem_singleton, List.not_mem_nil, or_false, forall_eq_or_imp,
    forall_eq] at hfresh
  obtain ⟨h1, h2, h3, h4, h5, h6, h7, h8, h9⟩ := hfresh
  constructor
  · simp [Test.registerAll, addEventListener, h1, h2, h3, h4, h5, h6, h7, h8, h9]
  · simp [Test.registerAll, Test.unregisterAll, addEventListener, removeEventListener, h1, h2,
      h3, h4, h5, h6, h7, h8, h9, List.erase_append_right]

/-- The effect body of `CodeEditorSkeleton` on a registry that holds none of the five pairs
of this run and with no interval live: the five pairs are appended and one interval is armed,
whose id the ref holds. -/
theorem CodeEditorSkeleton.effectBody_fresh (e : Env) (s : CodeEditorSkeleton.State)
    (hfresh : ∀ p ∈ CodeEditorSkeleton.subscribed s.exitCount, p ∉ s.listeners)
    (hi : s.intervals = []) :
    (CodeEditorSkeleton.effectBody e s).1 =
      { s with listeners := s.listeners ++ CodeEditorSkeleton.subscribed s.exitCount,
               cleanup := some s.exitCount, depExitCount := s.exitCount,
               intervals := [s.nextTimerId], fullscreenAttemptRef := some s.nextTimerId,
               nextTimerId := s.nextTimerId + 1 } := by
  have h0 := CodeEditorSkeleton.clearRef_spec s (Or.inl hi)
  have hi1 : CodeEditorSkeleton.OneInterval (CodeEditorSkeleton.clearRef s).1 :=
    Or.inl h0.1
  have h1 := CodeEditorSkeleton.setup_spec _ hi1
  simp only [CodeEditorSkeleton.subscribed, List.mem_cons, List.mem_singleton,
    List.not_mem_nil, or_false, forall_eq_or_imp, forall_eq] at hfresh
  obtain ⟨f1, f2, f3, f4, f5⟩ := hfresh
  simp only [CodeEditorSkeleton.effectBody, h1]
  rw [h0.2]
  simp [CodeEditorSkeleton.subscribed, addEventListener, f1, f2, f3, f4, f5]

/-- C19: in `Test`, `CodeEditor` and `CodeEditorSkeleton`, on every listener registry that
does not already hold the (event type, handler) pairs of this effect run (its handlers are
newly created functions), the effect body appends exactly its pairs and the cleanup removes
exactly those, leaving the registry as it was; and the interval the effect created is
cleared, so that starting without a live interval none is live after the cleanup. -/
theorem C19_release_on_teardown :
    (∀ (s : Test.State) (e : Env), (∀ p ∈ Test.registerAll [], p ∉ s.listeners) →
      (Test.mountEffect e s).1.listeners = s.listeners ++ Test.registerAll [] ∧
      (Test.mountCleanup (Test.mountEffect e s).1).1.listeners = s.listeners) ∧
    (∀ (s : Test.State), s.intervals = [] →
      (s.isBlocked = false → (Test.reentryEffect s).1.intervals = [s.nextTimerId]) ∧
      (Test.reentryCleanupRun (Test.reentryEffect s).1).1.intervals = []) ∧
    (∀ (s : CodeEditor.State) (e : Env),
      (∀ p ∈ CodeEditor.subscribed s.exitCount, p ∉ s.listeners) →
      ((CodeEditor.enterFullscreen e).2 = false →
        (CodeEditor.effectBody e s).1.listeners
          = s.listeners ++ CodeEditor.subscribed s.exitCount) ∧
      (CodeEditor.effectCleanup (CodeEditor.effectBody e s).1).listeners = s.listeners) ∧
    (∀ (s : CodeEditorSkeleton.State) (e : Env),
      (∀ p ∈ CodeEditorSkeleton.subscribed s.exitCount, p ∉ s.listeners) →
      s.intervals = [] →
      (CodeEditorSkeleton.effectBody e s).1.listeners
        = s.listeners ++ CodeEditorSkeleton.subscribed s.exitCount ∧
      (CodeEditorSkeleton.effectBody e s).1.intervals = [s.nextTimerId] ∧
      (CodeEditorSkeleton.effectCleanup (CodeEditorSkeleton.effectBody e s).1).1.listeners
        = s.listeners ∧
      (CodeEditorSkeleton.effectCleanup (CodeEditorSkeleton.effectBody e s).1).1.intervals
        = []) := by
  refine ⟨?_, ?_, ?_, ?_⟩
  · intro s e hf
    have h := Test.unregister_register s.listeners hf
    simp only [Test.mountEffect, Test.mountCleanup]
    exact h
  · intro s hi
    cases hb : s.isBlocked <;> simp [Test.reentryEffect, Test.reentryCleanupRun, hi, hb]
  · intro s e hf
    simp only [CodeEditor.subscribed, List.mem_cons, List.mem_singleton, List.not_mem_nil,
      or_false, forall_eq_or_imp, forall_eq] at hf
    obtain ⟨f1, f2⟩ := hf
    by_cases he : (CodeEditor.enterFullscreen e).2 = true
    · simp [CodeEditor.effectBody, he, CodeEditor.effectCleanup]
    · simp [CodeEditor.effectBody, he, CodeEditor.effectCleanup, CodeEditor.subscribed,
        addEventListener, removeEventListener, f1, f2, List.erase_append_right]
  · intro s e hf hi
    have hb := CodeEditorSkeleton.effectBody_fresh e s hf hi
    simp only [CodeEditorSkeleton.subscribed, List.mem_cons, List.mem_singleton,
      List.not_mem_nil, or_false, forall_eq_or_imp, forall_eq] at hf
    obtain ⟨f1, f2, f3, f4, f5⟩ := hf
    rw [hb]
    refine ⟨rfl, rfl, ?_, ?_⟩
    · simp [CodeEditorSkeleton.effectCleanup, CodeEditorSkeleton.clearRef,
        CodeEditorSkeleton.subscribed, removeEventListener, f1, f2, f3, f4, f5,
        List.erase_append_right]
    · simp [CodeEditorSkeleton.effectCleanup, CodeEditorSkeleton.clearRef]

/-- C19 at concrete inputs: the effects of the three components run on their initial states
(empty registry, no interval) and are then cleaned up. -/
theorem C19_release_on_teardown_witness :
    ((∀ p ∈ Test.registerAll [], p ∉ Test.init.listeners) ∧
      (Test.mountCleanup (Test.mountEffect envExited Test.init).1).1.listeners
        = Test.init.listeners) ∧
    (Test.init.intervals = [] ∧
      (Test.reentryCleanupRun (Test.reentryEffect Test.init).1).1.intervals = []) ∧
    ((∀ p ∈ CodeEditor.subscribed CodeEditor.init.exitCount, p ∉ CodeEditor.init.listeners) ∧
      (CodeEditor.effectCleanup (CodeEditor.effectBody envExited CodeEditor.init).1).listeners
        = CodeEditor.init.listeners) ∧
    ((∀ p ∈ CodeEditorSkeleton.subscribed CodeEditorSkeleton.init.exitCount,
        p ∉ CodeEditorSkeleton.init.listeners) ∧
      CodeEditorSkeleton.init.intervals = [] ∧
      (CodeEditorSkeleton.effectCleanup
        (CodeEditorSkeleton.effectBody envExited CodeEditorSkeleton.init).1).1.intervals = []) :=
  ⟨⟨by decide,
    (C19_release_on_teardown.1 Test.init envExited (by decide)).2⟩,
   ⟨by decide,
    (C19_release_on_teardown.2.1 Test.init (by decide)).2⟩,
   ⟨by decide,
    (C19_release_on_teardown.2.2.1 CodeEditor.init envExited (by decide)).2⟩,
   ⟨by decide, by decide,
    (C19_release_on_teardown.2.2.2 CodeEditorSkeleton.init envExited (by decide)
      (by decide)).2.2.2⟩⟩

/-! ### C20: vendor-prefixed fullscreen indicators -/

/-- C20 at its failing input, and what the code does in general.  On a webkit-only platform
the document is in fullscreen with `webkitFullscreenElement` set and `fullscreenElement`
null.  A `webkitfullscreenchange` notification handled there by `Test` changes nothing and
raises nothing, but handled by `CodeEditorSkeleton` it raises `exitCount` from 0 to 1, shows
the fullscreen-exit warning and schedules the re-entry timeouts.  In general the skeleton's
handler counts exactly when `fullscreenElement` is null, whatever the three prefixed
indicators say, while `Test` counts exactly when all four are null. -/
theorem C20_skeleton_reads_standard_indicator_only :
    (Test.checkFullscreen envWebkitFullscreen.doc = true ∧
      Test.step (Test.mount envWebkitFullscreen).1
        (Test.Input.event (plainEvent EventType.webkitfullscreenchange) envWebkitFullscreen)
        = ((Test.mount envWebkitFullscreen).1, []) ∧
      (CodeEditorSkeleton.mount envWebkitFullscreen).1.exitCount = 0 ∧
      (CodeEditorSkeleton.step (CodeEditorSkeleton.mount envWebkitFullscreen).1
        (CodeEditorSkeleton.Input.event (plainEvent EventType.webkitfullscreenchange)
          envWebkitFullscreen)).1.exitCount = 1 ∧
      alerts (CodeEditorSkeleton.step (CodeEditorSkeleton.mount envWebkitFullscreen).1
        (CodeEditorSkeleton.Input.event (plainEvent EventType.webkitfullscreenchange)
          envWebkitFullscreen)).2 = [Alert.exitedFullscreen 1 3]) ∧
    (∀ (c : Nat) (s : CodeEditorSkeleton.State) (e : Env),
      (CodeEditorSkeleton.handleFullscreenChange c e s).1.exitCount =
        if e.doc.fullscreenElement then s.exitCount else c + 1) ∧
    (∀ (s : Test.State) (e : Env),
      (Test.handleFullscreenExit e s).1.exitAttempts =
        if e.doc.fullscreenElement || e.doc.webkitFullscreenElement ||
            e.doc.mozFullScreenElement || e.doc.msFullscreenElement
        then s.exitAttempts else s.exitAttempts + 1) := by
  refine ⟨by decide, ?_, ?_⟩
  · intro c s e
    cases hf : e.doc.fullscreenElement
    · exact (by simpa using
        (CodeEditorSkeleton.skeleton_handleFullscreenChange_spec c s e hf).1)
    · simp [CodeEditorSkeleton.handleFullscreenChange, hf]
  · intro s e
    exact (Test.handleFullscreenExit_frame s e).2

/-! ### C21: which request method is called -/

/-- What `enterFullscreen` of `Test` requests: the first method that exists, in the order
standard, moz, webkit, ms; nothing when none exists. -/
theorem Test.enterFullscreen_selection (e : Env) :
    requests (Test.enterFullscreen e) =
      if e.root.requestFullscreen.isSome then [RequestMethod.requestFullscreen]
      else if e.root.mozRequestFullScreen.isSome then [RequestMethod.mozRequestFullScreen]
      else if e.root.webkitRequestFullscreen.isSome then
        [RequestMethod.webkitRequestFullscreen]
      else if e.root.msRequestFullscreen.isSome then [RequestMethod.msRequestFullscreen]
      else [] := by
  obtain ⟨doc, ⟨a, b, c, d⟩⟩ := e
  rcases a with _ | (_ | _ | _) <;> rcases b with _ | (_ | _ | _) <;>
    rcases c with _ | (_ | _ | _) <;> rcases d with _ | (_ | _ | _) <;>
    simp [Test.enterFullscreen, Test.callInTry, requests]

/-- What `enterFullscreen` of `CodeEditorSkeleton` requests when there is no fullscreen
element: the first method that exists, in the order standard, webkit, moz, ms; nothing when
none exists. -/
theorem CodeEditorSkeleton.skeleton_enterFullscreen_selection (e : Env)
    (hf : e.doc.fullscreenElement = false) :
    requests (CodeEditorSkeleton.enterFullscreen e) =
      if e.root.requestFullscreen.isSome then [RequestMethod.requestFullscreen]
      else if e.root.webkitRequestFullscreen.isSome then
        [RequestMethod.webkitRequestFullscreen]
      else if e.root.mozRequestFullScreen.isSome then [RequestMethod.mozRequestFullScreen]
      else if e.root.msRequestFullscreen.isSome then [RequestMethod.msRequestFullscreen]
      else [] := by
  obtain ⟨doc, ⟨a, b, c, d⟩⟩ := e
  simp only at hf
  rcases a with _ | (_ | _ | _) <;> rcases b with _ | (_ | _ | _) <;>
    rcases c with _ | (_ | _ | _) <;> rcases d with _ | (_ | _ | _) <;>
    simp [CodeEditorSkeleton.enterFullscreen, hf, requests]

/-- The consequences of picking the first existing method from a list of candidates that
covers all four: one request when any method exists and none otherwise, the requested method
exists, and the standard method is the one requested whenever it exists. -/
theorem request_selection_facts (r : RootElement) (tr : List RequestMethod)
    (m2 m3 m4 : RequestMethod)
    (hperm : (m2 = RequestMethod.mozRequestFullScreen ∧ m3 = RequestMethod.webkitRequestFullscreen)
      ∨ (m2 = RequestMethod.webkitRequestFullscreen ∧ m3 = RequestMethod.mozRequestFullScreen))
    (h4 : m4 = RequestMethod.msRequestFullscreen)
    (htr : tr = if r.has RequestMethod.requestFullscreen then [RequestMethod.requestFullscreen]
      else if r.has m2 then [m2] else if r.has m3 then [m3] else if r.has m4 then [m4] else []) :
    tr.length = (if r.hasAny then 1 else 0) ∧ (∀ m ∈ tr, r.has m = true) ∧
    (r.requestFullscreen.isSome = true → tr = [RequestMethod.requestFullscreen]) := by
  subst h4
  subst htr
  rcases hperm with ⟨rfl, rfl⟩ | ⟨rfl, rfl⟩ <;>
    cases ha : r.requestFullscreen.isSome <;> cases hb : r.mozRequestFullScreen.isSome <;>
    cases hc : r.webkitRequestFullscreen.isSome <;> cases hd : r.msRequestFullscreen.isSome <;>
    simp [RootElement.has, RootElement.hasAny, ha, hb, hc, hd]

/-- C21: for every platform, `enterFullscreen` of `Test` and, when the document has no
fullscreen element, `enterFullscreen` of `CodeEditorSkeleton` call exactly one request
method when at least one of the four exists on the root element and none when none exists;
the method called exists, and it is the standard one whenever that exists. -/
theorem C21_request_variant_selection :
    (∀ (e : Env),
      (requests (Test.enterFullscreen e)).length = (if e.root.hasAny then 1 else 0) ∧
      (∀ m ∈ requests (Test.enterFullscreen e), e.root.has m = true) ∧
      (e.root.requestFullscreen.isSome = true →
        requests (Test.enterFullscreen e) = [RequestMethod.requestFullscreen])) ∧
    (∀ (e : Env), e.doc.fullscreenElement = false →
      (requests (CodeEditorSkeleton.enterFullscreen e)).length
        = (if e.root.hasAny then 1 else 0) ∧
      (∀ m ∈ requests (CodeEditorSkeleton.enterFullscreen e), e.root.has m = true) ∧
      (e.root.requestFullscreen.isSome = true →
        requests (CodeEditorSkeleton.enterFullscreen e)
          = [RequestMethod.requestFullscreen])) := by
  refine ⟨?_, ?_⟩
  · intro e
    exact request_selection_facts e.root _ RequestMethod.mozRequestFullScreen
      RequestMethod.webkitRequestFullscreen RequestMethod.msRequestFullscreen
      (Or.inl ⟨rfl, rfl⟩) rfl (Test.enterFullscreen_selection e)
  · intro e hf
    exact request_selection_facts e.root _ RequestMethod.webkitRequestFullscreen
      RequestMethod.mozRequestFullScreen RequestMethod.msRequestFullscreen
      (Or.inr ⟨rfl, rfl⟩) rfl (CodeEditorSkeleton.skeleton_enterFullscreen_selection e hf)

/-- C21 at concrete inputs: on a platform with the three prefixed methods only, `Test` calls
the moz-prefixed one and `CodeEditorSkeleton` the webkit-prefixed one, each exactly one. -/
theorem C21_request_variant_selection_witness :
    (requests (Test.enterFullscreen envPrefixedExited) = [RequestMethod.mozRequestFullScreen] ∧
      (requests (Test.enterFullscreen envPrefixedExited)).length
        = (if envPrefixedExited.root.hasAny then 1 else 0)) ∧
    (envPrefixedExited.doc.fullscreenElement = false ∧
      requests (CodeEditorSkeleton.enterFullscreen envPrefixedExited)
        = [RequestMethod.webkitRequestFullscreen] ∧
      (requests (CodeEditorSkeleton.enterFullscreen envPrefixedExited)).length
        = (if envPrefixedExited.root.hasAny then 1 else 0)) :=
  ⟨⟨by decide, (C21_request_variant_selection.1 envPrefixedExited).1⟩,
   ⟨by decide, by decide,
    (C21_request_variant_selection.2 envPrefixedExited (by decide)).1⟩⟩

/-! ### C22: what the keydown handler of `Test` leaves alone -/

/-- C22: in `Test`, for every keydown event that is not Ctrl held together with a key equal
to lower-case `c`, `v` or `x`, `preventKeyboardShortcuts` does nothing: the default action is
not prevented and no alert is shown, as the handler itself and as the listener registered for
keydown.  For every keydown event whatsoever the handler leaves the component state, in
particular `exitAttempts` and `isBlocked`, unchanged. -/
theorem C22_no_keyboard_over_blocking :
    (∀ (s : Test.State) (ev : Event),
      ¬ (ev.ctrlKey = true ∧ (ev.key = "c" ∨ ev.key = "v" ∨ ev.key = "x")) →
      Test.preventKeyboardShortcuts ev s = (s, [])) ∧
    (∀ (s : Test.State) (ev : Event) (e : Env), s.listeners = Test.registerAll [] →
      ev.type = EventType.keydown →
      ¬ (ev.ctrlKey = true ∧ (ev.key = "c" ∨ ev.key = "v" ∨ ev.key = "x")) →
      Test.step s (Test.Input.event ev e) = (s, [])) ∧
    (∀ (s : Test.State) (ev : Event), (Test.preventKeyboardShortcuts ev s).1 = s) ∧
    (∀ (s : Test.State) (ev : Event) (e : Env), s.listeners = Test.registerAll [] →
      ev.type = EventType.keydown → (Test.step s (Test.Input.event ev e)).1 = s) := by
  have quiet : ∀ (s : Test.State) (ev : Event),
      ¬ (ev.ctrlKey = true ∧ (ev.key = "c" ∨ ev.key = "v" ∨ ev.key = "x")) →
      Test.preventKeyboardShortcuts ev s = (s, []) := by
    intro s ev h
    have hc : (ev.ctrlKey && (ev.key == "c" || ev.key == "v" || ev.key == "x")) = false := by
      cases hk : (ev.ctrlKey && (ev.key == "c" || ev.key == "v" || ev.key == "x"))
      · rfl
      · exfalso
        apply h
        simpa [or_assoc] using hk
    simp [Test.preventKeyboardShortcuts, hc]
  have frame : ∀ (s : Test.State) (ev : Event), (Test.preventKeyboardShortcuts ev s).1 = s := by
    intro s ev
    simp only [Test.preventKeyboardShortcuts]
    split_ifs <;> rfl
  have disp : ∀ (s : Test.State) (ev : Event) (e : Env), s.listeners = Test.registerAll [] →
      ev.type = EventType.keydown →
      Test.step s (Test.Input.event ev e) = Test.preventKeyboardShortcuts ev s := by
    intro s ev e hl ht
    simp only [Test.step, Test.dispatch]
    rw [hl, Test.registerAll_nil]
    simp [runListeners, ht, Test.runHandler]
  refine ⟨quiet, ?_, frame, ?_⟩
  · intro s ev e hl ht h
    rw [disp s ev e hl ht, quiet s ev h]
  · intro s ev e hl ht
    rw [disp s ev e hl ht, frame s ev]

/-- C22 at concrete inputs: Cmd+C, Ctrl+A and Ctrl+C on a freshly mounted `Test`. -/
theorem C22_no_keyboard_over_blocking_witness :
    (¬ ((keydownEvent "c" false true).ctrlKey = true ∧
        ((keydownEvent "c" false true).key = "c" ∨ (keydownEvent "c" false true).key = "v" ∨
          (keydownEvent "c" false true).key = "x")) ∧
      Test.preventKeyboardShortcuts (keydownEvent "c" false true) (Test.mount envFullscreen).1
        = ((Test.mount envFullscreen).1, [])) ∧
    ((Test.mount envFullscreen).1.listeners = Test.registerAll [] ∧
      (keydownEvent "a" true false).type = EventType.keydown ∧
      Test.step (Test.mount envFullscreen).1
        (Test.Input.event (keydownEvent "a" true false) envFullscreen)
        = ((Test.mount envFullscreen).1, [])) ∧
    ((keydownEvent "c" true false).type = EventType.keydown ∧
      (Test.step (Test.mount envFullscreen).1
        (Test.Input.event (keydownEvent "c" true false) envFullscreen)).1
        = (Test.mount envFullscreen).1) :=
  ⟨⟨by decide,
    C22_no_keyboard_over_blocking.1 (Test.mount envFullscreen).1 (keydownEvent "c" false true)
      (by decide)⟩,
   ⟨by decide, by decide,
    C22_no_keyboard_over_blocking.2.1 (Test.mount envFullscreen).1 (keydownEvent "a" true false)
      envFullscreen (by decide) (by decide) (by decide)⟩,
   ⟨by decide,
    C22_no_keyboard_over_blocking.2.2.2 (Test.mount envFullscreen).1
      (keydownEvent "c" true false) envFullscreen (by decide) (by decide)⟩⟩

end Proctor
